import Mathlib

/-!
# hellovr_opengl: the render-model cache, the pose refresh and the frame

A shallow embedding of the render-model bookkeeping, the per-frame pose refresh and the frame
rendering of `samples/hellovr_opengl/hellovr_opengl_main.c`.

* C arrays of `MAX_TRACKED_DEVICE_COUNT` elements are functions on `Fin 16`.
* `CGLRenderModel*` values are heap addresses (`Ptr`), `NULL` is `none`; the heap maps an
  address to the `CGLRenderModel` stored there and `malloc` hands out the next unused address.
* The VR runtime and the GL driver are external: their state is an arbitrary type `W`, and each
  function-table entry is an arbitrary transition on `W`.  Every external call is also appended
  to a trace, so that the calls made by a routine can be counted.
* `while (1)` polling loops take a poll budget; `Outcome.spinning` means the budget ran out with
  the loop still polling.
* `free` of a string literal has no defined behaviour; a routine that does it ends in
  `Outcome.undefined`.
-/

namespace HelloVR

/-! ## Constants and plain data -/

/-- The array length `#define MAX_TRACKED_DEVICE_COUNT 16`. -/
abbrev MAX_TRACKED_DEVICE_COUNT : Nat := 16

/-- Modelled from the spec: `k_unMaxTrackedDeviceCount` is declared in `openvr_capi_fixed.h`,
which is not part of the sources; the source names it in the comment above
`MAX_TRACKED_DEVICE_COUNT` and the spec fixes the capacity at 16. -/
abbrev k_unMaxTrackedDeviceCount : Nat := 16

/-- Modelled from the spec: `k_unTrackedDeviceIndex_Hmd` is declared in `openvr_capi_fixed.h`;
the head-mounted display is device 0. -/
abbrev k_unTrackedDeviceIndex_Hmd : Nat := 0

/-- A C string: the list of its `char` values; a 0 inside the list ends the string early, as
the terminator does in memory. -/
abbrev CString := List Nat

/-- The C string of a string literal. -/
def cstr (s : String) : CString := s.toList.map Char.toNat

/-- A non-null `CGLRenderModel*`. -/
abbrev Ptr := Nat

/-- Modelled from the spec: the C library routine `tolower` on ASCII letters. -/
def tolower (c : Nat) : Nat :=
  if 65 ≤ c ∧ c ≤ 90 then c + 32 else c

/-- Modelled from the spec: `stricmp` is a C library routine (case-insensitive `strcmp`), not
defined in the sources.  It walks both strings, lower-cases the two current characters (the
terminator 0 past the end), stops when they differ or when both strings have ended, and
returns their difference. -/
def stricmp : CString → CString → Int
  | [], [] => 0
  | [], b :: _ => 0 - (tolower b : Int)
  | a :: _, [] => (tolower a : Int)
  | a :: as, b :: bs =>
    if tolower a = tolower b then
      if tolower a = 0 then 0 else stricmp as bs
    else (tolower a : Int) - (tolower b : Int)

/-- The lower-cased characters of a C string up to its terminator: what `stricmp` compares. -/
def lowerKey : CString → List Nat
  | [] => []
  | c :: cs => if tolower c = 0 then [] else tolower c :: lowerKey cs

/-- Modelled from the spec: the result codes of the asynchronous loaders (`EVRRenderModelError`
of `openvr_capi_fixed.h`): success, still loading, or any other enumerator (an error). -/
inductive EVRRenderModelError where
  | VRRenderModelError_None
  | VRRenderModelError_Loading
  | VRRenderModelError_Failed (code : Nat)
  deriving DecidableEq, Repr

/-- Modelled from the spec: the fields of `RenderModel_t` that the sample reads; the vertex and
index arrays are runtime-owned and stand as handles. -/
structure RenderModel_t where
  rVertexData : Nat
  unVertexCount : Nat
  rIndexData : Nat
  unTriangleCount : Nat
  diffuseTextureId : Int
  deriving DecidableEq, Repr

/-- Modelled from the spec: the fields of `RenderModel_TextureMap_t` that the sample reads. -/
structure RenderModel_TextureMap_t where
  unWidth : Nat
  unHeight : Nat
  rubTextureMapData : Nat
  deriving DecidableEq, Repr

/-- Modelled from the spec: the two string properties the render-model code queries
(`ETrackedDeviceProperty`). -/
inductive ETrackedDeviceProperty where
  | Prop_TrackingSystemName_String
  | Prop_RenderModelName_String
  deriving DecidableEq, Repr

/-- Modelled from the spec: the event types `CMainApplication_ProcessVREvent` switches on
(`EVREventType`), and every other type. -/
inductive EVREventType where
  | VREvent_TrackedDeviceActivated
  | VREvent_TrackedDeviceDeactivated
  | VREvent_TrackedDeviceUpdated
  | VREvent_Other (code : Nat)
  deriving DecidableEq, Repr

/-- Modelled from the spec: the fields of `VREvent_t` that the sample reads. -/
structure VREvent_t where
  eventType : EVREventType
  trackedDeviceIndex : Nat
  deriving DecidableEq, Repr

/-- Modelled from the spec: the device classes `CMainApplication_UpdateHMDMatrixPose` switches
on (`ETrackedDeviceClass` of `openvr_capi_fixed.h`), and every other value. -/
inductive ETrackedDeviceClass where
  | TrackedDeviceClass_Invalid
  | TrackedDeviceClass_HMD
  | TrackedDeviceClass_Controller
  | TrackedDeviceClass_GenericTracker
  | TrackedDeviceClass_TrackingReference
  | TrackedDeviceClass_Other (code : Nat)
  deriving DecidableEq, Repr

/-- Modelled from the spec: the two eyes of `Hmd_Eye` (`EVREye`). -/
inductive Hmd_Eye where
  | Eye_Left
  | Eye_Right
  deriving DecidableEq, Repr

/-- A C `float`, as the 32 bits that hold it.  The program only stores and copies floats; all
arithmetic on them is done by routines outside the sources. -/
structure float where
  bits : Nat
  deriving DecidableEq, Repr

/-- The constant `0.0`. -/
instance : Zero float := ⟨⟨0⟩⟩

/-- The constant `1.0f`. -/
instance : One float := ⟨⟨0x3F800000⟩⟩

/-- Modelled from the spec: `HmdMatrix34_t` of `openvr_capi_fixed.h`, `float m[3][4]`. -/
structure HmdMatrix34_t where
  m : Fin 3 → Fin 4 → float
  deriving DecidableEq

/-- Modelled from the spec: `Matrix4` of `shared/Matrices.h`, `float m[16]` in column-major
order. -/
structure Matrix4 where
  m : Fin 16 → float
  deriving DecidableEq, Repr

/-- Modelled from the spec: `HmdMatrix44_t` of `openvr_capi_fixed.h`, `float m[4][4]`. -/
structure HmdMatrix44_t where
  m : Fin 4 → Fin 4 → float
  deriving DecidableEq

/-- Modelled from the spec: `Matrix4_identity` of `shared/Matrices.h`, ones on the diagonal. -/
def Matrix4_identity : Matrix4 :=
  { m := ![1, 0, 0, 0,
           0, 1, 0, 0,
           0, 0, 1, 0,
           0, 0, 0, 1] }

/-- Modelled from the spec: the fields of `TrackedDevicePose_t` that the sample reads. -/
structure TrackedDevicePose_t where
  mDeviceToAbsoluteTracking : HmdMatrix34_t
  bPoseIsValid : Bool
  deriving DecidableEq

/-- A `char*`: the string it was set to and the distance it has been moved from its start. -/
structure CharPtr where
  base : CString
  offset : Int
  deriving DecidableEq, Repr

/-- The struct `CGLRenderModel`; the field `m_unVertexCount` is a `GLsizei`, a signed 32-bit
integer. -/
structure CGLRenderModel where
  m_glVertBuffer : Nat
  m_glIndexBuffer : Nat
  m_glVertArray : Nat
  m_glTexture : Nat
  m_unVertexCount : Int
  m_sModelName : CString
  deriving DecidableEq, Repr

/-- The fields of the struct `CMainApplication` that the render-model code, the pose code and
the frame code read or write. -/
structure CMainApplication where
  m_bVblank : Bool
  m_bGlFinishHack : Bool
  m_rTrackedDevicePose : Fin MAX_TRACKED_DEVICE_COUNT → TrackedDevicePose_t
  m_rmat4DevicePose : Fin MAX_TRACKED_DEVICE_COUNT → Matrix4
  m_rbShowTrackedDevice : Fin MAX_TRACKED_DEVICE_COUNT → Bool
  m_iTrackedControllerCount : Int
  m_iTrackedControllerCount_Last : Int
  m_iValidPoseCount : Int
  m_iValidPoseCount_Last : Int
  m_bShowCubes : Bool
  m_strPoseClasses : CharPtr
  m_rDevClassChar : Fin MAX_TRACKED_DEVICE_COUNT → Nat
  m_fNearClip : float
  m_fFarClip : float
  m_glControllerVertBuffer : Nat
  m_unControllerVAO : Nat
  m_uiControllerVertcount : Nat
  m_mat4HMDPose : Matrix4
  m_mat4eyePosLeft : Matrix4
  m_mat4eyePosRight : Matrix4
  m_mat4ProjectionLeft : Matrix4
  m_mat4ProjectionRight : Matrix4
  m_vecRenderModels : Fin MAX_TRACKED_DEVICE_COUNT → Option Ptr
  m_rTrackedDeviceToRenderModel : Fin MAX_TRACKED_DEVICE_COUNT → Option Ptr

/-! ## The outside world -/

/-- The entries of the function table `VR_IVRRenderModels` that the sample calls.  The loaders
return the result code together with what they stored through the out-pointer. -/
structure VR_IVRRenderModels (W : Type) where
  LoadRenderModel_Async : W → CString → (EVRRenderModelError × RenderModel_t) × W
  LoadTexture_Async : W → Int → (EVRRenderModelError × RenderModel_TextureMap_t) × W
  FreeRenderModel : W → RenderModel_t → W
  FreeTexture : W → RenderModel_TextureMap_t → W
  GetRenderModelErrorNameFromEnum : W → EVRRenderModelError → CString × W

/-- The entries of the function table `VR_IVRSystem` that the render-model code, the pose code
and the frame code call.  `GetStringTrackedDeviceProperty w dev prop size` returns the required
length and the string it left in the caller's buffer; `GetProjectionMatrix w eye near far` and
`GetEyeToHeadTransform w eye` return the matrix of the eye. -/
structure VR_IVRSystem (W : Type) where
  GetStringTrackedDeviceProperty :
    W → Nat → ETrackedDeviceProperty → Nat → (Nat × CString) × W
  IsTrackedDeviceConnected : W → Nat → Bool × W
  GetTrackedDeviceClass : W → Nat → ETrackedDeviceClass × W
  IsInputFocusCapturedByAnotherProcess : W → Bool × W
  GetProjectionMatrix : W → Hmd_Eye → float → float → HmdMatrix44_t × W
  GetEyeToHeadTransform : W → Hmd_Eye → HmdMatrix34_t × W

/-- The entries of the function table `VR_IVRCompositor` that the pose code and the frame code
call.  `WaitGetPoses w poses` returns what the runtime left in the caller's array of 16 poses;
`Submit w eye` hands over the image of one eye (its result is not read). -/
structure VR_IVRCompositor (W : Type) where
  WaitGetPoses : W → (Fin MAX_TRACKED_DEVICE_COUNT → TrackedDevicePose_t) →
    (Fin MAX_TRACKED_DEVICE_COUNT → TrackedDevicePose_t) × W
  Submit : W → Hmd_Eye → W

/-- The GL entry points of `CGLRenderModel_BInit` that hand a name back to the caller. -/
structure GLDriver (W : Type) where
  glGenVertexArrays : W → Nat × W
  glGenBuffers : W → Nat × W
  glGenTextures : W → Nat × W

/-- One externally visible action of the program. -/
inductive Event where
  | LoadRenderModel_Async (pchRenderModelName : CString) (error : EVRRenderModelError)
  | LoadTexture_Async (textureId : Int) (error : EVRRenderModelError)
  | FreeRenderModel (pModel : RenderModel_t)
  | FreeTexture (pTexture : RenderModel_TextureMap_t)
  | GetRenderModelErrorNameFromEnum (error : EVRRenderModelError)
  | GetStringTrackedDeviceProperty (unDevice : Nat) (prop : ETrackedDeviceProperty) (size : Nat)
  | IsTrackedDeviceConnected (unDevice : Nat)
  | ThreadSleep (nMilliseconds : Nat)
  | dprintf (fmt : String)
  | mallocModel (p : Ptr)
  | freeModel (p : Ptr)
  | mallocString (size : Nat)
  | freeString (str : CString)
  | gl (call : String)
  | exit (code : Nat)
  | WaitGetPoses
  | GetTrackedDeviceClass (unDevice : Nat)
  | IsInputFocusCapturedByAnotherProcess
  | GetProjectionMatrix (eEye : Hmd_Eye) (fNearZ fFarZ : float)
  | GetEyeToHeadTransform (eEye : Hmd_Eye)
  | Submit (eEye : Hmd_Eye)
  | glUniformMatrix4fv (value : Matrix4)
  | CGLRenderModel_Draw (self : Ptr)
  | SDL_GL_SwapWindow
  deriving DecidableEq, Repr

/-- The whole machine: the application struct, the heap of `CGLRenderModel` objects with the
next address `malloc` returns, the state of the outside world and the trace so far. -/
structure Machine (W : Type) where
  self : CMainApplication
  heap : Ptr → CGLRenderModel
  brk : Ptr
  world : W
  trace : List Event

/-- How a routine ends: it returns `a`, it calls `exit(code)`, its polling loop is still
running when the poll budget is used up, or it has passed to `free` a pointer that `malloc`
did not return: the C language leaves the behaviour of that call undefined, the routine
cannot be said to return or to exit, and no machine is left to look at. -/
inductive Outcome (α σ : Type) where
  | ret (a : α) (s : σ)
  | exit (code : Nat) (s : σ)
  | spinning
  | undefined

/-! ## Primitive effects -/

variable {W : Type}

/-- Append one event to the trace. -/
def Machine.emit (s : Machine W) (e : Event) : Machine W :=
  { s with trace := s.trace ++ [e] }

/-- Append several events to the trace, in order. -/
def Machine.emits (s : Machine W) (es : List Event) : Machine W :=
  { s with trace := s.trace ++ es }

/-- The routine `dprintf`: output only. -/
def dprintf (s : Machine W) (fmt : String) : Machine W :=
  s.emit (.dprintf fmt)

/-- The routine `ThreadSleep`: it only lets time pass. -/
def ThreadSleep (nMilliseconds : Nat) (s : Machine W) : Machine W :=
  s.emit (.ThreadSleep nMilliseconds)

/-- The call `malloc(sizeof(CGLRenderModel))`: the next unused address; the object there is
not initialised (it keeps whatever the heap held). -/
def malloc (s : Machine W) : Ptr × Machine W :=
  (s.brk, { s with brk := s.brk + 1, trace := s.trace ++ [.mallocModel s.brk] })

/-! ## CGLRenderModel -/

/-- The routine `CGLRenderModel_init`: zero the four GL names and store the name pointer;
`m_unVertexCount` is not written. -/
def CGLRenderModel_init (s : Machine W) (self : Ptr) (sRenderModelName : CString) :
    Machine W :=
  let obj : CGLRenderModel :=
    { (s.heap self) with
      m_glIndexBuffer := 0
      m_glVertArray := 0
      m_glVertBuffer := 0
      m_glTexture := 0
      m_sModelName := sRenderModelName }
  { s with heap := Function.update s.heap self obj }

/-- The GL calls of `CGLRenderModel_BInit`, in program order. -/
def CGLRenderModel_BInit_calls : List Event :=
  [.gl "glGenVertexArrays", .gl "glBindVertexArray",
   .gl "glGenBuffers", .gl "glBindBuffer", .gl "glBufferData",
   .gl "glEnableVertexAttribArray", .gl "glVertexAttribPointer",
   .gl "glEnableVertexAttribArray", .gl "glVertexAttribPointer",
   .gl "glEnableVertexAttribArray", .gl "glVertexAttribPointer",
   .gl "glGenBuffers", .gl "glBindBuffer", .gl "glBufferData",
   .gl "glBindVertexArray",
   .gl "glGenTextures", .gl "glBindTexture", .gl "glTexImage2D", .gl "glGenerateMipmap",
   .gl "glTexParameteri", .gl "glTexParameteri", .gl "glTexParameteri", .gl "glTexParameteri",
   .gl "glGetFloatv", .gl "glTexParameterf", .gl "glBindTexture"]

/-- The conversion of a `uint32_t` value to the signed 32-bit `GLsizei` on a two's-complement
machine: values from `2^31` on become negative. -/
def GLsizei_of_uint32 (v : Nat) : Int :=
  if v % 2 ^ 32 < 2 ^ 31 then ((v % 2 ^ 32 : Nat) : Int)
  else ((v % 2 ^ 32 : Nat) : Int) - 2 ^ 32

/-- The routine `CGLRenderModel_BInit`: create the vertex array, the vertex buffer, the index
buffer and the texture, record `unTriangleCount * 3` as the vertex count (the product is
taken in `uint32_t` and stored in the signed `GLsizei` field, so a product of `2^31` or more
is stored as a negative count), and return `true`. -/
def CGLRenderModel_BInit (gl : GLDriver W) (s : Machine W) (self : Ptr)
    (vrModel : RenderModel_t) (_vrDiffuseTexture : RenderModel_TextureMap_t) :
    Bool × Machine W :=
  let vao := gl.glGenVertexArrays s.world
  let vbo := gl.glGenBuffers vao.2
  let ibo := gl.glGenBuffers vbo.2
  let tex := gl.glGenTextures ibo.2
  let obj : CGLRenderModel :=
    { (s.heap self) with
      m_glVertArray := vao.1
      m_glVertBuffer := vbo.1
      m_glIndexBuffer := ibo.1
      m_glTexture := tex.1
      m_unVertexCount := GLsizei_of_uint32 ((vrModel.unTriangleCount * 3) % 2 ^ 32) }
  (true,
   { s with
     world := tex.2
     heap := Function.update s.heap self obj
     trace := s.trace ++ CGLRenderModel_BInit_calls })

/-! ## CMainApplication_FindOrLoadRenderModel -/

/-- The first loop of `CMainApplication_FindOrLoadRenderModel` from index `i` on, with at most
`n` iterations left: stop with no result at the first `NULL` slot, stop with the model at the
first slot whose name compares equal under `stricmp`. -/
def FindOrLoadRenderModel_scan (self : CMainApplication) (heap : Ptr → CGLRenderModel)
    (pchRenderModelName : CString) : Nat → Nat → Option Ptr
  | 0, _ => none
  | n + 1, i =>
    if h : i < k_unMaxTrackedDeviceCount then
      match self.m_vecRenderModels ⟨i, h⟩ with
      | none => none
      | some model =>
        if stricmp (heap model).m_sModelName pchRenderModelName = 0 then some model
        else FindOrLoadRenderModel_scan self heap pchRenderModelName n (i + 1)
    else none

/-- The loop `while (1)` around `LoadRenderModel_Async`, with a budget of polls: poll, leave
the loop on any result other than `Loading`, otherwise sleep 1 ms and poll again. -/
def LoadRenderModel_poll (rm : VR_IVRRenderModels W) (pchRenderModelName : CString) :
    Nat → Machine W → Option (EVRRenderModelError × RenderModel_t × Machine W)
  | 0, _ => none
  | fuel + 1, s =>
    let r := rm.LoadRenderModel_Async s.world pchRenderModelName
    let s1 : Machine W :=
      { s with world := r.2
               trace := s.trace ++ [.LoadRenderModel_Async pchRenderModelName r.1.1] }
    if r.1.1 ≠ .VRRenderModelError_Loading then some (r.1.1, r.1.2, s1)
    else LoadRenderModel_poll rm pchRenderModelName fuel (ThreadSleep 1 s1)

/-- The loop `while (1)` around `LoadTexture_Async`, with a budget of polls. -/
def LoadTexture_poll (rm : VR_IVRRenderModels W) (textureId : Int) :
    Nat → Machine W → Option (EVRRenderModelError × RenderModel_TextureMap_t × Machine W)
  | 0, _ => none
  | fuel + 1, s =>
    let r := rm.LoadTexture_Async s.world textureId
    let s1 : Machine W :=
      { s with world := r.2
               trace := s.trace ++ [.LoadTexture_Async textureId r.1.1] }
    if r.1.1 ≠ .VRRenderModelError_Loading then some (r.1.1, r.1.2, s1)
    else LoadTexture_poll rm textureId fuel (ThreadSleep 1 s1)

/-- The call `FreeRenderModel(pModel)`. -/
def FreeRenderModel (rm : VR_IVRRenderModels W) (s : Machine W) (pModel : RenderModel_t) :
    Machine W :=
  { s with world := rm.FreeRenderModel s.world pModel
           trace := s.trace ++ [.FreeRenderModel pModel] }

/-- The call `FreeTexture(pTexture)`. -/
def FreeTexture (rm : VR_IVRRenderModels W) (s : Machine W)
    (pTexture : RenderModel_TextureMap_t) : Machine W :=
  { s with world := rm.FreeTexture s.world pTexture
           trace := s.trace ++ [.FreeTexture pTexture] }

/-- The call `GetRenderModelErrorNameFromEnum(error)`. -/
def GetRenderModelErrorNameFromEnum (rm : VR_IVRRenderModels W) (s : Machine W)
    (error : EVRRenderModelError) : Machine W :=
  { s with world := (rm.GetRenderModelErrorNameFromEnum s.world error).2
           trace := s.trace ++ [.GetRenderModelErrorNameFromEnum error] }

/-- The second loop of `CMainApplication_FindOrLoadRenderModel` from index `i` on, with at most
`n` iterations left: store `pRenderModel` in the first `NULL` slot and stop; at a populated
slot with `i == k_unMaxTrackedDeviceCount - 1` print and `exit(1)`. -/
def FindOrLoadRenderModel_insert (pRenderModel : Ptr) :
    Nat → Nat → Machine W → Outcome Unit (Machine W)
  | 0, _, s => .ret () s
  | n + 1, i, s =>
    if h : i < k_unMaxTrackedDeviceCount then
      match s.self.m_vecRenderModels ⟨i, h⟩ with
      | none =>
        let vec := Function.update s.self.m_vecRenderModels ⟨i, h⟩ (some pRenderModel)
        .ret () { s with self := { s.self with m_vecRenderModels := vec } }
      | some _ =>
        if i = k_unMaxTrackedDeviceCount - 1 then
          .exit 1 ((dprintf s "No place in array to fit render model %s").emit (.exit 1))
        else FindOrLoadRenderModel_insert pRenderModel n (i + 1) s
    else .ret () s

/-- The routine `CMainApplication_FindOrLoadRenderModel`; `fuel` bounds the polls of each of
the two polling loops. -/
def CMainApplication_FindOrLoadRenderModel (rm : VR_IVRRenderModels W) (gl : GLDriver W)
    (fuel : Nat) (s : Machine W) (pchRenderModelName : CString) :
    Outcome (Option Ptr) (Machine W) :=
  match FindOrLoadRenderModel_scan s.self s.heap pchRenderModelName
      k_unMaxTrackedDeviceCount 0 with
  | some pRenderModel => .ret (some pRenderModel) s
  | none =>
    match LoadRenderModel_poll rm pchRenderModelName fuel s with
    | none => .spinning
    | some (error, pModel, s1) =>
      if error ≠ .VRRenderModelError_None then
        .ret none
          (dprintf (GetRenderModelErrorNameFromEnum rm s1 error)
            "Unable to load render model %s - %s")
      else
        match LoadTexture_poll rm pModel.diffuseTextureId fuel s1 with
        | none => .spinning
        | some (error, pTexture, s2) =>
          if error ≠ .VRRenderModelError_None then
            .ret none
              (FreeRenderModel rm
                (dprintf s2 "Unable to load render texture id:%d for render model %s")
                pModel)
          else
            let m := malloc s2
            let s3 := CGLRenderModel_init m.2 m.1 pchRenderModelName
            let b := CGLRenderModel_BInit gl s3 m.1 pModel pTexture
            if b.1 = false then
              .ret none
                (FreeTexture rm
                  (FreeRenderModel rm
                    ((dprintf b.2 "Unable to create GL model from render model %s").emit
                      (.freeModel m.1))
                    pModel)
                  pTexture)
            else
              match FindOrLoadRenderModel_insert m.1 k_unMaxTrackedDeviceCount 0 b.2 with
              | .ret _ s4 =>
                .ret (some m.1) (FreeTexture rm (FreeRenderModel rm s4 pModel) pTexture)
              | .exit code s4 => .exit code s4
              | .spinning => .spinning
              | .undefined => .undefined

/-- The routine `CMainApplication_init`, on the fields modelled here and for a command line
without options: it clears `m_vecRenderModels`, the counts, the pose-class string, the class
tags and the GL names of the controller lines, sets the flags, and writes neither
`m_rTrackedDeviceToRenderModel` nor `m_rbShowTrackedDevice` nor any matrix. -/
def CMainApplication_init (self : CMainApplication) : CMainApplication :=
  { self with
    m_bVblank := false
    m_bGlFinishHack := true
    m_glControllerVertBuffer := 0
    m_unControllerVAO := 0
    m_iTrackedControllerCount := 0
    m_iTrackedControllerCount_Last := -1
    m_iValidPoseCount := 0
    m_iValidPoseCount_Last := -1
    m_strPoseClasses := { base := [], offset := 0 }
    m_bShowCubes := true
    m_vecRenderModels := fun _ => none
    m_rDevClassChar := fun _ => 0 }

/-! ## Assigning render models to tracked devices -/

/-- The helper `GetTrackedDeviceString`: ask for the required length with a `NULL` buffer;
return `""` when it is 0, otherwise allocate a buffer, ask again and return the buffer. -/
def GetTrackedDeviceString (pHmd : VR_IVRSystem W) (s : Machine W) (unDevice : Nat)
    (prop : ETrackedDeviceProperty) : CString × Machine W :=
  let r := pHmd.GetStringTrackedDeviceProperty s.world unDevice prop 0
  let s1 : Machine W :=
    { s with world := r.2
             trace := s.trace ++ [.GetStringTrackedDeviceProperty unDevice prop 0] }
  if r.1.1 = 0 then ([], s1)
  else
    let r2 := pHmd.GetStringTrackedDeviceProperty s1.world unDevice prop r.1.1
    (r2.1.2,
     { s1 with world := r2.2
               trace := s1.trace ++
                 [.mallocString r.1.1, .GetStringTrackedDeviceProperty unDevice prop r.1.1] })

/-- Whether `GetTrackedDeviceString`, called in machine `s`, returns the string literal `""`
(the required length reported by the runtime is 0) and not a buffer obtained from `malloc`. -/
def GetTrackedDeviceString_literal (pHmd : VR_IVRSystem W) (s : Machine W) (unDevice : Nat)
    (prop : ETrackedDeviceProperty) : Bool :=
  decide ((pHmd.GetStringTrackedDeviceProperty s.world unDevice prop 0).1.1 = 0)

/-- The routine `CMainApplication_SetupRenderModelForTrackedDevice`.  On the failure branch the
code calls `free(sRenderModelName)`: when the name is the string literal `""` that
`GetTrackedDeviceString` returns for a required length of 0, the call has no defined
behaviour and the routine ends in `Outcome.undefined`; when the name is a `malloc`ed buffer it
is released, the tracking-system name is fetched and the diagnostic is printed.  The
diagnostic still passes the released name to `dprintf`; the text that is printed is not
modelled, only the call. -/
def CMainApplication_SetupRenderModelForTrackedDevice (pHmd : VR_IVRSystem W)
    (rm : VR_IVRRenderModels W) (gl : GLDriver W) (fuel : Nat) (s : Machine W)
    (unTrackedDeviceIndex : Nat) : Outcome Unit (Machine W) :=
  if h : unTrackedDeviceIndex ≥ k_unMaxTrackedDeviceCount then .ret () s
  else
    let name := GetTrackedDeviceString pHmd s unTrackedDeviceIndex .Prop_RenderModelName_String
    match CMainApplication_FindOrLoadRenderModel rm gl fuel name.2 name.1 with
    | .ret none s1 =>
      if GetTrackedDeviceString_literal pHmd s unTrackedDeviceIndex
          .Prop_RenderModelName_String = true then .undefined
      else
        let sys := GetTrackedDeviceString pHmd (s1.emit (.freeString name.1))
          unTrackedDeviceIndex .Prop_TrackingSystemName_String
        .ret () (dprintf sys.2 "Unable to load render model for tracked device %d (%s.%s)")
    | .ret (some pRenderModel) s1 =>
      let idx : Fin MAX_TRACKED_DEVICE_COUNT := ⟨unTrackedDeviceIndex, Nat.lt_of_not_le h⟩
      let dev := Function.update s1.self.m_rTrackedDeviceToRenderModel idx (some pRenderModel)
      let shown := Function.update s1.self.m_rbShowTrackedDevice idx true
      .ret () { s1 with self := { s1.self with
                  m_rTrackedDeviceToRenderModel := dev
                  m_rbShowTrackedDevice := shown } }
    | .exit code s1 => .exit code s1
    | .spinning => .spinning
    | .undefined => .undefined

/-- The loop of `CMainApplication_SetupRenderModels` from device `unTrackedDevice` on, with at
most `n` iterations left: skip the devices that are not connected, set up the others. -/
def SetupRenderModels_loop (pHmd : VR_IVRSystem W) (rm : VR_IVRRenderModels W)
    (gl : GLDriver W) (fuel : Nat) : Nat → Nat → Machine W → Outcome Unit (Machine W)
  | 0, _, s => .ret () s
  | n + 1, unTrackedDevice, s =>
    if unTrackedDevice < k_unMaxTrackedDeviceCount then
      let c := pHmd.IsTrackedDeviceConnected s.world unTrackedDevice
      let s1 : Machine W :=
        { s with world := c.2
                 trace := s.trace ++ [.IsTrackedDeviceConnected unTrackedDevice] }
      if c.1 = false then SetupRenderModels_loop pHmd rm gl fuel n (unTrackedDevice + 1) s1
      else
        match CMainApplication_SetupRenderModelForTrackedDevice pHmd rm gl fuel s1
            unTrackedDevice with
        | .ret _ s2 => SetupRenderModels_loop pHmd rm gl fuel n (unTrackedDevice + 1) s2
        | .exit code s2 => .exit code s2
        | .spinning => .spinning
        | .undefined => .undefined
    else .ret () s

/-- The routine `CMainApplication_SetupRenderModels`: clear the device slot table, then, with
an HMD, set up every connected device from index 1 on. -/
def CMainApplication_SetupRenderModels (m_pHMD : Option (VR_IVRSystem W))
    (rm : VR_IVRRenderModels W) (gl : GLDriver W) (fuel : Nat) (s : Machine W) :
    Outcome Unit (Machine W) :=
  let s0 : Machine W :=
    { s with self := { s.self with m_rTrackedDeviceToRenderModel := fun _ => none } }
  match m_pHMD with
  | none => .ret () s0
  | some pHmd =>
    SetupRenderModels_loop pHmd rm gl fuel k_unMaxTrackedDeviceCount
      (k_unTrackedDeviceIndex_Hmd + 1) s0

/-- The routine `CMainApplication_ProcessVREvent`. -/
def CMainApplication_ProcessVREvent (pHmd : VR_IVRSystem W) (rm : VR_IVRRenderModels W)
    (gl : GLDriver W) (fuel : Nat) (s : Machine W) (event : VREvent_t) :
    Outcome Unit (Machine W) :=
  match event.eventType with
  | .VREvent_TrackedDeviceActivated =>
    match CMainApplication_SetupRenderModelForTrackedDevice pHmd rm gl fuel s
        event.trackedDeviceIndex with
    | .ret _ s1 => .ret () (dprintf s1 "Device %u attached. Setting up render model.")
    | .exit code s1 => .exit code s1
    | .spinning => .spinning
    | .undefined => .undefined
  | .VREvent_TrackedDeviceDeactivated => .ret () (dprintf s "Device %u detached.")
  | .VREvent_TrackedDeviceUpdated => .ret () (dprintf s "Device %u updated.")
  | .VREvent_Other _ => .ret () s

/-! ## Poses and matrices -/

/-- The routine `CMainApplication_ConvertSteamVRMatrixToMatrix4`; it does not read `self`. -/
def CMainApplication_ConvertSteamVRMatrixToMatrix4 (matPose : HmdMatrix34_t) : Matrix4 :=
  { m := ![matPose.m 0 0, matPose.m 1 0, matPose.m 2 0, 0,
           matPose.m 0 1, matPose.m 1 1, matPose.m 2 1, 0,
           matPose.m 0 2, matPose.m 1 2, matPose.m 2 2, 0,
           matPose.m 0 3, matPose.m 1 3, matPose.m 2 3, 1] }

/-- The routine `CMainApplication_GetCurrentViewProjectionMatrix`.  The routine
`Matrix4_multiply_Matrix4` of `shared/Matrices.h` is not part of the sources and is a
parameter. -/
def CMainApplication_GetCurrentViewProjectionMatrix
    (Matrix4_multiply_Matrix4 : Matrix4 → Matrix4 → Matrix4) (self : CMainApplication)
    (nEye : Hmd_Eye) : Matrix4 :=
  let matProjEyePos :=
    match nEye with
    | .Eye_Left => Matrix4_multiply_Matrix4 self.m_mat4ProjectionLeft self.m_mat4eyePosLeft
    | .Eye_Right => Matrix4_multiply_Matrix4 self.m_mat4ProjectionRight self.m_mat4eyePosRight
  Matrix4_multiply_Matrix4 matProjEyePos self.m_mat4HMDPose

/-- The `switch` of `CMainApplication_UpdateHMDMatrixPose`: the character for a device
class. -/
def classChar : ETrackedDeviceClass → Nat
  | .TrackedDeviceClass_Controller => Char.toNat 'C'
  | .TrackedDeviceClass_HMD => Char.toNat 'H'
  | .TrackedDeviceClass_Invalid => Char.toNat 'I'
  | .TrackedDeviceClass_GenericTracker => Char.toNat 'G'
  | .TrackedDeviceClass_TrackingReference => Char.toNat 'T'
  | .TrackedDeviceClass_Other _ => Char.toNat '?'

/-- The body of the loop of `CMainApplication_UpdateHMDMatrixPose` for a device `i` whose pose
is valid: count it, store the converted transform, ask for the device class when the class
character is still 0, and add the class character to the pointer `m_strPoseClasses`. -/
def UpdateHMDMatrixPose_body (pHmd : VR_IVRSystem W) (s : Machine W)
    (i : Fin MAX_TRACKED_DEVICE_COUNT) : Machine W :=
  let mat := CMainApplication_ConvertSteamVRMatrixToMatrix4
    (s.self.m_rTrackedDevicePose i).mDeviceToAbsoluteTracking
  let s1 : Machine W :=
    { s with self := { s.self with
        m_iValidPoseCount := s.self.m_iValidPoseCount + 1
        m_rmat4DevicePose := Function.update s.self.m_rmat4DevicePose i mat } }
  let s2 : Machine W :=
    if s1.self.m_rDevClassChar i = 0 then
      let c := pHmd.GetTrackedDeviceClass s1.world i.val
      { s1 with
        world := c.2
        trace := s1.trace ++ [.GetTrackedDeviceClass i.val]
        self := { s1.self with
          m_rDevClassChar := Function.update s1.self.m_rDevClassChar i (classChar c.1) } }
    else s1
  let str : CharPtr :=
    { s2.self.m_strPoseClasses with
      offset := s2.self.m_strPoseClasses.offset + (s2.self.m_rDevClassChar i : Int) }
  { s2 with self := { s2.self with m_strPoseClasses := str } }

/-- The loop of `CMainApplication_UpdateHMDMatrixPose` from device `nDevice` on, with at most
`n` iterations left: the body runs for every device whose pose is valid. -/
def UpdateHMDMatrixPose_loop (pHmd : VR_IVRSystem W) : Nat → Nat → Machine W → Machine W
  | 0, _, s => s
  | n + 1, nDevice, s =>
    if h : nDevice < k_unMaxTrackedDeviceCount then
      if (s.self.m_rTrackedDevicePose ⟨nDevice, h⟩).bPoseIsValid = true then
        UpdateHMDMatrixPose_loop pHmd n (nDevice + 1)
          (UpdateHMDMatrixPose_body pHmd s ⟨nDevice, h⟩)
      else UpdateHMDMatrixPose_loop pHmd n (nDevice + 1) s
    else s

/-- The routine `CMainApplication_UpdateHMDMatrixPose`.  The routine `Matrix4_invert` of
`shared/Matrices.h` is not part of the sources and is a parameter: the matrix it leaves in
place of its argument. -/
def CMainApplication_UpdateHMDMatrixPose (m_pHMD : Option (VR_IVRSystem W))
    (m_pCompositor : VR_IVRCompositor W) (Matrix4_invert : Matrix4 → Matrix4)
    (s : Machine W) : Machine W :=
  match m_pHMD with
  | none => s
  | some pHmd =>
    let poses := m_pCompositor.WaitGetPoses s.world s.self.m_rTrackedDevicePose
    let s1 : Machine W :=
      { s with
        world := poses.2
        trace := s.trace ++ [.WaitGetPoses]
        self := { s.self with
          m_rTrackedDevicePose := poses.1
          m_iValidPoseCount := 0
          m_strPoseClasses := { base := [], offset := 0 } } }
    let s2 := UpdateHMDMatrixPose_loop pHmd k_unMaxTrackedDeviceCount 0 s1
    let hmd : Fin MAX_TRACKED_DEVICE_COUNT := ⟨k_unTrackedDeviceIndex_Hmd, by decide⟩
    if (s2.self.m_rTrackedDevicePose hmd).bPoseIsValid = true then
      let inv := Matrix4_invert (s2.self.m_rmat4DevicePose hmd)
      { s2 with self := { s2.self with
          m_rmat4DevicePose := Function.update s2.self.m_rmat4DevicePose hmd inv
          m_mat4HMDPose := inv } }
    else s2

/-- The routine `CMainApplication_GetHMDMatrixProjectionEye`: the identity without an HMD,
otherwise the projection matrix of the runtime with rows and columns exchanged. -/
def CMainApplication_GetHMDMatrixProjectionEye (m_pHMD : Option (VR_IVRSystem W))
    (s : Machine W) (nEye : Hmd_Eye) : Matrix4 × Machine W :=
  match m_pHMD with
  | none => (Matrix4_identity, s)
  | some pHmd =>
    let r := pHmd.GetProjectionMatrix s.world nEye s.self.m_fNearClip s.self.m_fFarClip
    let mat := r.1
    let mx : Matrix4 :=
      { m := ![mat.m 0 0, mat.m 1 0, mat.m 2 0, mat.m 3 0,
               mat.m 0 1, mat.m 1 1, mat.m 2 1, mat.m 3 1,
               mat.m 0 2, mat.m 1 2, mat.m 2 2, mat.m 3 2,
               mat.m 0 3, mat.m 1 3, mat.m 2 3, mat.m 3 3] }
    (mx,
     { s with
       world := r.2
       trace := s.trace ++
         [.GetProjectionMatrix nEye s.self.m_fNearClip s.self.m_fFarClip] })

/-- The routine `CMainApplication_GetHMDMatrixPoseEye`: the identity without an HMD, otherwise
the eye-to-head transform of the runtime as a 4x4 matrix, inverted by `Matrix4_invert`. -/
def CMainApplication_GetHMDMatrixPoseEye (m_pHMD : Option (VR_IVRSystem W))
    (Matrix4_invert : Matrix4 → Matrix4) (s : Machine W) (nEye : Hmd_Eye) :
    Matrix4 × Machine W :=
  match m_pHMD with
  | none => (Matrix4_identity, s)
  | some pHmd =>
    let r := pHmd.GetEyeToHeadTransform s.world nEye
    let matEyeRight := r.1
    let mx : Matrix4 :=
      { m := ![matEyeRight.m 0 0, matEyeRight.m 1 0, matEyeRight.m 2 0, 0,
               matEyeRight.m 0 1, matEyeRight.m 1 1, matEyeRight.m 2 1, 0,
               matEyeRight.m 0 2, matEyeRight.m 1 2, matEyeRight.m 2 2, 0,
               matEyeRight.m 0 3, matEyeRight.m 1 3, matEyeRight.m 2 3, 1] }
    (Matrix4_invert mx,
     { s with
       world := r.2
       trace := s.trace ++ [.GetEyeToHeadTransform nEye] })

/-- The routine `CMainApplication_SetupCameras`: query and store the projection of the left
eye, the projection of the right eye, the eye matrix of the left eye and the eye matrix of the
right eye, in this order. -/
def CMainApplication_SetupCameras (m_pHMD : Option (VR_IVRSystem W))
    (Matrix4_invert : Matrix4 → Matrix4) (s : Machine W) : Machine W :=
  let pl := CMainApplication_GetHMDMatrixProjectionEye m_pHMD s .Eye_Left
  let s1 : Machine W := { pl.2 with self := { pl.2.self with m_mat4ProjectionLeft := pl.1 } }
  let pr := CMainApplication_GetHMDMatrixProjectionEye m_pHMD s1 .Eye_Right
  let s2 : Machine W := { pr.2 with self := { pr.2.self with m_mat4ProjectionRight := pr.1 } }
  let el := CMainApplication_GetHMDMatrixPoseEye m_pHMD Matrix4_invert s2 .Eye_Left
  let s3 : Machine W := { el.2 with self := { el.2.self with m_mat4eyePosLeft := el.1 } }
  let er := CMainApplication_GetHMDMatrixPoseEye m_pHMD Matrix4_invert s3 .Eye_Right
  { er.2 with self := { er.2.self with m_mat4eyePosRight := er.1 } }

/-! ## Rendering a frame

GL calls are recorded by name; of their arguments only the matrix handed to
`glUniformMatrix4fv` is kept.  A call of `CGLRenderModel_Draw` is recorded with the model it
draws, followed by its GL calls. -/

/-- The GL calls of `CGLRenderModel_Draw`, in program order. -/
def CGLRenderModel_Draw_calls : List Event :=
  [.gl "glBindVertexArray", .gl "glActiveTexture", .gl "glBindTexture", .gl "glDrawElements",
   .gl "glBindVertexArray"]

/-- The routine `CGLRenderModel_Draw`: bind the vertex array and the texture of the model and
draw its `m_unVertexCount` indices. -/
def CGLRenderModel_Draw (s : Machine W) (self : Ptr) : Machine W :=
  s.emits (.CGLRenderModel_Draw self :: CGLRenderModel_Draw_calls)

/-- The body of the render-model loop of `CMainApplication_RenderScene` for one device: skip
the device if its slot is `NULL` or it is not shown, if its pose is not valid, or if input is
captured by another process and the device is a controller (the class is only asked when input
is captured); otherwise upload `viewProjection * m_rmat4DevicePose[device]` and draw the
model. -/
def RenderScene_device (pHmd : VR_IVRSystem W)
    (Matrix4_multiply_Matrix4 : Matrix4 → Matrix4 → Matrix4) (nEye : Hmd_Eye)
    (bIsInputCapturedByAnotherProcess : Bool) (s : Machine W)
    (unTrackedDevice : Fin MAX_TRACKED_DEVICE_COUNT) : Machine W :=
  match s.self.m_rTrackedDeviceToRenderModel unTrackedDevice with
  | none => s
  | some model =>
    if s.self.m_rbShowTrackedDevice unTrackedDevice = false then s
    else if (s.self.m_rTrackedDevicePose unTrackedDevice).bPoseIsValid = false then s
    else
      let asked : Bool × Machine W :=
        if bIsInputCapturedByAnotherProcess = true then
          let c := pHmd.GetTrackedDeviceClass s.world unTrackedDevice.val
          (decide (c.1 = .TrackedDeviceClass_Controller),
           { s with
             world := c.2
             trace := s.trace ++ [.GetTrackedDeviceClass unTrackedDevice.val] })
        else (false, s)
      if asked.1 = true then asked.2
      else
        let proj := CMainApplication_GetCurrentViewProjectionMatrix Matrix4_multiply_Matrix4
          asked.2.self nEye
        let matMVP := Matrix4_multiply_Matrix4 proj
          (asked.2.self.m_rmat4DevicePose unTrackedDevice)
        CGLRenderModel_Draw (asked.2.emit (.glUniformMatrix4fv matMVP)) model

/-- The render-model loop of `CMainApplication_RenderScene` from device `unTrackedDevice` on,
with at most `n` iterations left. -/
def RenderScene_loop (pHmd : VR_IVRSystem W)
    (Matrix4_multiply_Matrix4 : Matrix4 → Matrix4 → Matrix4) (nEye : Hmd_Eye)
    (bIsInputCapturedByAnotherProcess : Bool) : Nat → Nat → Machine W → Machine W
  | 0, _, s => s
  | n + 1, unTrackedDevice, s =>
    if h : unTrackedDevice < k_unMaxTrackedDeviceCount then
      RenderScene_loop pHmd Matrix4_multiply_Matrix4 nEye bIsInputCapturedByAnotherProcess n
        (unTrackedDevice + 1)
        (RenderScene_device pHmd Matrix4_multiply_Matrix4 nEye
          bIsInputCapturedByAnotherProcess s ⟨unTrackedDevice, h⟩)
    else s

/-- The GL calls of `CMainApplication_RenderScene` that draw the cubes. -/
def RenderScene_cubes (viewProjection : Matrix4) : List Event :=
  [.gl "glUseProgram", .glUniformMatrix4fv viewProjection, .gl "glBindVertexArray",
   .gl "glBindTexture", .gl "glDrawArrays", .gl "glBindVertexArray"]

/-- The GL calls of `CMainApplication_RenderScene` that draw the controller axis lines. -/
def RenderScene_axes (viewProjection : Matrix4) : List Event :=
  [.gl "glUseProgram", .glUniformMatrix4fv viewProjection, .gl "glBindVertexArray",
   .gl "glDrawArrays", .gl "glBindVertexArray"]

/-- The routine `CMainApplication_RenderScene`: clear, draw the cubes if they are shown, ask
whether input is captured by another process, draw the controller axis lines if it is not, and
draw the render models of the devices. -/
def CMainApplication_RenderScene (pHmd : VR_IVRSystem W)
    (Matrix4_multiply_Matrix4 : Matrix4 → Matrix4 → Matrix4) (s : Machine W)
    (nEye : Hmd_Eye) : Machine W :=
  let s0 := s.emits [.gl "glClear", .gl "glEnable"]
  let s1 :=
    if s0.self.m_bShowCubes = true then
      s0.emits (RenderScene_cubes
        (CMainApplication_GetCurrentViewProjectionMatrix Matrix4_multiply_Matrix4 s0.self nEye))
    else s0
  let c := pHmd.IsInputFocusCapturedByAnotherProcess s1.world
  let s2 : Machine W :=
    { s1 with
      world := c.2
      trace := s1.trace ++ [.IsInputFocusCapturedByAnotherProcess] }
  let s3 :=
    if c.1 = false then
      s2.emits (RenderScene_axes
        (CMainApplication_GetCurrentViewProjectionMatrix Matrix4_multiply_Matrix4 s2.self nEye))
    else s2
  let s4 := s3.emit (.gl "glUseProgram")
  let s5 := RenderScene_loop pHmd Matrix4_multiply_Matrix4 nEye c.1
    k_unMaxTrackedDeviceCount 0 s4
  s5.emit (.gl "glUseProgram")

/-- The loop of `CMainApplication_RenderControllerAxes` from device `unTrackedDevice` on, with
at most `n` iterations left; `vertdatasize` is the number of floats collected so far.  Every
connected controller is counted; one with a valid pose adds 8 vertices (48 floats).  The
vertex data itself is not modelled. -/
def RenderControllerAxes_loop (pHmd : VR_IVRSystem W) :
    Nat → Nat → Nat → Machine W → Nat × Machine W
  | 0, _, vertdatasize, s => (vertdatasize, s)
  | n + 1, unTrackedDevice, vertdatasize, s =>
    if h : unTrackedDevice < k_unMaxTrackedDeviceCount then
      let c := pHmd.IsTrackedDeviceConnected s.world unTrackedDevice
      let s1 : Machine W :=
        { s with world := c.2
                 trace := s.trace ++ [.IsTrackedDeviceConnected unTrackedDevice] }
      if c.1 = false then
        RenderControllerAxes_loop pHmd n (unTrackedDevice + 1) vertdatasize s1
      else
        let k := pHmd.GetTrackedDeviceClass s1.world unTrackedDevice
        let s2 : Machine W :=
          { s1 with world := k.2
                    trace := s1.trace ++ [.GetTrackedDeviceClass unTrackedDevice] }
        if k.1 ≠ .TrackedDeviceClass_Controller then
          RenderControllerAxes_loop pHmd n (unTrackedDevice + 1) vertdatasize s2
        else
          let s3 : Machine W :=
            { s2 with self := { s2.self with
                m_iTrackedControllerCount := s2.self.m_iTrackedControllerCount + 1 } }
          if (s3.self.m_rTrackedDevicePose ⟨unTrackedDevice, h⟩).bPoseIsValid = false then
            RenderControllerAxes_loop pHmd n (unTrackedDevice + 1) vertdatasize s3
          else
            let s4 : Machine W :=
              { s3 with self := { s3.self with
                  m_uiControllerVertcount := (s3.self.m_uiControllerVertcount + 8) % 2 ^ 32 } }
            RenderControllerAxes_loop pHmd n (unTrackedDevice + 1) (vertdatasize + 48) s4
    else (vertdatasize, s)

/-- The GL calls of `CMainApplication_RenderControllerAxes` that set up the vertex array the
first time through. -/
def RenderControllerAxes_setup : List Event :=
  [.gl "glGenVertexArrays", .gl "glBindVertexArray", .gl "glGenBuffers", .gl "glBindBuffer",
   .gl "glEnableVertexAttribArray", .gl "glVertexAttribPointer",
   .gl "glEnableVertexAttribArray", .gl "glVertexAttribPointer", .gl "glBindVertexArray"]

/-- The routine `CMainApplication_RenderControllerAxes`: nothing if input is captured by
another process; otherwise count the controllers, collect the lines of those with a valid pose,
create the vertex array if there is none yet, and hand the lines to GL if there are any. -/
def CMainApplication_RenderControllerAxes (pHmd : VR_IVRSystem W) (gl : GLDriver W)
    (s : Machine W) : Machine W :=
  let c := pHmd.IsInputFocusCapturedByAnotherProcess s.world
  let s0 : Machine W :=
    { s with world := c.2
             trace := s.trace ++ [.IsInputFocusCapturedByAnotherProcess] }
  if c.1 = true then s0
  else
    let s1 : Machine W :=
      { s0 with self := { s0.self with
          m_uiControllerVertcount := 0
          m_iTrackedControllerCount := 0 } }
    let r := RenderControllerAxes_loop pHmd k_unMaxTrackedDeviceCount
      (k_unTrackedDeviceIndex_Hmd + 1) 0 s1
    let s2 := r.2
    let s3 : Machine W :=
      if s2.self.m_unControllerVAO = 0 then
        let vao := gl.glGenVertexArrays s2.world
        let vbo := gl.glGenBuffers vao.2
        { s2 with
          world := vbo.2
          trace := s2.trace ++ RenderControllerAxes_setup
          self := { s2.self with
            m_unControllerVAO := vao.1
            m_glControllerVertBuffer := vbo.1 } }
      else s2
    let s4 := s3.emit (.gl "glBindBuffer")
    if r.1 > 0 then s4.emit (.gl "glBufferData") else s4

/-- The GL calls of `CMainApplication_RenderStereoTargets` before the scene of the left
eye. -/
def RenderStereoTargets_begin : List Event :=
  [.gl "glClearColor", .gl "glEnable", .gl "glBindFramebuffer", .gl "glViewport"]

/-- The GL calls of `CMainApplication_RenderStereoTargets` after the scene of one eye: resolve
the multisampled image. -/
def RenderStereoTargets_resolve : List Event :=
  [.gl "glBindFramebuffer", .gl "glDisable", .gl "glBindFramebuffer", .gl "glBindFramebuffer",
   .gl "glBlitFramebuffer", .gl "glBindFramebuffer", .gl "glBindFramebuffer"]

/-- The routine `CMainApplication_RenderStereoTargets`: render the scene for the left eye and
for the right eye. -/
def CMainApplication_RenderStereoTargets (pHmd : VR_IVRSystem W)
    (Matrix4_multiply_Matrix4 : Matrix4 → Matrix4 → Matrix4) (s : Machine W) : Machine W :=
  let s1 := s.emits RenderStereoTargets_begin
  let s2 := CMainApplication_RenderScene pHmd Matrix4_multiply_Matrix4 s1 .Eye_Left
  let s3 := s2.emits (RenderStereoTargets_resolve ++
    [.gl "glEnable", .gl "glBindFramebuffer", .gl "glViewport"])
  let s4 := CMainApplication_RenderScene pHmd Matrix4_multiply_Matrix4 s3 .Eye_Right
  s4.emits RenderStereoTargets_resolve

/-- The GL calls of `CMainApplication_RenderCompanionWindow`, in program order. -/
def RenderCompanionWindow_calls : List Event :=
  [.gl "glDisable", .gl "glViewport", .gl "glBindVertexArray", .gl "glUseProgram",
   .gl "glBindTexture", .gl "glTexParameteri", .gl "glTexParameteri", .gl "glTexParameteri",
   .gl "glTexParameteri", .gl "glDrawElements",
   .gl "glBindTexture", .gl "glTexParameteri", .gl "glTexParameteri", .gl "glTexParameteri",
   .gl "glTexParameteri", .gl "glDrawElements",
   .gl "glBindVertexArray", .gl "glUseProgram"]

/-- The routine `CMainApplication_RenderCompanionWindow`. -/
def CMainApplication_RenderCompanionWindow (s : Machine W) : Machine W :=
  s.emits RenderCompanionWindow_calls

/-- The call `Submit(eye, ...)` of the compositor. -/
def Submit (m_pCompositor : VR_IVRCompositor W) (s : Machine W) (eEye : Hmd_Eye) :
    Machine W :=
  { s with world := m_pCompositor.Submit s.world eEye
           trace := s.trace ++ [.Submit eEye] }

/-- The part of `CMainApplication_RenderFrame` between the submission of the two images and
the pose refresh: `glFinish` if asked for, swap and clear the companion window, flush if
asked for, and print the counts when one of them has changed. -/
def RenderFrame_present (s1 : Machine W) : Machine W :=
  let s2 :=
    if s1.self.m_bVblank = true ∧ s1.self.m_bGlFinishHack = true then s1.emit (.gl "glFinish")
    else s1
  let s3 := s2.emits [.SDL_GL_SwapWindow, .gl "glClearColor", .gl "glClear"]
  let s4 := if s3.self.m_bVblank = true then s3.emits [.gl "glFlush", .gl "glFinish"] else s3
  if s4.self.m_iTrackedControllerCount ≠ s4.self.m_iTrackedControllerCount_Last ∨
      s4.self.m_iValidPoseCount ≠ s4.self.m_iValidPoseCount_Last then
    dprintf
      { s4 with self := { s4.self with
          m_iValidPoseCount_Last := s4.self.m_iValidPoseCount
          m_iTrackedControllerCount_Last := s4.self.m_iTrackedControllerCount } }
      "PoseCount:%d(%s) Controllers:%d"
  else s4

/-- The rendering step of `CMainApplication_RenderFrame` with an HMD: the controller axes, the
two eyes and the companion window. -/
def RenderFrame_render (pHmd : VR_IVRSystem W) (gl : GLDriver W)
    (Matrix4_multiply_Matrix4 : Matrix4 → Matrix4 → Matrix4) (s : Machine W) : Machine W :=
  CMainApplication_RenderCompanionWindow
    (CMainApplication_RenderStereoTargets pHmd Matrix4_multiply_Matrix4
      (CMainApplication_RenderControllerAxes pHmd gl s))

/-- The routine `CMainApplication_RenderFrame`: with an HMD, render the controller axes, the
two eyes and the companion window and submit the two images; swap and clear the window; print
the counts when they changed; and, last, refresh the poses. -/
def CMainApplication_RenderFrame (m_pHMD : Option (VR_IVRSystem W))
    (m_pCompositor : VR_IVRCompositor W) (gl : GLDriver W)
    (Matrix4_multiply_Matrix4 : Matrix4 → Matrix4 → Matrix4)
    (Matrix4_invert : Matrix4 → Matrix4) (s : Machine W) : Machine W :=
  let s1 : Machine W :=
    match m_pHMD with
    | some pHmd =>
      Submit m_pCompositor
        (Submit m_pCompositor (RenderFrame_render pHmd gl Matrix4_multiply_Matrix4 s) .Eye_Left)
        .Eye_Right
    | none => s
  CMainApplication_UpdateHMDMatrixPose m_pHMD m_pCompositor Matrix4_invert
    (RenderFrame_present s1)

/-! ## Call sequences -/

/-- A sequence of `CMainApplication_FindOrLoadRenderModel` calls, one per name, collecting the
returned pointers; it stops at the first call that does not return. -/
def FindOrLoadRenderModel_calls (rm : VR_IVRRenderModels W) (gl : GLDriver W) (fuel : Nat) :
    List CString → Machine W → Outcome (List (Option Ptr)) (Machine W)
  | [], s => .ret [] s
  | name :: rest, s =>
    match CMainApplication_FindOrLoadRenderModel rm gl fuel s name with
    | .ret r s1 =>
      match FindOrLoadRenderModel_calls rm gl fuel rest s1 with
      | .ret rs s2 => .ret (r :: rs) s2
      | .exit code s2 => .exit code s2
      | .spinning => .spinning
      | .undefined => .undefined
    | .exit code s1 => .exit code s1
    | .spinning => .spinning
    | .undefined => .undefined

/-- One thing that happens to the running program: a device is assigned its render model, or
a VR event is processed. -/
inductive Step where
  | assign (unTrackedDeviceIndex : Nat)
  | vrEvent (event : VREvent_t)
  deriving DecidableEq, Repr

/-- Run a sequence of steps; it stops at the first step that does not return. -/
def runSteps (pHmd : VR_IVRSystem W) (rm : VR_IVRRenderModels W) (gl : GLDriver W)
    (fuel : Nat) : List Step → Machine W → Outcome Unit (Machine W)
  | [], s => .ret () s
  | .assign unTrackedDeviceIndex :: rest, s =>
    match CMainApplication_SetupRenderModelForTrackedDevice pHmd rm gl fuel s
        unTrackedDeviceIndex with
    | .ret _ s1 => runSteps pHmd rm gl fuel rest s1
    | .exit code s1 => .exit code s1
    | .spinning => .spinning
    | .undefined => .undefined
  | .vrEvent event :: rest, s =>
    match CMainApplication_ProcessVREvent pHmd rm gl fuel s event with
    | .ret _ s1 => runSteps pHmd rm gl fuel rest s1
    | .exit code s1 => .exit code s1
    | .spinning => .spinning
    | .undefined => .undefined

/-- Along a sequence of calls, each call meets a model load and a texture load that end in
success within the poll budget. -/
def loadsSucceed (rm : VR_IVRRenderModels W) (gl : GLDriver W) (fuel : Nat) :
    List CString → Machine W → Bool
  | [], _ => true
  | name :: rest, s =>
    (match LoadRenderModel_poll rm name fuel s with
     | some (.VRRenderModelError_None, m, s1) =>
       (match LoadTexture_poll rm m.diffuseTextureId fuel s1 with
        | some (.VRRenderModelError_None, _, _) => true
        | _ => false)
     | _ => false) &&
    (match CMainApplication_FindOrLoadRenderModel rm gl fuel s name with
     | .ret _ s1 => loadsSucceed rm gl fuel rest s1
     | _ => true)

/-- One operation of the running program on the render-model state: a cache lookup, the
assignment of a device, the per-frame pose refresh, or the processing of a VR event. -/
inductive Operation where
  | find_or_load (pchRenderModelName : CString)
  | assign (unTrackedDeviceIndex : Nat)
  | refresh_poses
  | vrEvent (event : VREvent_t)
  deriving DecidableEq, Repr

/-- Run one operation. -/
def runOperation (pHmd : VR_IVRSystem W) (rm : VR_IVRRenderModels W) (gl : GLDriver W)
    (m_pCompositor : VR_IVRCompositor W) (Matrix4_invert : Matrix4 → Matrix4) (fuel : Nat) :
    Operation → Machine W → Outcome Unit (Machine W)
  | .find_or_load pchRenderModelName, s =>
    match CMainApplication_FindOrLoadRenderModel rm gl fuel s pchRenderModelName with
    | .ret _ s1 => .ret () s1
    | .exit code s1 => .exit code s1
    | .spinning => .spinning
    | .undefined => .undefined
  | .assign unTrackedDeviceIndex, s =>
    CMainApplication_SetupRenderModelForTrackedDevice pHmd rm gl fuel s unTrackedDeviceIndex
  | .refresh_poses, s =>
    .ret () (CMainApplication_UpdateHMDMatrixPose (some pHmd) m_pCompositor Matrix4_invert s)
  | .vrEvent event, s => CMainApplication_ProcessVREvent pHmd rm gl fuel s event

/-- Run a sequence of operations; it stops at the first operation that does not return. -/
def runOperations (pHmd : VR_IVRSystem W) (rm : VR_IVRRenderModels W) (gl : GLDriver W)
    (m_pCompositor : VR_IVRCompositor W) (Matrix4_invert : Matrix4 → Matrix4) (fuel : Nat) :
    List Operation → Machine W → Outcome Unit (Machine W)
  | [], s => .ret () s
  | op :: rest, s =>
    match runOperation pHmd rm gl m_pCompositor Matrix4_invert fuel op s with
    | .ret _ s1 => runOperations pHmd rm gl m_pCompositor Matrix4_invert fuel rest s1
    | .exit code s1 => .exit code s1
    | .spinning => .spinning
    | .undefined => .undefined

/-! ## Observations used in the statements -/

/-- The name matches the requested one: `!stricmp(a, b)`. -/
def sameName (a b : CString) : Prop := stricmp a b = 0

instance (a b : CString) : Decidable (sameName a b) := by
  unfold sameName; infer_instance

/-- The event is a `LoadRenderModel_Async` call. -/
def Event.isLoadRenderModel : Event → Bool
  | .LoadRenderModel_Async _ _ => true
  | _ => false

/-- The event is a `LoadRenderModel_Async` call that was answered `Loading`. -/
def Event.isLoadRenderModelLoading : Event → Bool
  | .LoadRenderModel_Async _ .VRRenderModelError_Loading => true
  | _ => false

/-- The event is a `LoadTexture_Async` call. -/
def Event.isLoadTexture : Event → Bool
  | .LoadTexture_Async _ _ => true
  | _ => false

/-- The event is a `FreeRenderModel` call. -/
def Event.isFreeRenderModel : Event → Bool
  | .FreeRenderModel _ => true
  | _ => false

/-- The event is a GL call. -/
def Event.isGl : Event → Bool
  | .gl _ => true
  | .glUniformMatrix4fv _ => true
  | _ => false

/-- The event is the call `exit`. -/
def Event.isExit : Event → Bool
  | .exit _ => true
  | _ => false

/-- The number of `LoadRenderModel_Async` calls in a trace. -/
def loadModelCalls (t : List Event) : Nat := t.countP Event.isLoadRenderModel

/-- The number of `LoadRenderModel_Async` calls in a trace that were answered `Loading`. -/
def loadModelLoading (t : List Event) : Nat := t.countP Event.isLoadRenderModelLoading

/-- The number of `LoadTexture_Async` calls in a trace. -/
def loadTextureCalls (t : List Event) : Nat := t.countP Event.isLoadTexture

/-- The number of `FreeRenderModel` calls in a trace. -/
def freeRenderModelCalls (t : List Event) : Nat := t.countP Event.isFreeRenderModel

/-- The number of GL calls in a trace. -/
def glCalls (t : List Event) : Nat := t.countP Event.isGl

/-- The number of `exit` calls in a trace. -/
def exitCalls (t : List Event) : Nat := t.countP Event.isExit

/-- The state of the runtime after `k` polls of the model loader for `name`. -/
def modelWorldAfter (rm : VR_IVRRenderModels W) (name : CString) : Nat → W → W
  | 0, w => w
  | k + 1, w => modelWorldAfter rm name k (rm.LoadRenderModel_Async w name).2

/-- What the model loader reports on poll `k + 1` for `name`, polled from the state `w` on. -/
def modelAnswer (rm : VR_IVRRenderModels W) (name : CString) (k : Nat) (w : W) :
    EVRRenderModelError × RenderModel_t :=
  (rm.LoadRenderModel_Async (modelWorldAfter rm name k w) name).1

/-- The state of the runtime after `k` polls of the texture loader for `textureId`. -/
def textureWorldAfter (rm : VR_IVRRenderModels W) (textureId : Int) : Nat → W → W
  | 0, w => w
  | k + 1, w => textureWorldAfter rm textureId k (rm.LoadTexture_Async w textureId).2

/-- What the texture loader reports on poll `k + 1` for `textureId`, polled from the state `w`
on. -/
def textureAnswer (rm : VR_IVRRenderModels W) (textureId : Int) (k : Nat) (w : W) :
    EVRRenderModelError × RenderModel_TextureMap_t :=
  (rm.LoadTexture_Async (textureWorldAfter rm textureId k w) textureId).1

/-- The events of a polling loop that is answered `Loading` `n` times and then `e`: `n` times a
poll followed by a sleep of 1 ms, then the last poll. -/
def retryTrace (poll : EVRRenderModelError → Event) : Nat → EVRRenderModelError → List Event
  | 0, e => [poll e]
  | n + 1, e => poll .VRRenderModelError_Loading :: .ThreadSleep 1 :: retryTrace poll n e

/-- The machine after a model polling loop that was answered `Loading` `n` times and then
something else: the runtime has been polled `n + 1` times and the trace holds the retries. -/
def afterModelPolls (rm : VR_IVRRenderModels W) (name : CString) (n : Nat) (s : Machine W) :
    Machine W :=
  { s with
    world := modelWorldAfter rm name (n + 1) s.world
    trace := s.trace ++
      retryTrace (.LoadRenderModel_Async name) n (modelAnswer rm name n s.world).1 }

/-- The machine after a texture polling loop that was answered `Loading` `n` times and then
something else. -/
def afterTexturePolls (rm : VR_IVRRenderModels W) (textureId : Int) (n : Nat) (s : Machine W) :
    Machine W :=
  { s with
    world := textureWorldAfter rm textureId (n + 1) s.world
    trace := s.trace ++
      retryTrace (.LoadTexture_Async textureId) n (textureAnswer rm textureId n s.world).1 }

/-- The event is a `ThreadSleep` call. -/
def Event.isThreadSleep : Event → Bool
  | .ThreadSleep _ => true
  | _ => false

/-- The number of `ThreadSleep` calls in a trace. -/
def sleepCalls (t : List Event) : Nat := t.countP Event.isThreadSleep

/-- The event is the first property query of `CMainApplication_SetupRenderModelForTrackedDevice`
for device `d`: the render-model name asked with a `NULL` buffer.  Every call of that routine
with an index below 16 issues it once, and nothing else does. -/
def Event.isAssignQuery (d : Nat) : Event → Bool
  | .GetStringTrackedDeviceProperty unDevice .Prop_RenderModelName_String 0 =>
    decide (unDevice = d)
  | _ => false

/-- The number of times `CMainApplication_SetupRenderModelForTrackedDevice` was entered for
device `d` (with `d` below 16), read off the trace. -/
def assignCalls (d : Nat) (t : List Event) : Nat := t.countP (Event.isAssignQuery d)

/-- The event is a call into the function table `VR_IVRSystem`. -/
def Event.isSystemCall : Event → Bool
  | .GetStringTrackedDeviceProperty _ _ _ => true
  | .IsTrackedDeviceConnected _ => true
  | .GetTrackedDeviceClass _ => true
  | .IsInputFocusCapturedByAnotherProcess => true
  | .GetProjectionMatrix _ _ _ => true
  | .GetEyeToHeadTransform _ => true
  | _ => false

/-- The machine a routine leaves behind when it returns or exits. -/
def Outcome.machine? {α σ : Type} : Outcome α σ → Option σ
  | .ret _ s => some s
  | .exit _ s => some s
  | .spinning => none
  | .undefined => none

/-- No populated cache slot holds a model whose name matches `name`. -/
def NoMatch (self : CMainApplication) (heap : Ptr → CGLRenderModel) (name : CString) : Prop :=
  ∀ i, ∀ p ∈ self.m_vecRenderModels i, ¬ sameName (heap p).m_sModelName name

/-- The lookup of `CMainApplication_FindOrLoadRenderModel` finds nothing: a cache miss. -/
def CacheMiss (s : Machine W) (name : CString) : Prop :=
  FindOrLoadRenderModel_scan s.self s.heap name k_unMaxTrackedDeviceCount 0 = none

/-- Slot `j` is the empty cache slot of smallest index. -/
def FirstFree (self : CMainApplication) (j : Fin MAX_TRACKED_DEVICE_COUNT) : Prop :=
  self.m_vecRenderModels j = none ∧ ∀ k, k < j → self.m_vecRenderModels k ≠ none

/-- Every cache slot is populated. -/
def CacheFull (self : CMainApplication) : Prop :=
  ∀ i, self.m_vecRenderModels i ≠ none

/-- The populated cache slots come first: no populated slot follows an empty one. -/
def Packed (self : CMainApplication) : Prop :=
  ∀ i j, i < j → self.m_vecRenderModels j ≠ none → self.m_vecRenderModels i ≠ none

/-- No two populated cache slots hold models whose names match. -/
def UniqueNames (self : CMainApplication) (heap : Ptr → CGLRenderModel) : Prop :=
  ∀ i j, i ≠ j → ∀ p ∈ self.m_vecRenderModels i, ∀ q ∈ self.m_vecRenderModels j,
    ¬ sameName (heap p).m_sModelName (heap q).m_sModelName

/-- Every model in the cache was allocated: its address is below the next one `malloc`
returns. -/
def Allocated (s : Machine W) : Prop :=
  ∀ i, ∀ p ∈ s.self.m_vecRenderModels i, p < s.brk

/-- Every populated device slot refers to a model that is in the cache. -/
def SlotsInCache (self : CMainApplication) : Prop :=
  ∀ i, ∀ p ∈ self.m_rTrackedDeviceToRenderModel i, ∃ j, self.m_vecRenderModels j = some p

instance (self : CMainApplication) (heap : Ptr → CGLRenderModel) (name : CString) :
    Decidable (NoMatch self heap name) := by
  unfold NoMatch; infer_instance

instance (s : Machine W) (name : CString) : Decidable (CacheMiss s name) := by
  unfold CacheMiss; infer_instance

instance (self : CMainApplication) (j : Fin MAX_TRACKED_DEVICE_COUNT) :
    Decidable (FirstFree self j) := by
  unfold FirstFree; infer_instance

instance (self : CMainApplication) : Decidable (CacheFull self) := by
  unfold CacheFull; infer_instance

instance (self : CMainApplication) : Decidable (Packed self) := by
  unfold Packed; infer_instance

instance (self : CMainApplication) (heap : Ptr → CGLRenderModel) :
    Decidable (UniqueNames self heap) := by
  unfold UniqueNames; infer_instance

instance (s : Machine W) : Decidable (Allocated s) := by
  unfold Allocated; infer_instance

instance (self : CMainApplication) : Decidable (SlotsInCache self) := by
  unfold SlotsInCache; infer_instance

/-- The invariant of the render-model cache: the populated slots come first, their models
carry pairwise distinct names, and every model was allocated. -/
def CacheInv (s : Machine W) : Prop :=
  Packed s.self ∧ UniqueNames s.self s.heap ∧ Allocated s

instance (s : Machine W) : Decidable (CacheInv s) := by
  unfold CacheInv; infer_instance

/-- The device indices whose pose in the array `poses` is valid. -/
def devicesWithValidPose (poses : Fin MAX_TRACKED_DEVICE_COUNT → TrackedDevicePose_t) :
    Finset (Fin MAX_TRACKED_DEVICE_COUNT) :=
  Finset.univ.filter fun i => (poses i).bPoseIsValid = true

/-- The device indices among the `n` indices from `nDevice` on whose pose in the array `poses`
is valid. -/
def validPosesFrom (poses : Fin MAX_TRACKED_DEVICE_COUNT → TrackedDevicePose_t)
    (nDevice n : Nat) : Finset (Fin MAX_TRACKED_DEVICE_COUNT) :=
  Finset.univ.filter fun i =>
    nDevice ≤ i.val ∧ i.val < nDevice + n ∧ (poses i).bPoseIsValid = true

/-- The C string a `char*` points to, as long as the pointer still points into the array it
was set to (the characters of `base` and the terminator after them): the rest of that array.
A pointer moved outside the array does not point to a string, and reading through it is
undefined. -/
def CharPtr.string? (p : CharPtr) : Option CString :=
  if 0 ≤ p.offset ∧ p.offset ≤ (p.base.length : Int) then some (p.base.drop p.offset.toNat)
  else none

/-- The pose-class string as the specification words it, to be compared with what the code
leaves in `m_strPoseClasses`: the class characters of the devices whose pose is valid, in
ascending order of device index. -/
def poseClassString (self : CMainApplication) : CString :=
  ((List.finRange MAX_TRACKED_DEVICE_COUNT).filter fun i =>
    (self.m_rTrackedDevicePose i).bPoseIsValid).map self.m_rDevClassChar

/-- The render eligibility of a device as the specification words it, to be compared with
the loop of `CMainApplication_RenderScene`: the device slot is populated, the visibility flag
is set, the pose is valid, and it is not the case that input is captured by another process
while the device is a controller. -/
def RenderEligible (self : CMainApplication) (bIsInputCapturedByAnotherProcess : Bool)
    (cls : ETrackedDeviceClass) (i : Fin MAX_TRACKED_DEVICE_COUNT) : Prop :=
  self.m_rTrackedDeviceToRenderModel i ≠ none ∧ self.m_rbShowTrackedDevice i = true ∧
    (self.m_rTrackedDevicePose i).bPoseIsValid = true ∧
    ¬ (bIsInputCapturedByAnotherProcess = true ∧ cls = .TrackedDeviceClass_Controller)

instance (self : CMainApplication) (b : Bool) (cls : ETrackedDeviceClass)
    (i : Fin MAX_TRACKED_DEVICE_COUNT) : Decidable (RenderEligible self b cls i) := by
  unfold RenderEligible; infer_instance

/-- The events the specification expects of the render-model loop for device `i` of class
`cls`, to be compared with `RenderScene_device`: the class is asked when the device has a
model, is shown, has a valid pose and input is captured; and, when the device is eligible,
`viewProjection(eye) * m_rmat4DevicePose[i]` is uploaded and the model of its slot is drawn. -/
def renderModelEvents (Matrix4_multiply_Matrix4 : Matrix4 → Matrix4 → Matrix4)
    (self : CMainApplication) (nEye : Hmd_Eye) (bIsInputCapturedByAnotherProcess : Bool)
    (cls : ETrackedDeviceClass) (i : Fin MAX_TRACKED_DEVICE_COUNT) : List Event :=
  (if self.m_rTrackedDeviceToRenderModel i ≠ none ∧ self.m_rbShowTrackedDevice i = true ∧
      (self.m_rTrackedDevicePose i).bPoseIsValid = true ∧
      bIsInputCapturedByAnotherProcess = true then [Event.GetTrackedDeviceClass i.val]
    else []) ++
  (if RenderEligible self bIsInputCapturedByAnotherProcess cls i then
    [Event.glUniformMatrix4fv (Matrix4_multiply_Matrix4
      (CMainApplication_GetCurrentViewProjectionMatrix Matrix4_multiply_Matrix4 self nEye)
      (self.m_rmat4DevicePose i))] ++
    (self.m_rTrackedDeviceToRenderModel i).toList.map Event.CGLRenderModel_Draw ++
    CGLRenderModel_Draw_calls
  else [])

/-! ## Sample worlds and machines -/

/-- A scripted runtime: the world holds the answers still to come from the model loader and
from the texture loader; a loader whose script is used up answers success. -/
def scriptedRuntime :
    VR_IVRRenderModels (List EVRRenderModelError × List EVRRenderModelError) where
  LoadRenderModel_Async := fun w _ =>
    ((w.1.headD .VRRenderModelError_None, ⟨0, 24, 0, 12, 7⟩), (w.1.tail, w.2))
  LoadTexture_Async := fun w _ =>
    ((w.2.headD .VRRenderModelError_None, ⟨64, 64, 0⟩), (w.1, w.2.tail))
  FreeRenderModel := fun w _ => w
  FreeTexture := fun w _ => w
  GetRenderModelErrorNameFromEnum := fun w _ => (cstr "error", w)

/-- A GL driver that numbers the objects it creates 1, 2, 3. -/
def sampleGL {W : Type} : GLDriver W where
  glGenVertexArrays := fun w => (1, w)
  glGenBuffers := fun w => (2, w)
  glGenTextures := fun w => (3, w)

/-- A system with three devices: the HMD and two controllers sharing one render model, the
second spelling its name in upper case.  Devices from 3 on have no name and are not connected.
Input is not captured by another process; the right eye sits 1 unit to the right of the
head. -/
def sampleSystem {W : Type} : VR_IVRSystem W where
  GetStringTrackedDeviceProperty := fun w unDevice prop _ =>
    match prop, unDevice with
    | .Prop_RenderModelName_String, 0 => ((12, cstr "generic_hmd"), w)
    | .Prop_RenderModelName_String, 1 => ((14, cstr "vr_controller"), w)
    | .Prop_RenderModelName_String, 2 => ((14, cstr "VR_CONTROLLER"), w)
    | .Prop_TrackingSystemName_String, _ => ((11, cstr "lighthouse"), w)
    | _, _ => ((0, []), w)
  IsTrackedDeviceConnected := fun w unDevice => (decide (unDevice < 3), w)
  GetTrackedDeviceClass := fun w unDevice =>
    match unDevice with
    | 0 => (.TrackedDeviceClass_HMD, w)
    | 1 => (.TrackedDeviceClass_Controller, w)
    | 2 => (.TrackedDeviceClass_Controller, w)
    | 3 => (.TrackedDeviceClass_TrackingReference, w)
    | 4 => (.TrackedDeviceClass_GenericTracker, w)
    | 5 => (.TrackedDeviceClass_Other 5, w)
    | _ => (.TrackedDeviceClass_Invalid, w)
  IsInputFocusCapturedByAnotherProcess := fun w => (false, w)
  GetProjectionMatrix := fun w eEye fNearZ fFarZ =>
    (⟨fun r c => if r = c then (if r.val = 2 then fFarZ else if r.val = 3 then 1 else fNearZ)
        else if r.val = 0 ∧ c.val = 3 ∧ eEye = .Eye_Right then 1 else 0⟩, w)
  GetEyeToHeadTransform := fun w eEye =>
    (⟨fun r c => if c.val = 3 then (if r.val = 0 ∧ eEye = .Eye_Right then 1 else 0)
        else if r.val = c.val then 1 else 0⟩, w)

/-- An application struct whose memory is all zero bits: no pose is valid, every matrix is
zero, every table is empty. -/
def zeroApp : CMainApplication where
  m_bVblank := false
  m_bGlFinishHack := false
  m_iTrackedControllerCount := 0
  m_iTrackedControllerCount_Last := 0
  m_iValidPoseCount_Last := 0
  m_bShowCubes := false
  m_glControllerVertBuffer := 0
  m_unControllerVAO := 0
  m_uiControllerVertcount := 0
  m_rTrackedDevicePose := fun _ => { mDeviceToAbsoluteTracking := ⟨fun _ _ => 0⟩
                                     bPoseIsValid := false }
  m_rmat4DevicePose := fun _ => ⟨fun _ => 0⟩
  m_rbShowTrackedDevice := fun _ => false
  m_iValidPoseCount := 0
  m_strPoseClasses := { base := [], offset := 0 }
  m_rDevClassChar := fun _ => 0
  m_fNearClip := 0
  m_fFarClip := 0
  m_mat4HMDPose := ⟨fun _ => 0⟩
  m_mat4eyePosLeft := ⟨fun _ => 0⟩
  m_mat4eyePosRight := ⟨fun _ => 0⟩
  m_mat4ProjectionLeft := ⟨fun _ => 0⟩
  m_mat4ProjectionRight := ⟨fun _ => 0⟩
  m_vecRenderModels := fun _ => none
  m_rTrackedDeviceToRenderModel := fun _ => none

/-- An application struct as `CMainApplication_init` leaves it: the cache is empty, the other
two tables hold whatever was in memory. -/
def freshApp : CMainApplication :=
  CMainApplication_init
    { zeroApp with
      m_rbShowTrackedDevice := fun _ => false
      m_vecRenderModels := fun _ => some 99
      m_rTrackedDeviceToRenderModel := fun i => if i.val = 5 then some 99 else none }

/-- A machine right after `CMainApplication_init`, with the given loader scripts. -/
def freshMachine (models textures : List EVRRenderModelError) :
    Machine (List EVRRenderModelError × List EVRRenderModelError) where
  self := freshApp
  heap := fun _ => ⟨0, 0, 0, 0, 0, []⟩
  brk := 0
  world := (models, textures)
  trace := []

/-- A machine whose cache holds the first `n` of 16 models named `a`, `b`, ..., `p`, model `k`
at address `k`. -/
def filledMachine (n : Nat) (models textures : List EVRRenderModelError) :
    Machine (List EVRRenderModelError × List EVRRenderModelError) where
  self :=
    { zeroApp with
      m_rbShowTrackedDevice := fun _ => false
      m_vecRenderModels := fun i => if i.val < n then some i.val else none
      m_rTrackedDeviceToRenderModel := fun _ => none }
  heap := fun p => ⟨2, 2, 1, 3, 36, [97 + p]⟩
  brk := n
  world := (models, textures)
  trace := []

/-- The pose of a device at the tracking origin: the 3x4 identity. -/
def identityPose : HmdMatrix34_t :=
  ⟨fun r c => if r.val = c.val then 1 else 0⟩

/-- The pose of a device moved by `(x, y, z)` without rotation. -/
def translationPose (x y z : float) : HmdMatrix34_t :=
  ⟨fun r c =>
    if c.val = 3 then (if r.val = 0 then x else if r.val = 1 then y else z)
    else if r.val = c.val then 1 else 0⟩

/-- The float with the opposite sign: the sign bit flipped. -/
def float.neg (x : float) : float :=
  ⟨if x.bits < 2 ^ 31 then x.bits + 2 ^ 31 else x.bits - 2 ^ 31⟩

/-- A stand-in for `Matrix4_invert` that is right on pure translations: it negates the
translation column (elements 12, 13, 14). -/
def translationInvert (a : Matrix4) : Matrix4 :=
  ⟨fun i => if 12 ≤ i.val ∧ i.val < 15 then (a.m i).neg else a.m i⟩

/-- The float `2.0f`. -/
def float.two : float := ⟨0x40000000⟩

/-- Poses for one frame: the HMD (slot 0) is 1 unit up, the controller in slot 1 is 2 units
to the right, the base station in slot 3 sits at the origin, the device in slot 5 is 1 unit
forward; the other slots have no valid pose. -/
def samplePoses : Fin MAX_TRACKED_DEVICE_COUNT → TrackedDevicePose_t := fun i =>
  if i.val = 0 then ⟨translationPose 0 1 0, true⟩
  else if i.val = 1 then ⟨translationPose float.two 0 0, true⟩
  else if i.val = 3 then ⟨identityPose, true⟩
  else if i.val = 5 then ⟨translationPose 0 0 1, true⟩
  else ⟨identityPose, false⟩

/-- A compositor that hands out the given poses. -/
def sampleCompositor {W : Type} (poses : Fin MAX_TRACKED_DEVICE_COUNT → TrackedDevicePose_t) :
    VR_IVRCompositor W where
  WaitGetPoses := fun w _ => (poses, w)
  Submit := fun w _ => w

/-- A stand-in for `Matrix4_multiply_Matrix4` that is right whenever the left factor is the
identity: it returns the right factor. -/
def multiplyByIdentity (_a b : Matrix4) : Matrix4 := b

/-- A machine in the middle of a session: the two controllers (devices 1 and 2) have been
assigned their shared model, and the poses of the sample frame have been fetched, in which
device 1 has a valid pose and device 2 has none. -/
def sampleFrameMachine : Machine (List EVRRenderModelError × List EVRRenderModelError) :=
  (runOperations sampleSystem scriptedRuntime sampleGL (sampleCompositor samplePoses)
    translationInvert 1 [.assign 1, .assign 2, .refresh_poses]
    (freshMachine [] [])).machine?.getD (freshMachine [] [])

/-- The sample system while another process has captured the input focus. -/
def capturedSystem {W : Type} : VR_IVRSystem W :=
  { sampleSystem with IsInputFocusCapturedByAnotherProcess := fun w => (true, w) }

/-- Sixteen names, `a` to `p`. -/
def sixteenNames : List CString :=
  (List.range 16).map fun k => [97 + k]

/-! # Properties -/

/-! ## Names -/

theorem tolower_eq_zero {c : Nat} : tolower c = 0 ↔ c = 0 := by
  unfold tolower; split <;> omega

theorem stricmp_eq_zero_iff (a b : CString) : stricmp a b = 0 ↔ lowerKey a = lowerKey b := by
  induction a generalizing b with
  | nil =>
    cases b with
    | nil => simp [stricmp, lowerKey]
    | cons c cs =>
      by_cases h : tolower c = 0
      · simp [stricmp, lowerKey, h]
      · simp [stricmp, lowerKey, h]
  | cons x xs ih =>
    cases b with
    | nil =>
      by_cases h : tolower x = 0
      · simp [stricmp, lowerKey, h]
      · simp [stricmp, lowerKey, h]
    | cons c cs =>
      by_cases hxc : tolower x = tolower c
      · by_cases h : tolower x = 0
        · have hc : tolower c = 0 := by rw [← hxc]; exact h
          simp [stricmp, lowerKey, h, hc]
        · have hc : ¬ tolower c = 0 := by rw [← hxc]; exact h
          simp [stricmp, lowerKey, h, hc, hxc, ih]
      · have h1 : ¬ ((tolower x : Int) - (tolower c : Int) = 0) := by omega
        by_cases h : tolower x = 0 <;> by_cases hc : tolower c = 0
        · omega
        · simp [stricmp, lowerKey, h, hc, hxc]
          omega
        · simp [stricmp, lowerKey, h, hc, hxc]
        · simp [stricmp, lowerKey, h, hc, hxc]
          omega

theorem sameName_iff (a b : CString) : sameName a b ↔ lowerKey a = lowerKey b :=
  stricmp_eq_zero_iff a b

theorem sameName_refl (a : CString) : sameName a a := (sameName_iff a a).2 rfl

theorem sameName_symm {a b : CString} (h : sameName a b) : sameName b a :=
  (sameName_iff b a).2 ((sameName_iff a b).1 h).symm

theorem sameName_trans {a b c : CString} (h1 : sameName a b) (h2 : sameName b c) :
    sameName a c :=
  (sameName_iff a c).2 (((sameName_iff a b).1 h1).trans ((sameName_iff b c).1 h2))

/-- A name that does not match `a` does not match a name equal to `a` either. -/
theorem not_sameName_congr {x a b : CString} (hab : sameName a b) (h : ¬ sameName x a) :
    ¬ sameName x b :=
  fun hxb => h (sameName_trans hxb (sameName_symm hab))

/-! ## The lookup loop -/

theorem scan_eq_none_of_noMatch (self : CMainApplication) (heap : Ptr → CGLRenderModel)
    (name : CString) (hno : NoMatch self heap name) (n i : Nat) :
    FindOrLoadRenderModel_scan self heap name n i = none := by
  induction n generalizing i with
  | zero => rfl
  | succ n ih =>
    unfold FindOrLoadRenderModel_scan
    split
    · rename_i h
      split
      · rfl
      · rename_i model hm
        have := hno ⟨i, h⟩ model hm
        unfold sameName at this
        simp [this, ih]
    · rfl

/-- A successful lookup returns a model that sits in some slot and whose name matches. -/
theorem scan_eq_some_elim (self : CMainApplication) (heap : Ptr → CGLRenderModel)
    (name : CString) (n i : Nat) (p : Ptr)
    (h : FindOrLoadRenderModel_scan self heap name n i = some p) :
    ∃ j, self.m_vecRenderModels j = some p ∧ sameName (heap p).m_sModelName name := by
  induction n generalizing i with
  | zero => simp [FindOrLoadRenderModel_scan] at h
  | succ n ih =>
    unfold FindOrLoadRenderModel_scan at h
    split at h
    · rename_i hi
      split at h
      · cases h
      · rename_i model hm
        split at h
        · rename_i hs
          cases h
          exact ⟨⟨i, hi⟩, hm, hs⟩
        · exact ih _ h
    · cases h

/-- The lookup finds the model at slot `j` when every slot from `i` up to `j` is populated and
none of them before `j` matches. -/
theorem scan_eq_some_of_first (self : CMainApplication) (heap : Ptr → CGLRenderModel)
    (name : CString) (j : Fin MAX_TRACKED_DEVICE_COUNT) (p : Ptr)
    (hj : self.m_vecRenderModels j = some p) (hp : sameName (heap p).m_sModelName name)
    (hbefore : ∀ k, k < j → ∃ q, self.m_vecRenderModels k = some q ∧
      (sameName (heap q).m_sModelName name → q = p))
    (n i : Nat) (hij : i ≤ j.val) (hn : j.val < i + n) :
    FindOrLoadRenderModel_scan self heap name n i = some p := by
  induction n generalizing i with
  | zero => omega
  | succ n ih =>
    unfold FindOrLoadRenderModel_scan
    have hi : i < k_unMaxTrackedDeviceCount := lt_of_le_of_lt hij j.isLt
    rw [dif_pos hi]
    by_cases hEq : i = j.val
    · have : (⟨i, hi⟩ : Fin MAX_TRACKED_DEVICE_COUNT) = j := Fin.ext hEq
      rw [this, hj]
      unfold sameName at hp
      simp [hp]
    · have hlt : (⟨i, hi⟩ : Fin MAX_TRACKED_DEVICE_COUNT) < j := by
        show i < j.val
        omega
      obtain ⟨q, hq, hqp⟩ := hbefore _ hlt
      rw [hq]
      by_cases hs : stricmp (heap q).m_sModelName name = 0
      · have hqeq := hqp hs
        subst hqeq
        simp [hs]
      · simp only [hs, if_false]
        exact ih (i + 1) (by omega) (by omega)

/-- A failed lookup examined every slot before the first empty one, and none matched. -/
theorem scan_eq_none_elim (self : CMainApplication) (heap : Ptr → CGLRenderModel)
    (name : CString) (n i : Nat)
    (h : FindOrLoadRenderModel_scan self heap name n i = none)
    (j : Fin MAX_TRACKED_DEVICE_COUNT) (hij : i ≤ j.val) (hn : j.val < i + n)
    (hpop : ∀ k : Fin MAX_TRACKED_DEVICE_COUNT, i ≤ k.val → k ≤ j →
      self.m_vecRenderModels k ≠ none) :
    ∀ q, self.m_vecRenderModels j = some q → ¬ sameName (heap q).m_sModelName name := by
  induction n generalizing i with
  | zero => omega
  | succ n ih =>
    unfold FindOrLoadRenderModel_scan at h
    have hi : i < k_unMaxTrackedDeviceCount := lt_of_le_of_lt hij j.isLt
    rw [dif_pos hi] at h
    split at h
    · rename_i hnone
      exact absurd hnone (hpop ⟨i, hi⟩ (le_refl _) hij)
    · rename_i model hm
      split at h
      · cases h
      · rename_i hs
        by_cases hEq : i = j.val
        · have : (⟨i, hi⟩ : Fin MAX_TRACKED_DEVICE_COUNT) = j := Fin.ext hEq
          intro q hq
          rw [this, hq] at hm
          cases hm
          exact hs
        · exact ih (i + 1) h (by omega) (by omega)
            (fun k hk hkj => hpop k (by omega) hkj)

/-! ## The insertion loop -/

theorem insert_of_firstFree (p : Ptr) (s : Machine W) (j : Fin MAX_TRACKED_DEVICE_COUNT)
    (hj : FirstFree s.self j) (n i : Nat) (hij : i ≤ j.val) (hn : j.val < i + n) :
    FindOrLoadRenderModel_insert p n i s =
      .ret () { s with self := { s.self with
        m_vecRenderModels := Function.update s.self.m_vecRenderModels j (some p) } } := by
  induction n generalizing i with
  | zero => omega
  | succ n ih =>
    unfold FindOrLoadRenderModel_insert
    have hi : i < k_unMaxTrackedDeviceCount := lt_of_le_of_lt hij j.isLt
    rw [dif_pos hi]
    by_cases hEq : i = j.val
    · have hfin : (⟨i, hi⟩ : Fin MAX_TRACKED_DEVICE_COUNT) = j := Fin.ext hEq
      rw [hfin]
      simp [hj.1]
    · have hlt : (⟨i, hi⟩ : Fin MAX_TRACKED_DEVICE_COUNT) < j := by
        show i < j.val
        omega
      have hne := hj.2 _ hlt
      have hj16 : j.val < 16 := j.isLt
      split
      · rename_i hnone
        exact absurd hnone hne
      · have h15 : ¬ i = k_unMaxTrackedDeviceCount - 1 := by
          show ¬ i = 16 - 1
          omega
        rw [if_neg h15]
        exact ih (i + 1) (by omega) (by omega)

theorem insert_of_full (p : Ptr) (s : Machine W) (hfull : CacheFull s.self) (n i : Nat)
    (hi : i < k_unMaxTrackedDeviceCount) (hn : k_unMaxTrackedDeviceCount ≤ i + n) :
    FindOrLoadRenderModel_insert p n i s =
      .exit 1 ((dprintf s "No place in array to fit render model %s").emit (.exit 1)) := by
  induction n generalizing i with
  | zero => omega
  | succ n ih =>
    unfold FindOrLoadRenderModel_insert
    rw [dif_pos hi]
    split
    · rename_i hnone
      exact absurd hnone (hfull _)
    · by_cases h15 : i = k_unMaxTrackedDeviceCount - 1
      · rw [if_pos h15]
      · rw [if_neg h15]
        have : i ≠ 16 - 1 := h15
        exact ih (i + 1) (by show i + 1 < 16; have : i < 16 := hi; omega) (by omega)

/-- A cache is full or has a first empty slot. -/
theorem cacheFull_or_firstFree (self : CMainApplication) :
    CacheFull self ∨ ∃ j, FirstFree self j := by
  by_cases hfull : CacheFull self
  · exact Or.inl hfull
  · right
    have hex : ∃ n : Nat, ∃ h : n < MAX_TRACKED_DEVICE_COUNT,
        self.m_vecRenderModels ⟨n, h⟩ = none := by
      unfold CacheFull at hfull
      push_neg at hfull
      obtain ⟨i, hi⟩ := hfull
      exact ⟨i.val, i.isLt, hi⟩
    classical
    obtain ⟨h, hnone⟩ := Nat.find_spec hex
    refine ⟨⟨Nat.find hex, h⟩, hnone, ?_⟩
    intro k hk hknone
    exact Nat.find_min hex hk ⟨k.isLt, hknone⟩

theorem not_cacheFull_of_firstFree {self : CMainApplication}
    {j : Fin MAX_TRACKED_DEVICE_COUNT} (hj : FirstFree self j) : ¬ CacheFull self :=
  fun hfull => hfull j hj.1

theorem firstFree_unique {self : CMainApplication} {i j : Fin MAX_TRACKED_DEVICE_COUNT}
    (hi : FirstFree self i) (hj : FirstFree self j) : i = j := by
  rcases lt_trichotomy i j with h | h | h
  · exact absurd hi.1 (hj.2 i h)
  · exact h
  · exact absurd hj.1 (hi.2 j h)

/-! ## Counting calls -/

@[simp] theorem loadModelCalls_append (a b : List Event) :
    loadModelCalls (a ++ b) = loadModelCalls a + loadModelCalls b := by
  simp [loadModelCalls]

@[simp] theorem loadModelLoading_append (a b : List Event) :
    loadModelLoading (a ++ b) = loadModelLoading a + loadModelLoading b := by
  simp [loadModelLoading]

@[simp] theorem loadTextureCalls_append (a b : List Event) :
    loadTextureCalls (a ++ b) = loadTextureCalls a + loadTextureCalls b := by
  simp [loadTextureCalls]

@[simp] theorem freeRenderModelCalls_append (a b : List Event) :
    freeRenderModelCalls (a ++ b) = freeRenderModelCalls a + freeRenderModelCalls b := by
  simp [freeRenderModelCalls]

@[simp] theorem glCalls_append (a b : List Event) :
    glCalls (a ++ b) = glCalls a + glCalls b := by
  simp [glCalls]

@[simp] theorem exitCalls_append (a b : List Event) :
    exitCalls (a ++ b) = exitCalls a + exitCalls b := by
  simp [exitCalls]

/-! ## The polling loops -/

/-- What a finished poll of the model loader leaves behind: the application struct and the heap
are untouched, the result is not `Loading`, and the trace grew by model-loader calls (one more
than were answered `Loading`) and sleeps only. -/
theorem LoadRenderModel_poll_spec (rm : VR_IVRRenderModels W) (name : CString) (fuel : Nat)
    (s : Machine W) (e : EVRRenderModelError) (m : RenderModel_t) (s1 : Machine W)
    (h : LoadRenderModel_poll rm name fuel s = some (e, m, s1)) :
    s1.self = s.self ∧ s1.heap = s.heap ∧ s1.brk = s.brk ∧
      e ≠ .VRRenderModelError_Loading ∧
      ∃ t, s1.trace = s.trace ++ t ∧ loadModelCalls t = loadModelLoading t + 1 ∧
        loadTextureCalls t = 0 ∧ freeRenderModelCalls t = 0 ∧ glCalls t = 0 ∧
        exitCalls t = 0 := by
  induction fuel generalizing s with
  | zero => simp [LoadRenderModel_poll] at h
  | succ fuel ih =>
    unfold LoadRenderModel_poll at h
    simp only at h
    split at h
    · rename_i hne
      simp only [Option.some.injEq, Prod.mk.injEq] at h
      obtain ⟨he, _, hs⟩ := h
      subst hs
      subst he
      refine ⟨rfl, rfl, rfl, hne, _, rfl, ?_⟩
      cases hr : (rm.LoadRenderModel_Async s.world name).1.1 <;>
        simp_all [loadModelCalls, loadModelLoading, loadTextureCalls, freeRenderModelCalls,
          glCalls, exitCalls, Event.isLoadRenderModel, Event.isLoadRenderModelLoading,
          Event.isLoadTexture, Event.isFreeRenderModel, Event.isGl, Event.isExit]
    · rename_i hl
      have hl2 : (rm.LoadRenderModel_Async s.world name).1.1 = .VRRenderModelError_Loading := by
        simpa using hl
      obtain ⟨h1, h2, h3, h4, t, ht, hc1, hc2, hc3, hc4, hc5⟩ := ih _ h
      refine ⟨h1, h2, h3, h4,
        [.LoadRenderModel_Async name .VRRenderModelError_Loading, .ThreadSleep 1] ++ t, ?_, ?_⟩
      · rw [ht]
        simp [ThreadSleep, Machine.emit, hl2]
      · simp only [loadModelCalls, loadModelLoading, loadTextureCalls, freeRenderModelCalls,
          glCalls, exitCalls] at hc1 hc2 hc3 hc4 hc5 ⊢
        simp only [List.countP_append, hc1, hc2, hc3, hc4, hc5]
        simp [List.countP_cons, Event.isLoadRenderModel, Event.isLoadRenderModelLoading,
          Event.isLoadTexture, Event.isFreeRenderModel, Event.isGl, Event.isExit]
        omega

/-- What a finished poll of the texture loader leaves behind. -/
theorem LoadTexture_poll_spec (rm : VR_IVRRenderModels W) (textureId : Int) (fuel : Nat)
    (s : Machine W) (e : EVRRenderModelError) (m : RenderModel_TextureMap_t) (s1 : Machine W)
    (h : LoadTexture_poll rm textureId fuel s = some (e, m, s1)) :
    s1.self = s.self ∧ s1.heap = s.heap ∧ s1.brk = s.brk ∧
      e ≠ .VRRenderModelError_Loading ∧
      ∃ t, s1.trace = s.trace ++ t ∧ loadModelCalls t = 0 ∧ loadModelLoading t = 0 ∧
        freeRenderModelCalls t = 0 ∧ glCalls t = 0 ∧ exitCalls t = 0 := by
  induction fuel generalizing s with
  | zero => simp [LoadTexture_poll] at h
  | succ fuel ih =>
    unfold LoadTexture_poll at h
    simp only at h
    split at h
    · rename_i hne
      simp only [Option.some.injEq, Prod.mk.injEq] at h
      obtain ⟨he, _, hs⟩ := h
      subst hs
      subst he
      refine ⟨rfl, rfl, rfl, hne, _, rfl, ?_⟩
      simp [loadModelCalls, loadModelLoading, loadTextureCalls, freeRenderModelCalls,
          glCalls, exitCalls, Event.isLoadRenderModel, Event.isLoadRenderModelLoading,
          Event.isLoadTexture, Event.isFreeRenderModel, Event.isGl, Event.isExit]
    · obtain ⟨h1, h2, h3, h4, t, ht, hc1, hc2, hc3, hc4, hc5⟩ := ih _ h
      refine ⟨h1, h2, h3, h4,
        [.LoadTexture_Async textureId (rm.LoadTexture_Async s.world textureId).1.1,
         .ThreadSleep 1] ++ t, ?_, ?_⟩
      · rw [ht]
        simp [ThreadSleep, Machine.emit]
      · simp only [loadModelCalls, loadModelLoading, loadTextureCalls, freeRenderModelCalls,
          glCalls, exitCalls] at hc1 hc2 hc3 hc4 hc5 ⊢
        simp only [List.countP_append, hc1, hc2, hc3, hc4, hc5]
        simp [List.countP_cons, Event.isLoadRenderModel, Event.isLoadRenderModelLoading,
          Event.isLoadTexture, Event.isFreeRenderModel, Event.isGl, Event.isExit]

/-! ## The paths through `CMainApplication_FindOrLoadRenderModel` -/

theorem FindOrLoad_of_scan_some (rm : VR_IVRRenderModels W) (gl : GLDriver W) (fuel : Nat)
    (s : Machine W) (name : CString) (p : Ptr)
    (h : FindOrLoadRenderModel_scan s.self s.heap name k_unMaxTrackedDeviceCount 0 = some p) :
    CMainApplication_FindOrLoadRenderModel rm gl fuel s name = .ret (some p) s := by
  simp [CMainApplication_FindOrLoadRenderModel, h]

theorem FindOrLoad_of_model_spinning (rm : VR_IVRRenderModels W) (gl : GLDriver W)
    (fuel : Nat) (s : Machine W) (name : CString)
    (h : FindOrLoadRenderModel_scan s.self s.heap name k_unMaxTrackedDeviceCount 0 = none)
    (hM : LoadRenderModel_poll rm name fuel s = none) :
    CMainApplication_FindOrLoadRenderModel rm gl fuel s name = .spinning := by
  simp [CMainApplication_FindOrLoadRenderModel, h, hM]

theorem FindOrLoad_of_model_error (rm : VR_IVRRenderModels W) (gl : GLDriver W) (fuel : Nat)
    (s : Machine W) (name : CString) (e : EVRRenderModelError) (m : RenderModel_t)
    (s1 : Machine W)
    (h : FindOrLoadRenderModel_scan s.self s.heap name k_unMaxTrackedDeviceCount 0 = none)
    (hM : LoadRenderModel_poll rm name fuel s = some (e, m, s1))
    (he : e ≠ .VRRenderModelError_None) :
    CMainApplication_FindOrLoadRenderModel rm gl fuel s name =
      .ret none (dprintf (GetRenderModelErrorNameFromEnum rm s1 e)
        "Unable to load render model %s - %s") := by
  simp [CMainApplication_FindOrLoadRenderModel, h, hM, he]

theorem FindOrLoad_of_texture_spinning (rm : VR_IVRRenderModels W) (gl : GLDriver W)
    (fuel : Nat) (s : Machine W) (name : CString) (m : RenderModel_t) (s1 : Machine W)
    (h : FindOrLoadRenderModel_scan s.self s.heap name k_unMaxTrackedDeviceCount 0 = none)
    (hM : LoadRenderModel_poll rm name fuel s = some (.VRRenderModelError_None, m, s1))
    (hT : LoadTexture_poll rm m.diffuseTextureId fuel s1 = none) :
    CMainApplication_FindOrLoadRenderModel rm gl fuel s name = .spinning := by
  simp [CMainApplication_FindOrLoadRenderModel, h, hM, hT]

theorem FindOrLoad_of_texture_error (rm : VR_IVRRenderModels W) (gl : GLDriver W)
    (fuel : Nat) (s : Machine W) (name : CString) (m : RenderModel_t) (s1 : Machine W)
    (e : EVRRenderModelError) (tx : RenderModel_TextureMap_t) (s2 : Machine W)
    (h : FindOrLoadRenderModel_scan s.self s.heap name k_unMaxTrackedDeviceCount 0 = none)
    (hM : LoadRenderModel_poll rm name fuel s = some (.VRRenderModelError_None, m, s1))
    (hT : LoadTexture_poll rm m.diffuseTextureId fuel s1 = some (e, tx, s2))
    (he : e ≠ .VRRenderModelError_None) :
    CMainApplication_FindOrLoadRenderModel rm gl fuel s name =
      .ret none (FreeRenderModel rm
        (dprintf s2 "Unable to load render texture id:%d for render model %s") m) := by
  simp [CMainApplication_FindOrLoadRenderModel, h, hM, hT, he]

/-- The machine just before the insertion loop: the model object was allocated, initialised
and given its GL resources. -/
theorem FindOrLoad_of_loaded (rm : VR_IVRRenderModels W) (gl : GLDriver W)
    (fuel : Nat) (s : Machine W) (name : CString) (m : RenderModel_t) (s1 : Machine W)
    (tx : RenderModel_TextureMap_t) (s2 : Machine W)
    (h : FindOrLoadRenderModel_scan s.self s.heap name k_unMaxTrackedDeviceCount 0 = none)
    (hM : LoadRenderModel_poll rm name fuel s = some (.VRRenderModelError_None, m, s1))
    (hT : LoadTexture_poll rm m.diffuseTextureId fuel s1 =
      some (.VRRenderModelError_None, tx, s2)) :
    CMainApplication_FindOrLoadRenderModel rm gl fuel s name =
      match FindOrLoadRenderModel_insert s2.brk k_unMaxTrackedDeviceCount 0
          (CGLRenderModel_BInit gl (CGLRenderModel_init (malloc s2).2 s2.brk name)
            s2.brk m tx).2 with
      | .ret _ s4 => .ret (some s2.brk) (FreeTexture rm (FreeRenderModel rm s4 m) tx)
      | .exit code s4 => .exit code s4
      | .spinning => .spinning
      | .undefined => .undefined := by
  simp [CMainApplication_FindOrLoadRenderModel, h, hM, hT, malloc, CGLRenderModel_BInit]

/-- The object that the allocation, `CGLRenderModel_init` and `CGLRenderModel_BInit` leave at
the new address carries the requested name; no other address is written. -/
theorem built_heap (gl : GLDriver W) (s2 : Machine W) (name : CString) (m : RenderModel_t)
    (tx : RenderModel_TextureMap_t) :
    let b := (CGLRenderModel_BInit gl (CGLRenderModel_init (malloc s2).2 s2.brk name)
      s2.brk m tx).2
    b.self = s2.self ∧ b.brk = s2.brk + 1 ∧ (b.heap s2.brk).m_sModelName = name ∧
      (b.heap s2.brk).m_unVertexCount =
        GLsizei_of_uint32 ((m.unTriangleCount * 3) % 2 ^ 32) ∧
      (∀ q, q ≠ s2.brk → b.heap q = s2.heap q) ∧
      b.trace = s2.trace ++ (.mallocModel s2.brk :: CGLRenderModel_BInit_calls) := by
  intro b
  refine ⟨rfl, rfl, ?_, ?_, ?_, ?_⟩
  · simp [b, CGLRenderModel_BInit, CGLRenderModel_init, malloc]
  · simp [b, CGLRenderModel_BInit, CGLRenderModel_init, malloc]
  · intro q hq
    simp [b, CGLRenderModel_BInit, CGLRenderModel_init, malloc, Function.update, hq]
  · simp [b, CGLRenderModel_BInit, CGLRenderModel_init, malloc]

theorem poll_self_eq (rm : VR_IVRRenderModels W) (fuel : Nat) (s : Machine W) (name : CString)
    (m : RenderModel_t) (s1 : Machine W) (e1 e2 : EVRRenderModelError)
    (tx : RenderModel_TextureMap_t) (s2 : Machine W)
    (hM : LoadRenderModel_poll rm name fuel s = some (e1, m, s1))
    (hT : LoadTexture_poll rm m.diffuseTextureId fuel s1 = some (e2, tx, s2)) :
    s2.self = s.self ∧ s2.heap = s.heap ∧ s2.brk = s.brk := by
  obtain ⟨h1, h2, h3, _⟩ := LoadRenderModel_poll_spec rm name fuel s _ m s1 hM
  obtain ⟨k1, k2, k3, _⟩ := LoadTexture_poll_spec rm _ fuel s1 _ tx s2 hT
  exact ⟨k1.trans h1, k2.trans h2, k3.trans h3⟩

/-- Both loads succeeded and the cache has a first empty slot `j`: the new model goes there. -/
theorem FindOrLoad_of_firstFree (rm : VR_IVRRenderModels W) (gl : GLDriver W)
    (fuel : Nat) (s : Machine W) (name : CString) (m : RenderModel_t) (s1 : Machine W)
    (tx : RenderModel_TextureMap_t) (s2 : Machine W)
    (h : FindOrLoadRenderModel_scan s.self s.heap name k_unMaxTrackedDeviceCount 0 = none)
    (hM : LoadRenderModel_poll rm name fuel s = some (.VRRenderModelError_None, m, s1))
    (hT : LoadTexture_poll rm m.diffuseTextureId fuel s1 =
      some (.VRRenderModelError_None, tx, s2))
    (j : Fin MAX_TRACKED_DEVICE_COUNT) (hj : FirstFree s.self j) :
    ∃ s4, CMainApplication_FindOrLoadRenderModel rm gl fuel s name = .ret (some s.brk) s4 ∧
      s4.self = { s.self with
        m_vecRenderModels := Function.update s.self.m_vecRenderModels j (some s.brk) } ∧
      s4.brk = s.brk + 1 ∧ (s4.heap s.brk).m_sModelName = name ∧
      (∀ q, q ≠ s.brk → s4.heap q = s.heap q) ∧
      s4.trace = s2.trace ++ (.mallocModel s.brk :: CGLRenderModel_BInit_calls) ++
        [.FreeRenderModel m, .FreeTexture tx] := by
  obtain ⟨e1, e2, e3⟩ := poll_self_eq rm fuel s name m s1 _ _ tx s2 hM hT
  obtain ⟨b1, b2, b3, _, b5, b6⟩ := built_heap gl s2 name m tx
  rw [FindOrLoad_of_loaded rm gl fuel s name m s1 tx s2 h hM hT]
  rw [← e1] at hj
  rw [← e1, ← e2, ← e3]
  generalize (CGLRenderModel_BInit gl (CGLRenderModel_init (malloc s2).2 s2.brk name)
    s2.brk m tx).2 = b at b1 b2 b3 b5 b6 ⊢
  rw [insert_of_firstFree s2.brk b j (by rw [b1]; exact hj) _ 0 (Nat.zero_le _)
    (by have hj16 : j.val < 16 := j.isLt; show j.val < 0 + 16; omega)]
  refine ⟨_, rfl, ?_, ?_, ?_, ?_, ?_⟩
  · simp only [FreeTexture, FreeRenderModel, b1]
  · simp only [FreeTexture, FreeRenderModel, b2]
  · simp only [FreeTexture, FreeRenderModel]
    exact b3
  · intro q hq
    simp only [FreeTexture, FreeRenderModel]
    exact b5 q hq
  · simp only [FreeTexture, FreeRenderModel, b6, List.append_assoc]
    rfl

/-- Both loads succeeded and the cache is full: the call exits with code 1. -/
theorem FindOrLoad_of_full (rm : VR_IVRRenderModels W) (gl : GLDriver W)
    (fuel : Nat) (s : Machine W) (name : CString) (m : RenderModel_t) (s1 : Machine W)
    (tx : RenderModel_TextureMap_t) (s2 : Machine W)
    (h : FindOrLoadRenderModel_scan s.self s.heap name k_unMaxTrackedDeviceCount 0 = none)
    (hM : LoadRenderModel_poll rm name fuel s = some (.VRRenderModelError_None, m, s1))
    (hT : LoadTexture_poll rm m.diffuseTextureId fuel s1 =
      some (.VRRenderModelError_None, tx, s2))
    (hfull : CacheFull s.self) :
    ∃ s4, CMainApplication_FindOrLoadRenderModel rm gl fuel s name = .exit 1 s4 ∧
      s4.self = s.self ∧ s4.trace.getLast? = some (.exit 1) := by
  obtain ⟨e1, e2, e3⟩ := poll_self_eq rm fuel s name m s1 _ _ tx s2 hM hT
  obtain ⟨b1, b2, b3, _, b5, b6⟩ := built_heap gl s2 name m tx
  rw [FindOrLoad_of_loaded rm gl fuel s name m s1 tx s2 h hM hT]
  rw [insert_of_full s2.brk _ (by rw [b1, e1]; exact hfull) _ 0 (by decide) (by decide)]
  refine ⟨_, rfl, ?_, ?_⟩
  · simp only [dprintf, Machine.emit, b1, e1]
  · simp [dprintf, Machine.emit]

/-! ## Claims about one call of `CMainApplication_FindOrLoadRenderModel` -/

theorem cacheMiss_of_noMatch {s : Machine W} {name : CString}
    (h : NoMatch s.self s.heap name) : CacheMiss s name :=
  scan_eq_none_of_noMatch s.self s.heap name h _ _

/-- In a packed cache with unique names the lookup finds the model of any slot whose name
matches. -/
theorem scan_of_slot (self : CMainApplication) (heap : Ptr → CGLRenderModel) (name : CString)
    (hpacked : Packed self) (huniq : UniqueNames self heap)
    (i : Fin MAX_TRACKED_DEVICE_COUNT) (p : Ptr) (hslot : self.m_vecRenderModels i = some p)
    (hname : sameName (heap p).m_sModelName name) :
    FindOrLoadRenderModel_scan self heap name k_unMaxTrackedDeviceCount 0 = some p := by
  refine scan_eq_some_of_first self heap name i p hslot hname ?_ _ 0 (Nat.zero_le _) ?_
  · intro k hk
    have hne : self.m_vecRenderModels k ≠ none := hpacked k i hk (by simp [hslot])
    obtain ⟨q, hq⟩ := Option.ne_none_iff_exists'.1 hne
    refine ⟨q, hq, fun hsame => ?_⟩
    exact absurd (sameName_trans hsame (sameName_symm hname))
      (huniq k i (ne_of_lt hk) q hq p hslot)
  · have hi : i.val < 16 := i.isLt
    show i.val < 0 + 16
    omega

/-- Claim C3 (cache hit): in a cache whose populated slots come first and carry pairwise distinct
names (the state of every cache built from the empty one), whenever a slot holds a model whose
name matches the requested name case-insensitively, the call returns that model and leaves the
whole machine as it was: no cache slot changes and the trace gains no event, so neither
loader and no GL routine is called. -/
theorem C3_cache_hit (rm : VR_IVRRenderModels W) (gl : GLDriver W) (fuel : Nat)
    (s : Machine W) (name : CString) (i : Fin MAX_TRACKED_DEVICE_COUNT) (p : Ptr)
    (hpacked : Packed s.self) (huniq : UniqueNames s.self s.heap)
    (hslot : s.self.m_vecRenderModels i = some p)
    (hname : sameName (s.heap p).m_sModelName name) :
    CMainApplication_FindOrLoadRenderModel rm gl fuel s name = .ret (some p) s :=
  FindOrLoad_of_scan_some rm gl fuel s name p
    (scan_of_slot s.self s.heap name hpacked huniq i p hslot hname)

/-- Claim C3 at a sample cache of two models: the lookup of `B` returns the model of slot 1. -/
theorem C3_witness :
    Packed (filledMachine 2 [] []).self ∧
    UniqueNames (filledMachine 2 [] []).self (filledMachine 2 [] []).heap ∧
    (filledMachine 2 [] []).self.m_vecRenderModels 1 = some 1 ∧
    sameName ((filledMachine 2 [] []).heap 1).m_sModelName (cstr "B") ∧
    CMainApplication_FindOrLoadRenderModel scriptedRuntime sampleGL 0 (filledMachine 2 [] [])
      (cstr "B") = .ret (some 1) (filledMachine 2 [] []) :=
  ⟨by decide, by decide, by decide, by decide,
   C3_cache_hit scriptedRuntime sampleGL 0 (filledMachine 2 [] []) (cstr "B") 1 1
     (by decide) (by decide) (by decide) (by decide)⟩

/-- Claim C8 (model-load terminal error): on a cache miss, when the polling of the model loader ends
with a result other than success, the call returns no model, does not exit, never calls the
texture loader and leaves every cache slot unchanged. -/
theorem C8_model_load_error (rm : VR_IVRRenderModels W) (gl : GLDriver W) (fuel : Nat)
    (s : Machine W) (name : CString) (e : EVRRenderModelError) (m : RenderModel_t)
    (s1 : Machine W) (hmiss : CacheMiss s name)
    (hM : LoadRenderModel_poll rm name fuel s = some (e, m, s1))
    (he : e ≠ .VRRenderModelError_None) :
    ∃ s2, CMainApplication_FindOrLoadRenderModel rm gl fuel s name = .ret none s2 ∧
      loadTextureCalls s2.trace = loadTextureCalls s.trace ∧
      exitCalls s2.trace = exitCalls s.trace ∧
      s2.self.m_vecRenderModels = s.self.m_vecRenderModels := by
  refine ⟨_, FindOrLoad_of_model_error rm gl fuel s name e m s1 hmiss hM he, ?_, ?_, ?_⟩
  all_goals
    obtain ⟨h1, _, _, _, t, ht, _, hc2, _, _, hc5⟩ :=
      LoadRenderModel_poll_spec rm name fuel s e m s1 hM
  · simp [dprintf, Machine.emit, GetRenderModelErrorNameFromEnum, ht, hc2]
    simp [loadTextureCalls, Event.isLoadTexture]
  · simp [dprintf, Machine.emit, GetRenderModelErrorNameFromEnum, ht, hc5]
    simp [exitCalls, Event.isExit]
  · simp [dprintf, Machine.emit, GetRenderModelErrorNameFromEnum, h1]

/-- Claim C9 (texture-load terminal error): on a cache miss, when the model load succeeds and the
polling of the texture loader ends with a result other than success, the call releases the
loaded model with `FreeRenderModel` exactly once, returns no model, does not exit and leaves
every cache slot unchanged. -/
theorem C9_texture_load_error (rm : VR_IVRRenderModels W) (gl : GLDriver W) (fuel : Nat)
    (s : Machine W) (name : CString) (m : RenderModel_t) (s1 : Machine W)
    (e : EVRRenderModelError) (tx : RenderModel_TextureMap_t) (s2 : Machine W)
    (hmiss : CacheMiss s name)
    (hM : LoadRenderModel_poll rm name fuel s = some (.VRRenderModelError_None, m, s1))
    (hT : LoadTexture_poll rm m.diffuseTextureId fuel s1 = some (e, tx, s2))
    (he : e ≠ .VRRenderModelError_None) :
    ∃ s3, CMainApplication_FindOrLoadRenderModel rm gl fuel s name = .ret none s3 ∧
      freeRenderModelCalls s3.trace = freeRenderModelCalls s.trace + 1 ∧
      s3.trace.getLast? = some (.FreeRenderModel m) ∧
      exitCalls s3.trace = exitCalls s.trace ∧
      s3.self.m_vecRenderModels = s.self.m_vecRenderModels := by
  refine ⟨_, FindOrLoad_of_texture_error rm gl fuel s name m s1 e tx s2 hmiss hM hT he,
    ?_, ?_, ?_, ?_⟩
  all_goals
    obtain ⟨h1, _, _, _, t, ht, _, _, hc3, _, hc5⟩ :=
      LoadRenderModel_poll_spec rm name fuel s _ m s1 hM
    obtain ⟨k1, _, _, _, u, hu, _, _, kc3, _, kc5⟩ :=
      LoadTexture_poll_spec rm _ fuel s1 e tx s2 hT
  · simp [dprintf, Machine.emit, FreeRenderModel, hu, ht, hc3, kc3]
    simp [freeRenderModelCalls, Event.isFreeRenderModel]
  · simp [dprintf, Machine.emit, FreeRenderModel]
  · simp [dprintf, Machine.emit, FreeRenderModel, hu, ht, hc5, kc5]
    simp [exitCalls, Event.isExit]
  · simp [dprintf, Machine.emit, FreeRenderModel, h1, k1]

/-- Claim C8 at a sample run: the model loader answers `Loading`, then an error. -/
theorem C8_witness :
    CacheMiss (freshMachine [.VRRenderModelError_Loading, .VRRenderModelError_Failed 300] [])
      (cstr "vr_controller") ∧
    ∃ s2, CMainApplication_FindOrLoadRenderModel scriptedRuntime sampleGL 2
        (freshMachine [.VRRenderModelError_Loading, .VRRenderModelError_Failed 300] [])
        (cstr "vr_controller") = .ret none s2 ∧
      loadTextureCalls s2.trace = loadTextureCalls
        (freshMachine [.VRRenderModelError_Loading, .VRRenderModelError_Failed 300] []).trace ∧
      exitCalls s2.trace = exitCalls
        (freshMachine [.VRRenderModelError_Loading, .VRRenderModelError_Failed 300] []).trace ∧
      s2.self.m_vecRenderModels =
        (freshMachine [.VRRenderModelError_Loading,
          .VRRenderModelError_Failed 300] []).self.m_vecRenderModels :=
  ⟨by decide,
   C8_model_load_error scriptedRuntime sampleGL 2
     (freshMachine [.VRRenderModelError_Loading, .VRRenderModelError_Failed 300] [])
     (cstr "vr_controller") (.VRRenderModelError_Failed 300) ⟨0, 24, 0, 12, 7⟩
     { freshMachine [] [] with
       trace := [.LoadRenderModel_Async (cstr "vr_controller") .VRRenderModelError_Loading,
                 .ThreadSleep 1,
                 .LoadRenderModel_Async (cstr "vr_controller")
                   (.VRRenderModelError_Failed 300)] }
     (by decide) rfl (by decide)⟩

/-- Claim C9 at a sample run: the model load succeeds and the texture loader answers an error. -/
theorem C9_witness :
    CacheMiss (freshMachine [] [.VRRenderModelError_Failed 301]) (cstr "vr_controller") ∧
    ∃ s3, CMainApplication_FindOrLoadRenderModel scriptedRuntime sampleGL 1
        (freshMachine [] [.VRRenderModelError_Failed 301]) (cstr "vr_controller") =
          .ret none s3 ∧
      freeRenderModelCalls s3.trace =
        freeRenderModelCalls (freshMachine [] [.VRRenderModelError_Failed 301]).trace + 1 ∧
      s3.trace.getLast? = some (.FreeRenderModel ⟨0, 24, 0, 12, 7⟩) ∧
      exitCalls s3.trace = exitCalls (freshMachine [] [.VRRenderModelError_Failed 301]).trace ∧
      s3.self.m_vecRenderModels =
        (freshMachine [] [.VRRenderModelError_Failed 301]).self.m_vecRenderModels :=
  ⟨by decide,
   C9_texture_load_error scriptedRuntime sampleGL 1
     (freshMachine [] [.VRRenderModelError_Failed 301]) (cstr "vr_controller")
     ⟨0, 24, 0, 12, 7⟩
     { freshMachine [] [.VRRenderModelError_Failed 301] with
       trace := [.LoadRenderModel_Async (cstr "vr_controller") .VRRenderModelError_None] }
     (.VRRenderModelError_Failed 301) ⟨64, 64, 0⟩
     { freshMachine [] [] with
       trace := [.LoadRenderModel_Async (cstr "vr_controller") .VRRenderModelError_None,
                 .LoadTexture_Async 7 (.VRRenderModelError_Failed 301)] }
     (by decide) rfl rfl (by decide)⟩

/-- Claim C10 (first-free-slot insertion): on a cache miss with both loads successful and at least
one empty cache slot, the call returns the newly allocated model, whose name is the requested
name; the model is stored at the smallest index whose slot was empty and every other cache
slot is unchanged.  The model is new: when every cached model was allocated earlier, no slot
held its address before the call. -/
theorem C10_first_free_insertion (rm : VR_IVRRenderModels W) (gl : GLDriver W) (fuel : Nat)
    (s : Machine W) (name : CString) (m : RenderModel_t) (s1 : Machine W)
    (tx : RenderModel_TextureMap_t) (s2 : Machine W) (k : Fin MAX_TRACKED_DEVICE_COUNT)
    (hmiss : CacheMiss s name)
    (hM : LoadRenderModel_poll rm name fuel s = some (.VRRenderModelError_None, m, s1))
    (hT : LoadTexture_poll rm m.diffuseTextureId fuel s1 =
      some (.VRRenderModelError_None, tx, s2))
    (hfree : s.self.m_vecRenderModels k = none) :
    ∃ j s4, FirstFree s.self j ∧
      CMainApplication_FindOrLoadRenderModel rm gl fuel s name = .ret (some s.brk) s4 ∧
      (s4.heap s.brk).m_sModelName = name ∧
      s4.self.m_vecRenderModels j = some s.brk ∧
      (∀ i, i ≠ j → s4.self.m_vecRenderModels i = s.self.m_vecRenderModels i) ∧
      (Allocated s → ∀ i, s.self.m_vecRenderModels i ≠ some s.brk) := by
  rcases cacheFull_or_firstFree s.self with hfull | ⟨j, hj⟩
  · exact absurd hfree (hfull k)
  · obtain ⟨s4, hret, hself, _, hnm, _, _⟩ :=
      FindOrLoad_of_firstFree rm gl fuel s name m s1 tx s2 hmiss hM hT j hj
    refine ⟨j, s4, hj, hret, hnm, ?_, ?_, ?_⟩
    · rw [hself]
      simp
    · intro i hi
      rw [hself]
      simp [Function.update, hi]
    · intro halloc i hi
      exact absurd (halloc i s.brk hi) (lt_irrefl _)

/-- Claim C10 at a sample cache of two models: the new model goes to slot 2. -/
theorem C10_witness :
    CacheMiss (filledMachine 2 [] []) (cstr "vr_controller") ∧
    (filledMachine 2 [] []).self.m_vecRenderModels 9 = none ∧
    ∃ j s4, FirstFree (filledMachine 2 [] []).self j ∧
      CMainApplication_FindOrLoadRenderModel scriptedRuntime sampleGL 1 (filledMachine 2 [] [])
        (cstr "vr_controller") = .ret (some (filledMachine 2 [] []).brk) s4 ∧
      (s4.heap (filledMachine 2 [] []).brk).m_sModelName = cstr "vr_controller" ∧
      s4.self.m_vecRenderModels j = some (filledMachine 2 [] []).brk ∧
      (∀ i, i ≠ j → s4.self.m_vecRenderModels i =
        (filledMachine 2 [] []).self.m_vecRenderModels i) ∧
      (Allocated (filledMachine 2 [] []) →
        ∀ i, (filledMachine 2 [] []).self.m_vecRenderModels i ≠
          some (filledMachine 2 [] []).brk) :=
  ⟨by decide, by decide,
   C10_first_free_insertion scriptedRuntime sampleGL 1 (filledMachine 2 [] [])
     (cstr "vr_controller") ⟨0, 24, 0, 12, 7⟩
     { filledMachine 2 [] [] with
       trace := [.LoadRenderModel_Async (cstr "vr_controller") .VRRenderModelError_None] }
     ⟨64, 64, 0⟩
     { filledMachine 2 [] [] with
       trace := [.LoadRenderModel_Async (cstr "vr_controller") .VRRenderModelError_None,
                 .LoadTexture_Async 7 .VRRenderModelError_None] }
     9 (by decide) rfl rfl (by decide)⟩

/-- What an exit of the call tells: nothing in the cache matches, both loads succeeded, the
cache is full, and the exit code is 1. -/
theorem FindOrLoad_exit_elim (rm : VR_IVRRenderModels W) (gl : GLDriver W) (fuel : Nat)
    (s : Machine W) (name : CString) (code : Nat) (s4 : Machine W)
    (hexit : CMainApplication_FindOrLoadRenderModel rm gl fuel s name = .exit code s4) :
    NoMatch s.self s.heap name ∧
      (∃ m s1 tx s2,
        LoadRenderModel_poll rm name fuel s = some (.VRRenderModelError_None, m, s1) ∧
        LoadTexture_poll rm m.diffuseTextureId fuel s1 =
          some (.VRRenderModelError_None, tx, s2)) ∧
      CacheFull s.self ∧ code = 1 ∧ s4.self = s.self := by
  cases hscan : FindOrLoadRenderModel_scan s.self s.heap name k_unMaxTrackedDeviceCount 0 with
  | some p =>
    rw [FindOrLoad_of_scan_some rm gl fuel s name p hscan] at hexit
    cases hexit
  | none =>
    cases hM : LoadRenderModel_poll rm name fuel s with
    | none =>
      rw [FindOrLoad_of_model_spinning rm gl fuel s name hscan hM] at hexit
      cases hexit
    | some r =>
      obtain ⟨e, m, s1⟩ := r
      by_cases he : e = .VRRenderModelError_None
      · subst he
        cases hT : LoadTexture_poll rm m.diffuseTextureId fuel s1 with
        | none =>
          rw [FindOrLoad_of_texture_spinning rm gl fuel s name m s1 hscan hM hT] at hexit
          cases hexit
        | some r2 =>
          obtain ⟨e2, tx, s2⟩ := r2
          by_cases he2 : e2 = .VRRenderModelError_None
          · subst he2
            rcases cacheFull_or_firstFree s.self with hfull | ⟨j, hj⟩
            · obtain ⟨s5, h5, h5self, _⟩ :=
                FindOrLoad_of_full rm gl fuel s name m s1 tx s2 hscan hM hT hfull
              rw [h5] at hexit
              cases hexit
              refine ⟨?_, ⟨m, s1, tx, s2, rfl, hT⟩, hfull, rfl, h5self⟩
              intro i q hq
              exact scan_eq_none_elim s.self s.heap name _ 0 hscan i (Nat.zero_le _)
                (by have hi : i.val < 16 := i.isLt; show i.val < 0 + 16; omega)
                (fun k _ _ => hfull k) q hq
            · obtain ⟨s5, h5, _⟩ :=
                FindOrLoad_of_firstFree rm gl fuel s name m s1 tx s2 hscan hM hT j hj
              rw [h5] at hexit
              cases hexit
          · rw [FindOrLoad_of_texture_error rm gl fuel s name m s1 e2 tx s2 hscan hM hT he2]
              at hexit
            cases hexit
      · rw [FindOrLoad_of_model_error rm gl fuel s name e m s1 hscan hM he] at hexit
        cases hexit

/-- Claim C6 (capacity exhaustion is the only fatal condition): a call exits if and only if no
cached model matches the requested name, the model load and the texture load both end in
success, and all 16 cache slots are populated; the exit code is then 1.  So a 17th distinct
model is fatal, and a call whose model or texture load ends in an error never exits. -/
theorem C6_exit_iff_full (rm : VR_IVRRenderModels W) (gl : GLDriver W) (fuel : Nat)
    (s : Machine W) (name : CString) :
    ((∃ code s4, CMainApplication_FindOrLoadRenderModel rm gl fuel s name = .exit code s4) ↔
      (NoMatch s.self s.heap name ∧
       (∃ m s1 tx s2,
          LoadRenderModel_poll rm name fuel s = some (.VRRenderModelError_None, m, s1) ∧
          LoadTexture_poll rm m.diffuseTextureId fuel s1 =
            some (.VRRenderModelError_None, tx, s2)) ∧
       CacheFull s.self)) ∧
    (∀ code s4, CMainApplication_FindOrLoadRenderModel rm gl fuel s name = .exit code s4 →
      code = 1) := by
  refine ⟨⟨?_, ?_⟩, ?_⟩
  · rintro ⟨code, s4, hexit⟩
    obtain ⟨h1, h2, h3, _⟩ := FindOrLoad_exit_elim rm gl fuel s name code s4 hexit
    exact ⟨h1, h2, h3⟩
  · rintro ⟨hno, ⟨m, s1, tx, s2, hM, hT⟩, hfull⟩
    obtain ⟨s5, h5, _⟩ :=
      FindOrLoad_of_full rm gl fuel s name m s1 tx s2 (cacheMiss_of_noMatch hno) hM hT hfull
    exact ⟨1, s5, h5⟩
  · intro code s4 hexit
    exact (FindOrLoad_exit_elim rm gl fuel s name code s4 hexit).2.2.2.1

/-! ## What a returned call tells -/

/-- Matching names are interchangeable in the lookup. -/
theorem scan_congr (self : CMainApplication) (heap : Ptr → CGLRenderModel) {a b : CString}
    (hab : sameName a b) (n i : Nat) :
    FindOrLoadRenderModel_scan self heap a n i = FindOrLoadRenderModel_scan self heap b n i := by
  induction n generalizing i with
  | zero => rfl
  | succ n ih =>
    unfold FindOrLoadRenderModel_scan
    split
    · split
      · rfl
      · rename_i model _
        have hiff : stricmp (heap model).m_sModelName a = 0 ↔
            stricmp (heap model).m_sModelName b = 0 :=
          ⟨fun h => sameName_trans h hab, fun h => sameName_trans h (sameName_symm hab)⟩
        by_cases h : stricmp (heap model).m_sModelName a = 0
        · simp [h, hiff.1 h]
        · have h2 : ¬ stricmp (heap model).m_sModelName b = 0 := fun hb => h (hiff.2 hb)
          simp [h, h2, ih]
    · rfl

/-- A call that returns a model either found it (and changed nothing) or inserted the newly
allocated model at the first empty slot after two successful loads. -/
theorem FindOrLoad_ret_some_elim (rm : VR_IVRRenderModels W) (gl : GLDriver W) (fuel : Nat)
    (s : Machine W) (name : CString) (p : Ptr) (s4 : Machine W)
    (hret : CMainApplication_FindOrLoadRenderModel rm gl fuel s name = .ret (some p) s4) :
    (FindOrLoadRenderModel_scan s.self s.heap name k_unMaxTrackedDeviceCount 0 = some p ∧
      s4 = s) ∨
    (FindOrLoadRenderModel_scan s.self s.heap name k_unMaxTrackedDeviceCount 0 = none ∧
      p = s.brk ∧
      ∃ j m s1 tx s2, FirstFree s.self j ∧
        LoadRenderModel_poll rm name fuel s = some (.VRRenderModelError_None, m, s1) ∧
        LoadTexture_poll rm m.diffuseTextureId fuel s1 =
          some (.VRRenderModelError_None, tx, s2) ∧
        s4.self = { s.self with
          m_vecRenderModels := Function.update s.self.m_vecRenderModels j (some s.brk) } ∧
        s4.brk = s.brk + 1 ∧ (s4.heap s.brk).m_sModelName = name ∧
        (∀ q, q ≠ s.brk → s4.heap q = s.heap q) ∧
        s4.trace = s2.trace ++ (.mallocModel s.brk :: CGLRenderModel_BInit_calls) ++
          [.FreeRenderModel m, .FreeTexture tx]) := by
  cases hscan : FindOrLoadRenderModel_scan s.self s.heap name k_unMaxTrackedDeviceCount 0 with
  | some p0 =>
    rw [FindOrLoad_of_scan_some rm gl fuel s name p0 hscan] at hret
    cases hret
    exact Or.inl ⟨rfl, rfl⟩
  | none =>
    right
    cases hM : LoadRenderModel_poll rm name fuel s with
    | none =>
      rw [FindOrLoad_of_model_spinning rm gl fuel s name hscan hM] at hret
      cases hret
    | some r =>
      obtain ⟨e, m, s1⟩ := r
      by_cases he : e = .VRRenderModelError_None
      · subst he
        cases hT : LoadTexture_poll rm m.diffuseTextureId fuel s1 with
        | none =>
          rw [FindOrLoad_of_texture_spinning rm gl fuel s name m s1 hscan hM hT] at hret
          cases hret
        | some r2 =>
          obtain ⟨e2, tx, s2⟩ := r2
          by_cases he2 : e2 = .VRRenderModelError_None
          · subst he2
            rcases cacheFull_or_firstFree s.self with hfull | ⟨j, hj⟩
            · obtain ⟨s5, h5, _⟩ :=
                FindOrLoad_of_full rm gl fuel s name m s1 tx s2 hscan hM hT hfull
              rw [h5] at hret
              cases hret
            · obtain ⟨s5, h5, g1, g2, g3, g4, g5⟩ :=
                FindOrLoad_of_firstFree rm gl fuel s name m s1 tx s2 hscan hM hT j hj
              rw [h5] at hret
              cases hret
              exact ⟨rfl, rfl, j, m, s1, tx, s2, hj, rfl, hT, g1, g2, g3, g4, g5⟩
          · rw [FindOrLoad_of_texture_error rm gl fuel s name m s1 e2 tx s2 hscan hM hT he2]
              at hret
            cases hret
      · rw [FindOrLoad_of_model_error rm gl fuel s name e m s1 hscan hM he] at hret
        cases hret

/-- A call that returns no model left the application struct and the heap as they were. -/
theorem FindOrLoad_ret_none_elim (rm : VR_IVRRenderModels W) (gl : GLDriver W) (fuel : Nat)
    (s : Machine W) (name : CString) (s4 : Machine W)
    (hret : CMainApplication_FindOrLoadRenderModel rm gl fuel s name = .ret none s4) :
    s4.self = s.self ∧ s4.heap = s.heap ∧ s4.brk = s.brk := by
  cases hscan : FindOrLoadRenderModel_scan s.self s.heap name k_unMaxTrackedDeviceCount 0 with
  | some p0 =>
    rw [FindOrLoad_of_scan_some rm gl fuel s name p0 hscan] at hret
    cases hret
  | none =>
    cases hM : LoadRenderModel_poll rm name fuel s with
    | none =>
      rw [FindOrLoad_of_model_spinning rm gl fuel s name hscan hM] at hret
      cases hret
    | some r =>
      obtain ⟨e, m, s1⟩ := r
      obtain ⟨a1, a2, a3, _⟩ := LoadRenderModel_poll_spec rm name fuel s e m s1 hM
      by_cases he : e = .VRRenderModelError_None
      · subst he
        cases hT : LoadTexture_poll rm m.diffuseTextureId fuel s1 with
        | none =>
          rw [FindOrLoad_of_texture_spinning rm gl fuel s name m s1 hscan hM hT] at hret
          cases hret
        | some r2 =>
          obtain ⟨e2, tx, s2⟩ := r2
          obtain ⟨c1, c2, c3, _⟩ := LoadTexture_poll_spec rm _ fuel s1 e2 tx s2 hT
          by_cases he2 : e2 = .VRRenderModelError_None
          · subst he2
            rcases cacheFull_or_firstFree s.self with hfull | ⟨j, hj⟩
            · obtain ⟨s5, h5, _⟩ :=
                FindOrLoad_of_full rm gl fuel s name m s1 tx s2 hscan hM hT hfull
              rw [h5] at hret
              cases hret
            · obtain ⟨s5, h5, _⟩ :=
                FindOrLoad_of_firstFree rm gl fuel s name m s1 tx s2 hscan hM hT j hj
              rw [h5] at hret
              cases hret
          · rw [FindOrLoad_of_texture_error rm gl fuel s name m s1 e2 tx s2 hscan hM hT he2]
              at hret
            cases hret
            exact ⟨c1.trans a1, c2.trans a2, c3.trans a3⟩
      · rw [FindOrLoad_of_model_error rm gl fuel s name e m s1 hscan hM he] at hret
        cases hret
        exact ⟨a1, a2, a3⟩

/-- After an insertion at the first empty slot the lookup of any matching name finds the new
model. -/
theorem scan_after_insert (s s4 : Machine W) (a b : CString)
    (j : Fin MAX_TRACKED_DEVICE_COUNT) (hab : sameName a b)
    (hscan : FindOrLoadRenderModel_scan s.self s.heap a k_unMaxTrackedDeviceCount 0 = none)
    (hj : FirstFree s.self j)
    (hself : s4.self = { s.self with
      m_vecRenderModels := Function.update s.self.m_vecRenderModels j (some s.brk) })
    (hname : (s4.heap s.brk).m_sModelName = a)
    (hheap : ∀ q, q ≠ s.brk → s4.heap q = s.heap q) :
    FindOrLoadRenderModel_scan s4.self s4.heap b k_unMaxTrackedDeviceCount 0 = some s.brk := by
  have hj16 : j.val < 16 := j.isLt
  refine scan_eq_some_of_first s4.self s4.heap b j s.brk ?_ ?_ ?_ _ 0 (Nat.zero_le _)
    (by show j.val < 0 + 16; omega)
  · rw [hself]
    simp
  · rw [hname]
    exact hab
  · intro k hk
    have hkj : k ≠ j := ne_of_lt hk
    have hne : s.self.m_vecRenderModels k ≠ none := hj.2 k hk
    obtain ⟨q, hq⟩ := Option.ne_none_iff_exists'.1 hne
    refine ⟨q, ?_, fun hsame => ?_⟩
    · rw [hself]
      simp [Function.update, hkj, hq]
    · by_contra hqp
      rw [hheap q hqp] at hsame
      have hk16 : k.val < 16 := k.isLt
      exact scan_eq_none_elim s.self s.heap a _ 0 hscan k (Nat.zero_le _)
        (by show k.val < 0 + 16; omega)
        (fun k2 _ hk2 => hj.2 k2 (lt_of_le_of_lt hk2 hk)) q hq
        (sameName_trans hsame (sameName_symm hab))

/-- Claim C1 (cache identity): for every cache state and all names `A`, `B` that are equal under
case-insensitive comparison, if the call for `A` returns a model then a following call for
`B` returns that same model (whatever its poll budget) and changes nothing. -/
theorem C1_cache_identity (rm : VR_IVRRenderModels W) (gl : GLDriver W) (fuelA fuelB : Nat)
    (s : Machine W) (A B : CString) (p : Ptr) (s1 : Machine W) (hAB : sameName A B)
    (hA : CMainApplication_FindOrLoadRenderModel rm gl fuelA s A = .ret (some p) s1) :
    CMainApplication_FindOrLoadRenderModel rm gl fuelB s1 B = .ret (some p) s1 := by
  apply FindOrLoad_of_scan_some
  rcases FindOrLoad_ret_some_elim rm gl fuelA s A p s1 hA with
    ⟨hscan, hs⟩ | ⟨hscan, hp, j, m, sa, tx, sb, hj, _, _, hself, _, hname, hheap, _⟩
  · subst hs
    rw [← scan_congr s1.self s1.heap hAB]
    exact hscan
  · subst hp
    exact scan_after_insert s s1 A B j hAB hscan hj hself hname hheap

/-- Claim C1 at a sample cache of three models: `vr_controller` is loaded to address 3 and `VR_Controller` finds it. -/
theorem C1_witness :
    sameName (cstr "vr_controller") (cstr "VR_Controller") ∧
    ∃ s1, CMainApplication_FindOrLoadRenderModel scriptedRuntime sampleGL 2
        (filledMachine 3 [.VRRenderModelError_Loading] []) (cstr "vr_controller") =
          .ret (some 3) s1 ∧
      CMainApplication_FindOrLoadRenderModel scriptedRuntime sampleGL 0 s1
        (cstr "VR_Controller") = .ret (some 3) s1 :=
  ⟨by decide, _, rfl,
   C1_cache_identity scriptedRuntime sampleGL 2 0
     (filledMachine 3 [.VRRenderModelError_Loading] []) (cstr "vr_controller")
     (cstr "VR_Controller") 3 _ (by decide) rfl⟩

/-- Claim C2, as stated, fails: with equal names `vr_controller` and `VR_CONTROLLER`, a loader that
answers `Loading` once and then succeeds is called twice by the first call alone, and a loader
that answers with an error is called once by each of the two calls. -/
theorem C2_counterexample :
    sameName (cstr "vr_controller") (cstr "VR_CONTROLLER") ∧
    (∃ s2, FindOrLoadRenderModel_calls scriptedRuntime sampleGL 2
        [cstr "vr_controller", cstr "VR_CONTROLLER"]
        (freshMachine [.VRRenderModelError_Loading] []) = .ret [some 0, some 0] s2 ∧
      loadModelCalls (freshMachine [.VRRenderModelError_Loading] []).trace = 0 ∧
      loadModelCalls s2.trace = 2) ∧
    (∃ s2, FindOrLoadRenderModel_calls scriptedRuntime sampleGL 1
        [cstr "vr_controller", cstr "VR_CONTROLLER"]
        (freshMachine [.VRRenderModelError_Failed 300, .VRRenderModelError_Failed 300] []) =
          .ret [none, none] s2 ∧
      loadModelCalls s2.trace = 2) :=
  ⟨by decide, ⟨_, rfl, by decide, by decide⟩, ⟨_, rfl, by decide⟩⟩

/-- Claim C2, amended: for all names `A`, `B` equal under case-insensitive comparison, if the call
for `A` returns a model, then the following call for `B` returns it with the machine (and so
the trace) unchanged, making no `LoadRenderModel_Async` call; and over the two calls
`LoadRenderModel_Async` is called at most once more than the number of times it answered
`Loading`. -/
theorem C2_load_once_amended (rm : VR_IVRRenderModels W) (gl : GLDriver W)
    (fuelA fuelB : Nat) (s : Machine W) (A B : CString) (p : Ptr) (s1 : Machine W)
    (hAB : sameName A B)
    (hA : CMainApplication_FindOrLoadRenderModel rm gl fuelA s A = .ret (some p) s1) :
    ∃ s2, CMainApplication_FindOrLoadRenderModel rm gl fuelB s1 B = .ret (some p) s2 ∧
      loadModelCalls s2.trace = loadModelCalls s1.trace ∧
      loadModelCalls s2.trace + loadModelLoading s.trace ≤
        loadModelCalls s.trace + loadModelLoading s2.trace + 1 := by
  refine ⟨s1, ?_, rfl, ?_⟩
  · apply FindOrLoad_of_scan_some
    rcases FindOrLoad_ret_some_elim rm gl fuelA s A p s1 hA with
      ⟨hscan, hs⟩ | ⟨hscan, hp, j, m, sa, tx, sb, hj, _, _, hself, _, hname, hheap, _⟩
    · subst hs
      rw [← scan_congr s1.self s1.heap hAB]
      exact hscan
    · subst hp
      exact scan_after_insert s s1 A B j hAB hscan hj hself hname hheap
  · rcases FindOrLoad_ret_some_elim rm gl fuelA s A p s1 hA with
      ⟨_, hs⟩ | ⟨_, _, j, m, sa, tx, sb, _, hM, hT, _, _, _, _, htrace⟩
    · subst hs
      omega
    · obtain ⟨_, _, _, _, t, ht, hc, _⟩ := LoadRenderModel_poll_spec rm A fuelA s _ m sa hM
      obtain ⟨_, _, _, _, u, hu, hu1, hu2, _⟩ := LoadTexture_poll_spec rm _ fuelA sa _ tx sb hT
      rw [htrace, hu, ht]
      simp only [loadModelCalls_append, loadModelLoading_append, hc, hu1, hu2]
      simp [loadModelCalls, loadModelLoading, CGLRenderModel_BInit_calls,
        Event.isLoadRenderModel, Event.isLoadRenderModelLoading]
      omega

/-- Claim C2, amended, at a sample run: the loader answers `Loading` once, then success. -/
theorem C2_witness :
    sameName (cstr "vr_controller") (cstr "VR_CONTROLLER") ∧
    ∃ s1, CMainApplication_FindOrLoadRenderModel scriptedRuntime sampleGL 2
        (freshMachine [.VRRenderModelError_Loading] []) (cstr "vr_controller") =
          .ret (some 0) s1 ∧
      ∃ s2, CMainApplication_FindOrLoadRenderModel scriptedRuntime sampleGL 2 s1
          (cstr "VR_CONTROLLER") = .ret (some 0) s2 ∧
        loadModelCalls s2.trace = loadModelCalls s1.trace ∧
        loadModelCalls s2.trace +
            loadModelLoading (freshMachine [.VRRenderModelError_Loading] []).trace ≤
          loadModelCalls (freshMachine [.VRRenderModelError_Loading] []).trace +
            loadModelLoading s2.trace + 1 :=
  ⟨by decide, _, rfl,
   C2_load_once_amended scriptedRuntime sampleGL 2 2
     (freshMachine [.VRRenderModelError_Loading] []) (cstr "vr_controller")
     (cstr "VR_CONTROLLER") 0 _ (by decide) rfl⟩

/-! ## The cache invariant -/

/-- The empty cache of `CMainApplication_init` satisfies the invariant. -/
theorem cacheInv_init (s0 : Machine W) :
    CacheInv { s0 with self := CMainApplication_init s0.self } := by
  refine ⟨?_, ?_, ?_⟩
  · intro i j _ h
    simp [CMainApplication_init] at h
  · intro i j _ p hp
    simp [CMainApplication_init] at hp
  · intro i p hp
    simp [CMainApplication_init] at hp

/-- In a packed cache every populated slot lies before the first empty one. -/
theorem lt_firstFree_of_some {self : CMainApplication} (hpacked : Packed self)
    {j k : Fin MAX_TRACKED_DEVICE_COUNT} (hj : FirstFree self j) {q : Ptr}
    (hk : self.m_vecRenderModels k = some q) : k < j := by
  by_contra hlt
  rcases lt_or_eq_of_le (not_lt.1 hlt) with h | h
  · exact hpacked j k h (by simp [hk]) hj.1
  · rw [← h, hj.1] at hk
    cases hk

/-- After a failed lookup in a packed cache, no cached model matches the name. -/
theorem noMatch_of_scan_none {self : CMainApplication} {heap : Ptr → CGLRenderModel}
    {name : CString} (hpacked : Packed self)
    (hscan : FindOrLoadRenderModel_scan self heap name k_unMaxTrackedDeviceCount 0 = none) :
    NoMatch self heap name := by
  intro k q hq
  have hk16 : k.val < 16 := k.isLt
  exact scan_eq_none_elim self heap name _ 0 hscan k (Nat.zero_le _)
    (by show k.val < 0 + 16; omega)
    (fun k2 _ hk2 => by
      rcases lt_or_eq_of_le hk2 with h | h
      · exact hpacked k2 k h (by simp [Option.mem_def.1 hq])
      · rw [h]; simp [Option.mem_def.1 hq]) q hq

/-- The invariant survives the insertion of a newly allocated model, named `name`, at the
first empty slot, when no cached model matched `name`. -/
theorem cacheInv_insert (s s4 : Machine W) (name : CString)
    (j : Fin MAX_TRACKED_DEVICE_COUNT) (hinv : CacheInv s)
    (hno : NoMatch s.self s.heap name) (hj : FirstFree s.self j)
    (hself : s4.self = { s.self with
      m_vecRenderModels := Function.update s.self.m_vecRenderModels j (some s.brk) })
    (hbrk : s4.brk = s.brk + 1) (hname : (s4.heap s.brk).m_sModelName = name)
    (hheap : ∀ q, q ≠ s.brk → s4.heap q = s.heap q) : CacheInv s4 := by
  obtain ⟨hpacked, huniq, halloc⟩ := hinv
  have hvec : ∀ i, s4.self.m_vecRenderModels i =
      if i = j then some s.brk else s.self.m_vecRenderModels i := by
    intro i
    rw [hself]
    by_cases h : i = j <;> simp [Function.update, h]
  have hold : ∀ i q, i ≠ j → s4.self.m_vecRenderModels i = some q →
      s.self.m_vecRenderModels i = some q ∧ s4.heap q = s.heap q := by
    intro i q hij hq
    rw [hvec, if_neg hij] at hq
    exact ⟨hq, hheap q (ne_of_lt (halloc i q hq))⟩
  refine ⟨?_, ?_, ?_⟩
  · intro i k hik hk
    rw [hvec] at hk ⊢
    by_cases hi : i = j
    · simp [hi]
    · rw [if_neg hi]
      by_cases hkj : k = j
      · exact hj.2 i (hkj ▸ hik)
      · rw [if_neg hkj] at hk
        exact hpacked i k hik hk
  · intro i k hik p hp q hq hsame
    have hp2 : s4.self.m_vecRenderModels i = some p := hp
    have hq2 : s4.self.m_vecRenderModels k = some q := hq
    by_cases hi : i = j
    · have hkj : k ≠ j := fun h => hik (hi.trans h.symm)
      obtain ⟨hq3, hq4⟩ := hold k q hkj hq2
      rw [hvec, if_pos hi] at hp2
      cases hp2
      rw [hname, hq4] at hsame
      exact hno k q hq3 (sameName_symm hsame)
    · obtain ⟨hp3, hp4⟩ := hold i p hi hp2
      by_cases hkj : k = j
      · rw [hvec, if_pos hkj] at hq2
        cases hq2
        rw [hname, hp4] at hsame
        exact hno i p hp3 hsame
      · obtain ⟨hq3, hq4⟩ := hold k q hkj hq2
        rw [hp4, hq4] at hsame
        exact huniq i k hik p hp3 q hq3 hsame
  · intro i p hp
    have hp2 : s4.self.m_vecRenderModels i = some p := hp
    rw [hbrk]
    by_cases hi : i = j
    · rw [hvec, if_pos hi] at hp2
      cases hp2
      exact Nat.lt_succ_self _
    · exact Nat.lt_succ_of_lt (halloc i p (hold i p hi hp2).1)

/-- Every returning call of `CMainApplication_FindOrLoadRenderModel` keeps the invariant. -/
theorem cacheInv_FindOrLoad (rm : VR_IVRRenderModels W) (gl : GLDriver W) (fuel : Nat)
    (s : Machine W) (name : CString) (r : Option Ptr) (s4 : Machine W) (hinv : CacheInv s)
    (hret : CMainApplication_FindOrLoadRenderModel rm gl fuel s name = .ret r s4) :
    CacheInv s4 := by
  cases r with
  | none =>
    obtain ⟨h1, h2, h3⟩ := FindOrLoad_ret_none_elim rm gl fuel s name s4 hret
    unfold CacheInv Allocated at hinv ⊢
    rw [h1, h2, h3]
    exact hinv
  | some p =>
    rcases FindOrLoad_ret_some_elim rm gl fuel s name p s4 hret with
      ⟨_, hs⟩ | ⟨hscan, _, j, m, sa, tx, sb, hj, _, _, hself, hbrk, hname, hheap, _⟩
    · rw [hs]
      exact hinv
    · exact cacheInv_insert s s4 name j hinv (noMatch_of_scan_none hinv.1 hscan) hj hself
        hbrk hname hheap

/-- A returning sequence of calls splits into its first call and the rest. -/
theorem calls_cons_ret_elim (rm : VR_IVRRenderModels W) (gl : GLDriver W) (fuel : Nat)
    (name : CString) (rest : List CString) (s : Machine W) (rs : List (Option Ptr))
    (s4 : Machine W)
    (hret : FindOrLoadRenderModel_calls rm gl fuel (name :: rest) s = .ret rs s4) :
    ∃ r s1 rs2, CMainApplication_FindOrLoadRenderModel rm gl fuel s name = .ret r s1 ∧
      FindOrLoadRenderModel_calls rm gl fuel rest s1 = .ret rs2 s4 ∧ rs = r :: rs2 := by
  unfold FindOrLoadRenderModel_calls at hret
  cases h1 : CMainApplication_FindOrLoadRenderModel rm gl fuel s name with
  | ret r s1 =>
    simp only [h1] at hret
    cases h2 : FindOrLoadRenderModel_calls rm gl fuel rest s1 with
    | ret rs2 s2 =>
      simp only [h2] at hret
      cases hret
      exact ⟨r, s1, rs2, rfl, h2, rfl⟩
    | exit c s2 => simp only [h2] at hret; cases hret
    | spinning => simp only [h2] at hret; cases hret
    | undefined => simp only [h2] at hret; cases hret
  | exit c s1 => simp only [h1] at hret; cases hret
  | spinning => simp only [h1] at hret; cases hret
  | undefined => simp only [h1] at hret; cases hret

/-- Every returning sequence of calls keeps the invariant. -/
theorem cacheInv_calls (rm : VR_IVRRenderModels W) (gl : GLDriver W) (fuel : Nat)
    (names : List CString) (s : Machine W) (rs : List (Option Ptr)) (s4 : Machine W)
    (hinv : CacheInv s)
    (hret : FindOrLoadRenderModel_calls rm gl fuel names s = .ret rs s4) : CacheInv s4 := by
  induction names generalizing s rs with
  | nil =>
    simp only [FindOrLoadRenderModel_calls] at hret
    cases hret
    exact hinv
  | cons name rest ih =>
    obtain ⟨r, s1, rs2, h1, h2, _⟩ := calls_cons_ret_elim rm gl fuel name rest s rs s4 hret
    exact ih s1 rs2 (cacheInv_FindOrLoad rm gl fuel s name r s1 hinv h1) h2

/-- Claim C4 (uniqueness invariant): starting from the empty cache produced by
`CMainApplication_init`, after any sequence of calls of
`CMainApplication_FindOrLoadRenderModel`, with any names and any behaviour of the loaders, no
two populated cache slots hold models whose names are equal under case-insensitive
comparison. -/
theorem C4_unique_names (rm : VR_IVRRenderModels W) (gl : GLDriver W) (fuel : Nat)
    (names : List CString) (s0 : Machine W) (rs : List (Option Ptr)) (s4 : Machine W)
    (hret : FindOrLoadRenderModel_calls rm gl fuel names
      { s0 with self := CMainApplication_init s0.self } = .ret rs s4) :
    ∀ i j p q, i ≠ j → s4.self.m_vecRenderModels i = some p →
      s4.self.m_vecRenderModels j = some q →
      ¬ sameName (s4.heap p).m_sModelName (s4.heap q).m_sModelName := by
  intro i j p q hij hp hq
  exact (cacheInv_calls rm gl fuel names _ rs s4 (cacheInv_init s0) hret).2.1 i j hij p hp q hq

/-- Claim C4 at a sample run of four calls, one of which fails to load its texture. -/
theorem C4_witness :
    ∃ s4, FindOrLoadRenderModel_calls scriptedRuntime sampleGL 2
        [cstr "vr_controller", cstr "generic_hmd", cstr "VR_Controller", cstr "lh_basestation"]
        { freshMachine [.VRRenderModelError_Loading] [.VRRenderModelError_Failed 301] with
          self := CMainApplication_init
            (freshMachine [.VRRenderModelError_Loading]
              [.VRRenderModelError_Failed 301]).self } =
          .ret [none, some 0, some 1, some 2] s4 ∧
      ∀ i j p q, i ≠ j → s4.self.m_vecRenderModels i = some p →
        s4.self.m_vecRenderModels j = some q →
        ¬ sameName (s4.heap p).m_sModelName (s4.heap q).m_sModelName :=
  ⟨_, rfl,
   C4_unique_names scriptedRuntime sampleGL 2
     [cstr "vr_controller", cstr "generic_hmd", cstr "VR_Controller", cstr "lh_basestation"]
     (freshMachine [.VRRenderModelError_Loading] [.VRRenderModelError_Failed 301])
     [none, some 0, some 1, some 2] _ rfl⟩

/-! ## Filling the cache -/

theorem loadsSucceed_cons (rm : VR_IVRRenderModels W) (gl : GLDriver W) (fuel : Nat)
    (name : CString) (rest : List CString) (s : Machine W)
    (h : loadsSucceed rm gl fuel (name :: rest) s = true) :
    (∃ m s1 tx s2,
      LoadRenderModel_poll rm name fuel s = some (.VRRenderModelError_None, m, s1) ∧
      LoadTexture_poll rm m.diffuseTextureId fuel s1 =
        some (.VRRenderModelError_None, tx, s2)) ∧
    ∀ r s1, CMainApplication_FindOrLoadRenderModel rm gl fuel s name = .ret r s1 →
      loadsSucceed rm gl fuel rest s1 = true := by
  unfold loadsSucceed at h
  rw [Bool.and_eq_true] at h
  obtain ⟨h1, h2⟩ := h
  constructor
  · split at h1
    · rename_i m s1 hM
      split at h1
      · rename_i tx s2 hT
        exact ⟨m, s1, tx, s2, hM, hT⟩
      · cases h1
    · cases h1
  · intro r s1 hF
    simp only [hF] at h2
    exact h2

/-- Calls with fresh, pairwise distinct names fill a packed cache slot by slot. -/
theorem calls_fill (rm : VR_IVRRenderModels W) (gl : GLDriver W) (fuel : Nat)
    (names : List CString) (s : Machine W) (k : Nat) (hinv : CacheInv s)
    (hk : ∀ i : Fin MAX_TRACKED_DEVICE_COUNT, s.self.m_vecRenderModels i ≠ none ↔ i.val < k)
    (hroom : k + names.length ≤ MAX_TRACKED_DEVICE_COUNT)
    (hdist : names.Pairwise fun a b => ¬ sameName a b)
    (hnew : ∀ name ∈ names, NoMatch s.self s.heap name)
    (hloads : loadsSucceed rm gl fuel names s = true) :
    ∃ (ps : List Ptr) (s4 : Machine _), FindOrLoadRenderModel_calls rm gl fuel names s = .ret (ps.map some) s4 ∧
      ps.length = names.length ∧
      ∀ i : Fin MAX_TRACKED_DEVICE_COUNT,
        s4.self.m_vecRenderModels i ≠ none ↔ i.val < k + names.length := by
  induction names generalizing s k with
  | nil =>
    exact ⟨[], s, rfl, rfl, by simpa using hk⟩
  | cons name rest ih =>
    have hk16 : k < 16 := by
      have : k + (rest.length + 1) ≤ 16 := hroom
      omega
    obtain ⟨⟨m, s1, tx, s2, hM, hT⟩, hnext⟩ := loadsSucceed_cons rm gl fuel name rest s hloads
    have hno : NoMatch s.self s.heap name := hnew name (List.mem_cons_self _ _)
    have hj : FirstFree s.self ⟨k, hk16⟩ := by
      constructor
      · by_contra h
        exact absurd ((hk ⟨k, hk16⟩).1 h) (lt_irrefl k)
      · intro i hi
        exact (hk i).2 hi
    obtain ⟨s5, hF, hself, hbrk, hname, hheap, _⟩ :=
      FindOrLoad_of_firstFree rm gl fuel s name m s1 tx s2 (cacheMiss_of_noMatch hno) hM hT
        ⟨k, hk16⟩ hj
    have hinv5 : CacheInv s5 :=
      cacheInv_insert s s5 name ⟨k, hk16⟩ hinv hno hj hself hbrk hname hheap
    have hvec : ∀ i, s5.self.m_vecRenderModels i =
        if i = ⟨k, hk16⟩ then some s.brk else s.self.m_vecRenderModels i := by
      intro i
      rw [hself]
      by_cases h : i = ⟨k, hk16⟩ <;> simp [Function.update, h]
    have hk5 : ∀ i : Fin MAX_TRACKED_DEVICE_COUNT,
        s5.self.m_vecRenderModels i ≠ none ↔ i.val < k + 1 := by
      intro i
      rw [hvec]
      by_cases h : i = ⟨k, hk16⟩
      · simp [h]
      · rw [if_neg h, hk i]
        have : i.val ≠ k := fun hv => h (Fin.ext hv)
        omega
    have hnew5 : ∀ name2 ∈ rest, NoMatch s5.self s5.heap name2 := by
      intro name2 hmem i p hp
      have hp2 : s5.self.m_vecRenderModels i = some p := hp
      rw [hvec] at hp2
      by_cases h : i = ⟨k, hk16⟩
      · rw [if_pos h] at hp2
        cases hp2
        rw [hname]
        exact (List.pairwise_cons.1 hdist).1 name2 hmem
      · rw [if_neg h] at hp2
        rw [hheap p (ne_of_lt (hinv.2.2 i p hp2))]
        exact hnew name2 (List.mem_cons_of_mem _ hmem) i p hp2
    obtain ⟨ps, s4, hcalls, hlen, hfill⟩ :=
      ih s5 (k + 1) hinv5 hk5
        (by have : k + (rest.length + 1) ≤ 16 := hroom
            show k + 1 + rest.length ≤ 16
            omega)
        (List.pairwise_cons.1 hdist).2 hnew5 (hnext _ _ hF)
    refine ⟨s.brk :: ps, s4, ?_, by simp [hlen], ?_⟩
    · simp [FindOrLoadRenderModel_calls, hF, hcalls]
    · intro i
      rw [hfill i]
      simp only [List.length_cons]
      omega

/-- Claim C5 (capacity is reachable): starting from the empty cache, 16 consecutive calls with
pairwise case-insensitively distinct names, each with a successful model load and a successful
texture load, all return a model (none exits, none returns `NULL`), and afterwards all 16
cache slots are populated. -/
theorem C5_capacity_reachable (rm : VR_IVRRenderModels W) (gl : GLDriver W) (fuel : Nat)
    (names : List CString) (s0 : Machine W)
    (hlen : names.length = k_unMaxTrackedDeviceCount)
    (hdist : names.Pairwise fun a b => ¬ sameName a b)
    (hloads : loadsSucceed rm gl fuel names
      { s0 with self := CMainApplication_init s0.self } = true) :
    ∃ (ps : List Ptr) (s4 : Machine _), FindOrLoadRenderModel_calls rm gl fuel names
        { s0 with self := CMainApplication_init s0.self } = .ret (ps.map some) s4 ∧
      ps.length = k_unMaxTrackedDeviceCount ∧ CacheFull s4.self := by
  obtain ⟨ps, s4, hcalls, hps, hfill⟩ :=
    calls_fill rm gl fuel names { s0 with self := CMainApplication_init s0.self } 0
      (cacheInv_init s0) (by intro i; simp [CMainApplication_init])
      (by rw [hlen]; decide) hdist
      (by intro name _ i p hp; simp [CMainApplication_init] at hp) hloads
  refine ⟨ps, s4, hcalls, hps.trans hlen, ?_⟩
  intro i
  rw [hfill i, hlen]
  have hi : i.val < 16 := i.isLt
  show i.val < 0 + 16
  omega

/-- Claim C5 at the sixteen names `a` to `p` and a runtime whose loads succeed at once. -/
theorem C5_witness :
    sixteenNames.length = k_unMaxTrackedDeviceCount ∧
    (sixteenNames.Pairwise fun a b => ¬ sameName a b) ∧
    loadsSucceed scriptedRuntime sampleGL 1 sixteenNames
      { freshMachine [] [] with self := CMainApplication_init (freshMachine [] []).self } =
        true ∧
    ∃ (ps : List Ptr) (s4 : Machine _), FindOrLoadRenderModel_calls scriptedRuntime sampleGL 1 sixteenNames
        { freshMachine [] [] with self := CMainApplication_init (freshMachine [] []).self } =
          .ret (ps.map some) s4 ∧
      ps.length = k_unMaxTrackedDeviceCount ∧ CacheFull s4.self :=
  ⟨by decide, by decide, by decide,
   C5_capacity_reachable scriptedRuntime sampleGL 1 sixteenNames (freshMachine [] [])
     (by decide) (by decide) (by decide)⟩

/-! ## Device slots -/

theorem GetTrackedDeviceString_frame (pHmd : VR_IVRSystem W) (s : Machine W) (unDevice : Nat)
    (prop : ETrackedDeviceProperty) :
    (GetTrackedDeviceString pHmd s unDevice prop).2.self = s.self ∧
      (GetTrackedDeviceString pHmd s unDevice prop).2.heap = s.heap ∧
      (GetTrackedDeviceString pHmd s unDevice prop).2.brk = s.brk := by
  unfold GetTrackedDeviceString
  simp only
  split <;> exact ⟨rfl, rfl, rfl⟩

/-- A returning call keeps every populated cache slot and the device tables, and a returned
model sits in the cache afterwards. -/
theorem FindOrLoad_ret_cache (rm : VR_IVRRenderModels W) (gl : GLDriver W) (fuel : Nat)
    (s : Machine W) (name : CString) (r : Option Ptr) (s4 : Machine W)
    (hret : CMainApplication_FindOrLoadRenderModel rm gl fuel s name = .ret r s4) :
    (∀ i p, s.self.m_vecRenderModels i = some p → s4.self.m_vecRenderModels i = some p) ∧
      s4.self.m_rTrackedDeviceToRenderModel = s.self.m_rTrackedDeviceToRenderModel ∧
      s4.self.m_rbShowTrackedDevice = s.self.m_rbShowTrackedDevice ∧
      ∀ p, r = some p → ∃ j, s4.self.m_vecRenderModels j = some p := by
  cases r with
  | none =>
    obtain ⟨h1, _, _⟩ := FindOrLoad_ret_none_elim rm gl fuel s name s4 hret
    rw [h1]
    exact ⟨fun _ _ h => h, rfl, rfl, fun _ h => by cases h⟩
  | some p =>
    rcases FindOrLoad_ret_some_elim rm gl fuel s name p s4 hret with
      ⟨hscan, hs⟩ | ⟨_, hp, j, m, sa, tx, sb, hj, _, _, hself, _, _, _, _⟩
    · rw [hs]
      refine ⟨fun _ _ h => h, rfl, rfl, fun q hq => ?_⟩
      cases hq
      obtain ⟨j, hj, _⟩ := scan_eq_some_elim s.self s.heap name _ 0 p hscan
      exact ⟨j, hj⟩
    · rw [hself]
      refine ⟨fun i q hq => ?_, rfl, rfl, fun q hq => ?_⟩
      · have hij : i ≠ j := fun h => by rw [h, hj.1] at hq; cases hq
        simp [Function.update, hij, hq]
      · cases hq
        exact ⟨j, by simp [hp]⟩

/-- Assigning a render model to a device keeps every populated device slot inside the cache. -/
theorem slotsInCache_assign (pHmd : VR_IVRSystem W) (rm : VR_IVRRenderModels W)
    (gl : GLDriver W) (fuel : Nat) (s : Machine W) (unTrackedDeviceIndex : Nat)
    (s4 : Machine W) (hin : SlotsInCache s.self)
    (hret : CMainApplication_SetupRenderModelForTrackedDevice pHmd rm gl fuel s
      unTrackedDeviceIndex = .ret () s4) : SlotsInCache s4.self := by
  unfold CMainApplication_SetupRenderModelForTrackedDevice at hret
  split at hret
  · cases hret
    exact hin
  · rename_i hidx
    simp only at hret
    obtain ⟨g1, _, _⟩ := GetTrackedDeviceString_frame pHmd s unTrackedDeviceIndex
      .Prop_RenderModelName_String
    split at hret
    · rename_i s1 hF
      split at hret
      · cases hret
      cases hret
      obtain ⟨_, _, _⟩ := FindOrLoad_ret_cache rm gl fuel _ _ _ s1 hF
      obtain ⟨h1, _, _⟩ := FindOrLoad_ret_none_elim rm gl fuel _ _ s1 hF
      obtain ⟨g2, _, _⟩ := GetTrackedDeviceString_frame pHmd
        (s1.emit (.freeString (GetTrackedDeviceString pHmd s unTrackedDeviceIndex
          .Prop_RenderModelName_String).1)) unTrackedDeviceIndex
        .Prop_TrackingSystemName_String
      simp only [dprintf, Machine.emit] at g2 ⊢
      rw [g2, h1, g1]
      exact hin
    · rename_i p s1 hF
      cases hret
      obtain ⟨hkeep, hdev, _, hp⟩ := FindOrLoad_ret_cache rm gl fuel _ _ _ s1 hF
      intro i q hq
      have hq2 : Function.update s1.self.m_rTrackedDeviceToRenderModel
          ⟨unTrackedDeviceIndex, Nat.lt_of_not_le hidx⟩ (some p) i = some q := hq
      show ∃ j, s1.self.m_vecRenderModels j = some q
      by_cases hi : i = ⟨unTrackedDeviceIndex, Nat.lt_of_not_le hidx⟩
      · rw [hi] at hq2
        simp only [Function.update_same, Option.some.injEq] at hq2
        rw [← hq2]
        exact hp p rfl
      · rw [Function.update_noteq hi, hdev, g1] at hq2
        obtain ⟨j, hj⟩ := hin i q hq2
        exact ⟨j, hkeep j q (by rw [g1]; exact hj)⟩
    · cases hret
    · cases hret
    · cases hret

theorem slotsInCache_loop (pHmd : VR_IVRSystem W) (rm : VR_IVRRenderModels W)
    (gl : GLDriver W) (fuel : Nat) (n unTrackedDevice : Nat) (s s4 : Machine W)
    (hin : SlotsInCache s.self)
    (hret : SetupRenderModels_loop pHmd rm gl fuel n unTrackedDevice s = .ret () s4) :
    SlotsInCache s4.self := by
  induction n generalizing unTrackedDevice s with
  | zero =>
    simp only [SetupRenderModels_loop] at hret
    cases hret
    exact hin
  | succ n ih =>
    unfold SetupRenderModels_loop at hret
    split at hret
    · simp only at hret
      split at hret
      · refine ih _ _ ?_ hret
        exact hin
      · split at hret
        · rename_i s2 hA
          refine ih _ _ (slotsInCache_assign pHmd rm gl fuel _ _ s2 ?_ hA) hret
          exact hin
        · cases hret
        · cases hret
        · cases hret
    · cases hret
      exact hin

theorem slotsInCache_SetupRenderModels (m_pHMD : Option (VR_IVRSystem W))
    (rm : VR_IVRRenderModels W) (gl : GLDriver W) (fuel : Nat) (s s4 : Machine W)
    (hret : CMainApplication_SetupRenderModels m_pHMD rm gl fuel s = .ret () s4) :
    SlotsInCache s4.self := by
  have h0 : SlotsInCache ({ s with self := { s.self with
      m_rTrackedDeviceToRenderModel := fun _ => none } } : Machine W).self := by
    intro i p hp
    cases hp
  unfold CMainApplication_SetupRenderModels at hret
  cases m_pHMD with
  | none =>
    simp only at hret
    cases hret
    exact h0
  | some pHmd =>
    simp only at hret
    exact slotsInCache_loop pHmd rm gl fuel _ _ _ s4 h0 hret

theorem slotsInCache_ProcessVREvent (pHmd : VR_IVRSystem W) (rm : VR_IVRRenderModels W)
    (gl : GLDriver W) (fuel : Nat) (s : Machine W) (event : VREvent_t) (s4 : Machine W)
    (hin : SlotsInCache s.self)
    (hret : CMainApplication_ProcessVREvent pHmd rm gl fuel s event = .ret () s4) :
    SlotsInCache s4.self := by
  unfold CMainApplication_ProcessVREvent at hret
  split at hret
  · split at hret
    · rename_i s1 hA
      cases hret
      exact slotsInCache_assign pHmd rm gl fuel s _ s1 hin hA
    · cases hret
    · cases hret
    · cases hret
  · cases hret
    exact hin
  · cases hret
    exact hin
  · cases hret
    exact hin

theorem slotsInCache_runSteps (pHmd : VR_IVRSystem W) (rm : VR_IVRRenderModels W)
    (gl : GLDriver W) (fuel : Nat) (steps : List Step) (s s4 : Machine W)
    (hin : SlotsInCache s.self) (hret : runSteps pHmd rm gl fuel steps s = .ret () s4) :
    SlotsInCache s4.self := by
  induction steps generalizing s with
  | nil =>
    simp only [runSteps] at hret
    cases hret
    exact hin
  | cons step rest ih =>
    cases step with
    | assign idx =>
      unfold runSteps at hret
      split at hret
      · rename_i s1 hA
        exact ih s1 (slotsInCache_assign pHmd rm gl fuel s idx s1 hin hA) hret
      · cases hret
      · cases hret
      · cases hret
    | vrEvent event =>
      unfold runSteps at hret
      split at hret
      · rename_i s1 hA
        exact ih s1 (slotsInCache_ProcessVREvent pHmd rm gl fuel s event s1 hin hA) hret
      · cases hret
      · cases hret
      · cases hret

/-- Claim C7 (slot-population invariant): after `CMainApplication_SetupRenderModels` has cleared the
device slot table and set up the connected devices, and after any further sequence of
assignments (`CMainApplication_SetupRenderModelForTrackedDevice`) and VR events, every
non-empty device slot refers to a model that is present in the cache. -/
theorem C7_slots_in_cache (m_pHMD : Option (VR_IVRSystem W)) (pHmd : VR_IVRSystem W)
    (rm : VR_IVRRenderModels W) (gl : GLDriver W) (fuel : Nat) (steps : List Step)
    (s0 s1 s2 : Machine W)
    (hsetup : CMainApplication_SetupRenderModels m_pHMD rm gl fuel s0 = .ret () s1)
    (hrun : runSteps pHmd rm gl fuel steps s1 = .ret () s2) :
    ∀ i p, s2.self.m_rTrackedDeviceToRenderModel i = some p →
      ∃ j, s2.self.m_vecRenderModels j = some p :=
  slotsInCache_runSteps pHmd rm gl fuel steps s1 s2
    (slotsInCache_SetupRenderModels m_pHMD rm gl fuel s0 s1 hsetup) hrun

/-- Claim C7 at a sample system: start-up, then an HMD activation, two assignments and a deactivation. -/
theorem C7_witness :
    ∃ s1 s2,
      CMainApplication_SetupRenderModels (some sampleSystem) scriptedRuntime sampleGL 2
        (freshMachine [.VRRenderModelError_Loading] []) = .ret () s1 ∧
      runSteps sampleSystem scriptedRuntime sampleGL 2
        [.vrEvent ⟨.VREvent_TrackedDeviceActivated, 0⟩, .assign 2, .assign 40,
         .vrEvent ⟨.VREvent_TrackedDeviceDeactivated, 1⟩] s1 = .ret () s2 ∧
      s2.self.m_rTrackedDeviceToRenderModel 0 = some 1 ∧
      s2.self.m_rTrackedDeviceToRenderModel 2 = some 0 ∧
      s2.self.m_rTrackedDeviceToRenderModel 5 = none ∧
      ∀ i p, s2.self.m_rTrackedDeviceToRenderModel i = some p →
        ∃ j, s2.self.m_vecRenderModels j = some p :=
  ⟨_, _, rfl, rfl, by decide, by decide, by decide,
   C7_slots_in_cache (some sampleSystem) sampleSystem scriptedRuntime sampleGL 2
     [.vrEvent ⟨.VREvent_TrackedDeviceActivated, 0⟩, .assign 2, .assign 40,
      .vrEvent ⟨.VREvent_TrackedDeviceDeactivated, 1⟩]
     (freshMachine [.VRRenderModelError_Loading] []) _ _ rfl rfl⟩

/-! ## Later calls -/

/-- A successful lookup stays successful when every populated slot keeps its model and the
model keeps its name. -/
theorem scan_mono (self self2 : CMainApplication) (heap heap2 : Ptr → CGLRenderModel)
    (name : CString)
    (hkeep : ∀ k q, self.m_vecRenderModels k = some q →
      self2.m_vecRenderModels k = some q ∧ (heap2 q).m_sModelName = (heap q).m_sModelName)
    (n i : Nat) (p : Ptr) (h : FindOrLoadRenderModel_scan self heap name n i = some p) :
    FindOrLoadRenderModel_scan self2 heap2 name n i = some p := by
  induction n generalizing i with
  | zero => simp [FindOrLoadRenderModel_scan] at h
  | succ n ih =>
    unfold FindOrLoadRenderModel_scan at h ⊢
    split at h
    · rename_i hi
      rw [dif_pos hi]
      split at h
      · cases h
      · rename_i model hm
        obtain ⟨hm2, hn2⟩ := hkeep _ _ hm
        rw [hm2]
        simp only [hn2]
        split at h
        · rename_i hs
          simp only [hs, if_true]
          exact h
        · rename_i hs
          simp only [hs, if_false]
          exact ih _ h
    · cases h

/-- A returning call keeps every cached model in its slot, with its contents, and keeps all
cached models allocated. -/
theorem FindOrLoad_ret_keeps (rm : VR_IVRRenderModels W) (gl : GLDriver W) (fuel : Nat)
    (s : Machine W) (name : CString) (r : Option Ptr) (s4 : Machine W) (halloc : Allocated s)
    (hret : CMainApplication_FindOrLoadRenderModel rm gl fuel s name = .ret r s4) :
    Allocated s4 ∧ ∀ k q, s.self.m_vecRenderModels k = some q →
      s4.self.m_vecRenderModels k = some q ∧ s4.heap q = s.heap q := by
  cases r with
  | none =>
    obtain ⟨h1, h2, h3⟩ := FindOrLoad_ret_none_elim rm gl fuel s name s4 hret
    unfold Allocated
    rw [h1, h2, h3]
    exact ⟨halloc, fun _ _ h => ⟨h, rfl⟩⟩
  | some p =>
    rcases FindOrLoad_ret_some_elim rm gl fuel s name p s4 hret with
      ⟨_, hs⟩ | ⟨_, _, j, m, sa, tx, sb, hj, _, _, hself, hbrk, _, hheap, _⟩
    · rw [hs]
      exact ⟨halloc, fun _ _ h => ⟨h, rfl⟩⟩
    · have hvec : ∀ i, s4.self.m_vecRenderModels i =
          if i = j then some s.brk else s.self.m_vecRenderModels i := by
        intro i
        rw [hself]
        by_cases h : i = j <;> simp [Function.update, h]
      constructor
      · intro i q hq
        have hq2 : s4.self.m_vecRenderModels i = some q := hq
        rw [hbrk]
        rw [hvec] at hq2
        by_cases hi : i = j
        · rw [if_pos hi] at hq2
          cases hq2
          exact Nat.lt_succ_self _
        · rw [if_neg hi] at hq2
          exact Nat.lt_succ_of_lt (halloc i q hq2)
      · intro k q hq
        have hkj : k ≠ j := fun h => by rw [h, hj.1] at hq; cases hq
        exact ⟨by rw [hvec, if_neg hkj]; exact hq, hheap q (ne_of_lt (halloc k q hq))⟩

/-- A returning sequence of calls keeps every cached model in its slot, with its contents. -/
theorem calls_keeps (rm : VR_IVRRenderModels W) (gl : GLDriver W) (fuel : Nat)
    (names : List CString) (s : Machine W) (rs : List (Option Ptr)) (s4 : Machine W)
    (halloc : Allocated s)
    (hret : FindOrLoadRenderModel_calls rm gl fuel names s = .ret rs s4) :
    ∀ k q, s.self.m_vecRenderModels k = some q →
      s4.self.m_vecRenderModels k = some q ∧ s4.heap q = s.heap q := by
  induction names generalizing s rs with
  | nil =>
    simp only [FindOrLoadRenderModel_calls] at hret
    cases hret
    exact fun _ _ h => ⟨h, rfl⟩
  | cons name rest ih =>
    obtain ⟨r, s1, rs2, h1, h2, _⟩ := calls_cons_ret_elim rm gl fuel name rest s rs s4 hret
    obtain ⟨ha, hk⟩ := FindOrLoad_ret_keeps rm gl fuel s name r s1 halloc h1
    intro k q hq
    obtain ⟨hq1, hh1⟩ := hk k q hq
    obtain ⟨hq2, hh2⟩ := ih s1 rs2 ha h2 k q hq1
    exact ⟨hq2, hh2.trans hh1⟩

/-- Cache identity across later calls: once the call for `A` has returned a model, a call for
a matching name `B` returns that model also after any returning sequence of other calls,
provided the cached models were allocated. -/
theorem FindOrLoad_identity_later (rm : VR_IVRRenderModels W) (gl : GLDriver W)
    (fuelA fuel fuelB : Nat) (s : Machine W) (A B : CString) (p : Ptr) (s1 : Machine W)
    (names : List CString) (rs : List (Option Ptr)) (s2 : Machine W) (hAB : sameName A B)
    (hA : CMainApplication_FindOrLoadRenderModel rm gl fuelA s A = .ret (some p) s1)
    (halloc : Allocated s1)
    (hcalls : FindOrLoadRenderModel_calls rm gl fuel names s1 = .ret rs s2) :
    CMainApplication_FindOrLoadRenderModel rm gl fuelB s2 B = .ret (some p) s2 := by
  apply FindOrLoad_of_scan_some
  have h1 : FindOrLoadRenderModel_scan s1.self s1.heap B k_unMaxTrackedDeviceCount 0 =
      some p := by
    rcases FindOrLoad_ret_some_elim rm gl fuelA s A p s1 hA with
      ⟨hscan, hs⟩ | ⟨hscan, hp, j, m, sa, tx, sb, hj, _, _, hself, _, hname, hheap, _⟩
    · subst hs
      rw [← scan_congr s1.self s1.heap hAB]
      exact hscan
    · subst hp
      exact scan_after_insert s s1 A B j hAB hscan hj hself hname hheap
  refine scan_mono s1.self s2.self s1.heap s2.heap B (fun k q hq => ?_) _ 0 p h1
  obtain ⟨hq2, hh⟩ := calls_keeps rm gl fuel names s1 rs s2 halloc hcalls k q hq
  exact ⟨hq2, by rw [hh]⟩

/-- Claim C6 at a full sample cache: the call for a seventeenth name exits. -/
theorem C6_witness :
    ∃ code s4, CMainApplication_FindOrLoadRenderModel scriptedRuntime sampleGL 1
      (filledMachine 16 [] []) (cstr "vr_controller") = .exit code s4 :=
  (C6_exit_iff_full scriptedRuntime sampleGL 1 (filledMachine 16 [] [])
    (cstr "vr_controller")).1.2
    ⟨by decide, ⟨_, _, _, _, rfl, rfl⟩, by decide⟩

/-! ## The cache invariant in the running program -/

/-- The invariant speaks of the cache table, the heap and the allocation mark only. -/
theorem cacheInv_congr (s s4 : Machine W)
    (hvec : s4.self.m_vecRenderModels = s.self.m_vecRenderModels) (hheap : s4.heap = s.heap)
    (hbrk : s4.brk = s.brk) (hinv : CacheInv s) : CacheInv s4 := by
  unfold CacheInv Packed UniqueNames Allocated at hinv ⊢
  rw [hvec, hheap, hbrk]
  exact hinv

theorem cacheInv_assign (pHmd : VR_IVRSystem W) (rm : VR_IVRRenderModels W)
    (gl : GLDriver W) (fuel : Nat) (s : Machine W) (unTrackedDeviceIndex : Nat)
    (s4 : Machine W) (hinv : CacheInv s)
    (hret : CMainApplication_SetupRenderModelForTrackedDevice pHmd rm gl fuel s
      unTrackedDeviceIndex = .ret () s4) : CacheInv s4 := by
  unfold CMainApplication_SetupRenderModelForTrackedDevice at hret
  split at hret
  · cases hret
    exact hinv
  · simp only at hret
    obtain ⟨g1, g2, g3⟩ := GetTrackedDeviceString_frame pHmd s unTrackedDeviceIndex
      .Prop_RenderModelName_String
    have hinv1 := cacheInv_congr s _ (by rw [g1]) g2 g3 hinv
    split at hret
    · rename_i s1 hF
      split at hret
      · cases hret
      cases hret
      have hinv2 := cacheInv_FindOrLoad rm gl fuel _ _ _ s1 hinv1 hF
      obtain ⟨k1, k2, k3⟩ := GetTrackedDeviceString_frame pHmd
        (s1.emit (.freeString (GetTrackedDeviceString pHmd s unTrackedDeviceIndex
          .Prop_RenderModelName_String).1)) unTrackedDeviceIndex
        .Prop_TrackingSystemName_String
      exact cacheInv_congr s1 _ (by simp only [dprintf, Machine.emit] at k1 ⊢; rw [k1])
        (by simp only [dprintf, Machine.emit] at k2 ⊢; rw [k2])
        (by simp only [dprintf, Machine.emit] at k3 ⊢; rw [k3]) hinv2
    · rename_i p s1 hF
      cases hret
      exact cacheInv_congr s1 _ rfl rfl rfl
        (cacheInv_FindOrLoad rm gl fuel _ _ _ s1 hinv1 hF)
    · cases hret
    · cases hret
    · cases hret

theorem cacheInv_loop (pHmd : VR_IVRSystem W) (rm : VR_IVRRenderModels W)
    (gl : GLDriver W) (fuel : Nat) (n unTrackedDevice : Nat) (s s4 : Machine W)
    (hinv : CacheInv s)
    (hret : SetupRenderModels_loop pHmd rm gl fuel n unTrackedDevice s = .ret () s4) :
    CacheInv s4 := by
  induction n generalizing unTrackedDevice s with
  | zero =>
    simp only [SetupRenderModels_loop] at hret
    cases hret
    exact hinv
  | succ n ih =>
    unfold SetupRenderModels_loop at hret
    split at hret
    · simp only at hret
      split at hret
      · refine ih _ _ ?_ hret
        exact cacheInv_congr s _ rfl rfl rfl hinv
      · split at hret
        · rename_i s2 hA
          refine ih _ _ (cacheInv_assign pHmd rm gl fuel _ _ s2 ?_ hA) hret
          exact cacheInv_congr s _ rfl rfl rfl hinv
        · cases hret
        · cases hret
        · cases hret
    · cases hret
      exact hinv

/-- `CMainApplication_SetupRenderModels` keeps the cache invariant. -/
theorem cacheInv_SetupRenderModels (m_pHMD : Option (VR_IVRSystem W))
    (rm : VR_IVRRenderModels W) (gl : GLDriver W) (fuel : Nat) (s s4 : Machine W)
    (hinv : CacheInv s)
    (hret : CMainApplication_SetupRenderModels m_pHMD rm gl fuel s = .ret () s4) :
    CacheInv s4 := by
  unfold CMainApplication_SetupRenderModels at hret
  cases m_pHMD with
  | none =>
    simp only at hret
    cases hret
    exact cacheInv_congr s _ rfl rfl rfl hinv
  | some pHmd =>
    simp only at hret
    refine cacheInv_loop pHmd rm gl fuel _ _ _ s4 ?_ hret
    exact cacheInv_congr s _ rfl rfl rfl hinv

theorem cacheInv_ProcessVREvent (pHmd : VR_IVRSystem W) (rm : VR_IVRRenderModels W)
    (gl : GLDriver W) (fuel : Nat) (s : Machine W) (event : VREvent_t) (s4 : Machine W)
    (hinv : CacheInv s)
    (hret : CMainApplication_ProcessVREvent pHmd rm gl fuel s event = .ret () s4) :
    CacheInv s4 := by
  unfold CMainApplication_ProcessVREvent at hret
  split at hret
  · split at hret
    · rename_i s1 hA
      cases hret
      exact cacheInv_congr s1 _ rfl rfl rfl (cacheInv_assign pHmd rm gl fuel s _ s1 hinv hA)
    · cases hret
    · cases hret
    · cases hret
  · cases hret
    exact cacheInv_congr s _ rfl rfl rfl hinv
  · cases hret
    exact cacheInv_congr s _ rfl rfl rfl hinv
  · cases hret
    exact hinv

/-- Every returning sequence of assignments and VR events keeps the cache invariant: the
invariant holds in every state the running program reaches from the empty cache. -/
theorem cacheInv_runSteps (pHmd : VR_IVRSystem W) (rm : VR_IVRRenderModels W)
    (gl : GLDriver W) (fuel : Nat) (steps : List Step) (s s4 : Machine W)
    (hinv : CacheInv s) (hret : runSteps pHmd rm gl fuel steps s = .ret () s4) :
    CacheInv s4 := by
  induction steps generalizing s with
  | nil =>
    simp only [runSteps] at hret
    cases hret
    exact hinv
  | cons step rest ih =>
    cases step with
    | assign idx =>
      unfold runSteps at hret
      split at hret
      · rename_i s1 hA
        exact ih s1 (cacheInv_assign pHmd rm gl fuel s idx s1 hinv hA) hret
      · cases hret
      · cases hret
      · cases hret
    | vrEvent event =>
      unfold runSteps at hret
      split at hret
      · rename_i s1 hA
        exact ih s1 (cacheInv_ProcessVREvent pHmd rm gl fuel s event s1 hinv hA) hret
      · cases hret
      · cases hret
      · cases hret

/-! ## Claims about `CMainApplication_SetupRenderModelForTrackedDevice` -/

/-- The assignment after a successful lookup or load: the slot and the flag of the device are
set. -/
theorem assign_of_ret_some (pHmd : VR_IVRSystem W) (rm : VR_IVRRenderModels W)
    (gl : GLDriver W) (fuel : Nat) (s : Machine W) (unTrackedDeviceIndex : Nat) (p : Ptr)
    (s1 : Machine W) (hidx : unTrackedDeviceIndex < k_unMaxTrackedDeviceCount)
    (hF : CMainApplication_FindOrLoadRenderModel rm gl fuel
      (GetTrackedDeviceString pHmd s unTrackedDeviceIndex .Prop_RenderModelName_String).2
      (GetTrackedDeviceString pHmd s unTrackedDeviceIndex .Prop_RenderModelName_String).1 =
        .ret (some p) s1) :
    CMainApplication_SetupRenderModelForTrackedDevice pHmd rm gl fuel s unTrackedDeviceIndex =
      .ret () { s1 with self := { s1.self with
        m_rTrackedDeviceToRenderModel :=
          Function.update s1.self.m_rTrackedDeviceToRenderModel ⟨unTrackedDeviceIndex, hidx⟩
            (some p)
        m_rbShowTrackedDevice :=
          Function.update s1.self.m_rbShowTrackedDevice ⟨unTrackedDeviceIndex, hidx⟩ true } } := by
  have hnot : ¬ unTrackedDeviceIndex ≥ k_unMaxTrackedDeviceCount := Nat.not_le.2 hidx
  simp only [CMainApplication_SetupRenderModelForTrackedDevice, dif_neg hnot, hF]

/-- The assignment after a failed load: freeing the string literal `""` is undefined; a name
that was allocated is freed, the tracking-system name is asked and a message is printed. -/
theorem assign_of_ret_none (pHmd : VR_IVRSystem W) (rm : VR_IVRRenderModels W)
    (gl : GLDriver W) (fuel : Nat) (s : Machine W) (unTrackedDeviceIndex : Nat)
    (s1 : Machine W) (hidx : unTrackedDeviceIndex < k_unMaxTrackedDeviceCount)
    (hF : CMainApplication_FindOrLoadRenderModel rm gl fuel
      (GetTrackedDeviceString pHmd s unTrackedDeviceIndex .Prop_RenderModelName_String).2
      (GetTrackedDeviceString pHmd s unTrackedDeviceIndex .Prop_RenderModelName_String).1 =
        .ret none s1) :
    CMainApplication_SetupRenderModelForTrackedDevice pHmd rm gl fuel s unTrackedDeviceIndex =
      if GetTrackedDeviceString_literal pHmd s unTrackedDeviceIndex
          .Prop_RenderModelName_String = true then .undefined
      else
        .ret () (dprintf
          (GetTrackedDeviceString pHmd
            (s1.emit (.freeString (GetTrackedDeviceString pHmd s unTrackedDeviceIndex
              .Prop_RenderModelName_String).1))
            unTrackedDeviceIndex .Prop_TrackingSystemName_String).2
          "Unable to load render model for tracked device %d (%s.%s)") := by
  have hnot : ¬ unTrackedDeviceIndex ≥ k_unMaxTrackedDeviceCount := Nat.not_le.2 hidx
  simp only [CMainApplication_SetupRenderModelForTrackedDevice, dif_neg hnot, hF]

/-- Claim C12 (assignment success): for every device index below 16, if
`CMainApplication_FindOrLoadRenderModel` returns a model for the device's render-model name,
then the assignment returns, the device slot at that index refers to exactly that model, the
device's `m_rbShowTrackedDevice` flag is true, and every other device slot and flag is as it
was before. -/
theorem C12_assign_success (pHmd : VR_IVRSystem W) (rm : VR_IVRRenderModels W)
    (gl : GLDriver W) (fuel : Nat) (s : Machine W) (unTrackedDeviceIndex : Nat) (p : Ptr)
    (s1 : Machine W) (hidx : unTrackedDeviceIndex < k_unMaxTrackedDeviceCount)
    (hF : CMainApplication_FindOrLoadRenderModel rm gl fuel
      (GetTrackedDeviceString pHmd s unTrackedDeviceIndex .Prop_RenderModelName_String).2
      (GetTrackedDeviceString pHmd s unTrackedDeviceIndex .Prop_RenderModelName_String).1 =
        .ret (some p) s1) :
    ∃ s4, CMainApplication_SetupRenderModelForTrackedDevice pHmd rm gl fuel s
        unTrackedDeviceIndex = .ret () s4 ∧
      s4.self.m_rTrackedDeviceToRenderModel ⟨unTrackedDeviceIndex, hidx⟩ = some p ∧
      s4.self.m_rbShowTrackedDevice ⟨unTrackedDeviceIndex, hidx⟩ = true ∧
      ∀ i, i ≠ ⟨unTrackedDeviceIndex, hidx⟩ →
        s4.self.m_rTrackedDeviceToRenderModel i = s.self.m_rTrackedDeviceToRenderModel i ∧
        s4.self.m_rbShowTrackedDevice i = s.self.m_rbShowTrackedDevice i := by
  obtain ⟨g1, _, _⟩ := GetTrackedDeviceString_frame pHmd s unTrackedDeviceIndex
    .Prop_RenderModelName_String
  obtain ⟨_, hdev, hshow, _⟩ := FindOrLoad_ret_cache rm gl fuel _ _ _ s1 hF
  refine ⟨_, assign_of_ret_some pHmd rm gl fuel s unTrackedDeviceIndex p s1 hidx hF,
    ?_, ?_, ?_⟩
  · simp
  · simp
  · intro i hi
    simp only [Function.update_noteq hi, hdev, hshow, g1, and_self]

/-- Claim C12 at a sample system: device 1 gets the model loaded for `vr_controller`. -/
theorem C12_witness :
    (1 : Nat) < k_unMaxTrackedDeviceCount ∧
    ∃ s1,
      CMainApplication_FindOrLoadRenderModel scriptedRuntime sampleGL 1
        (GetTrackedDeviceString sampleSystem (freshMachine [] []) 1
          .Prop_RenderModelName_String).2
        (GetTrackedDeviceString sampleSystem (freshMachine [] []) 1
          .Prop_RenderModelName_String).1 = .ret (some 0) s1 ∧
      ∃ s4, CMainApplication_SetupRenderModelForTrackedDevice sampleSystem scriptedRuntime
          sampleGL 1 (freshMachine [] []) 1 = .ret () s4 ∧
        s4.self.m_rTrackedDeviceToRenderModel ⟨1, by decide⟩ = some 0 ∧
        s4.self.m_rbShowTrackedDevice ⟨1, by decide⟩ = true ∧
        ∀ i, i ≠ ⟨1, by decide⟩ →
          s4.self.m_rTrackedDeviceToRenderModel i =
            (freshMachine [] []).self.m_rTrackedDeviceToRenderModel i ∧
          s4.self.m_rbShowTrackedDevice i =
            (freshMachine [] []).self.m_rbShowTrackedDevice i :=
  ⟨by decide, _, rfl,
   C12_assign_success sampleSystem scriptedRuntime sampleGL 1 (freshMachine [] []) 1 0 _
     (by decide) rfl⟩

/-- Claim C14 (out-of-range device index): for every device index of 16 or more the assignment
returns at once with the machine as it was: the trace gains no event, so no property is queried
and no loader is called, and the cache, the device slot table and the visibility flags are
unchanged. -/
theorem C14_assign_out_of_range (pHmd : VR_IVRSystem W) (rm : VR_IVRRenderModels W)
    (gl : GLDriver W) (fuel : Nat) (s : Machine W) (unTrackedDeviceIndex : Nat)
    (hidx : k_unMaxTrackedDeviceCount ≤ unTrackedDeviceIndex) :
    CMainApplication_SetupRenderModelForTrackedDevice pHmd rm gl fuel s unTrackedDeviceIndex =
      .ret () s := by
  have hge : unTrackedDeviceIndex ≥ k_unMaxTrackedDeviceCount := hidx
  simp only [CMainApplication_SetupRenderModelForTrackedDevice, dif_pos hge]

/-- Claim C14 at device index 16 and a runtime that would fail every load. -/
theorem C14_witness :
    k_unMaxTrackedDeviceCount ≤ 16 ∧
    CMainApplication_SetupRenderModelForTrackedDevice sampleSystem scriptedRuntime sampleGL 0
      (freshMachine [.VRRenderModelError_Failed 300] []) 16 =
        .ret () (freshMachine [.VRRenderModelError_Failed 300] []) :=
  ⟨by decide,
   C14_assign_out_of_range sampleSystem scriptedRuntime sampleGL 0
     (freshMachine [.VRRenderModelError_Failed 300] []) 16 (by decide)⟩

/-! ## The retry discipline of the polling loops -/

theorem loadModelCalls_retryTrace_model (name : CString) (n : Nat) (e : EVRRenderModelError) :
    loadModelCalls (retryTrace (.LoadRenderModel_Async name) n e) = n + 1 := by
  induction n with
  | zero => simp [retryTrace, loadModelCalls, Event.isLoadRenderModel]
  | succ n ih =>
    simp only [loadModelCalls] at ih ⊢
    simp [retryTrace, List.countP_cons, Event.isLoadRenderModel, ih]

theorem loadTextureCalls_retryTrace_model (name : CString) (n : Nat) (e : EVRRenderModelError) :
    loadTextureCalls (retryTrace (.LoadRenderModel_Async name) n e) = 0 := by
  induction n with
  | zero => simp [retryTrace, loadTextureCalls, Event.isLoadTexture]
  | succ n ih =>
    simp only [loadTextureCalls] at ih ⊢
    simp [retryTrace, List.countP_cons, Event.isLoadTexture, ih]

theorem loadModelCalls_retryTrace_texture (textureId : Int) (n : Nat)
    (e : EVRRenderModelError) :
    loadModelCalls (retryTrace (.LoadTexture_Async textureId) n e) = 0 := by
  induction n with
  | zero => simp [retryTrace, loadModelCalls, Event.isLoadRenderModel]
  | succ n ih =>
    simp only [loadModelCalls] at ih ⊢
    simp [retryTrace, List.countP_cons, Event.isLoadRenderModel, ih]

theorem loadTextureCalls_retryTrace_texture (textureId : Int) (n : Nat)
    (e : EVRRenderModelError) :
    loadTextureCalls (retryTrace (.LoadTexture_Async textureId) n e) = n + 1 := by
  induction n with
  | zero => simp [retryTrace, loadTextureCalls, Event.isLoadTexture]
  | succ n ih =>
    simp only [loadTextureCalls] at ih ⊢
    simp [retryTrace, List.countP_cons, Event.isLoadTexture, ih]

theorem sleepCalls_retryTrace_model (name : CString) (n : Nat) (e : EVRRenderModelError) :
    sleepCalls (retryTrace (.LoadRenderModel_Async name) n e) = n := by
  induction n with
  | zero => simp [retryTrace, sleepCalls, Event.isThreadSleep]
  | succ n ih =>
    simp only [sleepCalls] at ih ⊢
    simp [retryTrace, List.countP_cons, Event.isThreadSleep, ih]

theorem sleepCalls_retryTrace_texture (textureId : Int) (n : Nat) (e : EVRRenderModelError) :
    sleepCalls (retryTrace (.LoadTexture_Async textureId) n e) = n := by
  induction n with
  | zero => simp [retryTrace, sleepCalls, Event.isThreadSleep]
  | succ n ih =>
    simp only [sleepCalls] at ih ⊢
    simp [retryTrace, List.countP_cons, Event.isThreadSleep, ih]

@[simp] theorem sleepCalls_append (a b : List Event) :
    sleepCalls (a ++ b) = sleepCalls a + sleepCalls b := by
  simp [sleepCalls]

/-- The model polling loop, answered `Loading` on the first `n` polls and something else on
poll `n + 1`, returns that answer whenever the budget exceeds `n`; its events are `n` times a
poll and a sleep of 1 ms, then the last poll. -/
theorem LoadRenderModel_poll_retry (rm : VR_IVRRenderModels W) (name : CString) (n : Nat)
    (fuel : Nat) (s : Machine W)
    (hloading : ∀ i, i < n →
      (modelAnswer rm name i s.world).1 = .VRRenderModelError_Loading)
    (hdone : (modelAnswer rm name n s.world).1 ≠ .VRRenderModelError_Loading)
    (hfuel : n < fuel) :
    LoadRenderModel_poll rm name fuel s =
      some ((modelAnswer rm name n s.world).1, (modelAnswer rm name n s.world).2,
        { s with
          world := modelWorldAfter rm name (n + 1) s.world
          trace := s.trace ++
            retryTrace (.LoadRenderModel_Async name) n (modelAnswer rm name n s.world).1 }) := by
  induction n generalizing fuel s with
  | zero =>
    obtain ⟨fuel, rfl⟩ : ∃ f, fuel = f + 1 := ⟨fuel - 1, by omega⟩
    simp only [modelAnswer, modelWorldAfter] at hdone
    simp [LoadRenderModel_poll, hdone, modelAnswer, modelWorldAfter, retryTrace]
  | succ n ih =>
    obtain ⟨fuel, rfl⟩ : ∃ f, fuel = f + 1 := ⟨fuel - 1, by omega⟩
    have h0 := hloading 0 (Nat.succ_pos n)
    simp only [modelAnswer, modelWorldAfter] at h0
    unfold LoadRenderModel_poll
    simp only [h0, ne_eq, not_true_eq_false, if_false]
    rw [ih fuel (ThreadSleep 1 _) (fun i hi => by
      have := hloading (i + 1) (Nat.succ_lt_succ hi)
      simpa [modelAnswer, modelWorldAfter, ThreadSleep, Machine.emit] using this)
      (by simpa [modelAnswer, modelWorldAfter, ThreadSleep, Machine.emit] using hdone)
      (by omega)]
    simp [ThreadSleep, Machine.emit, modelAnswer, modelWorldAfter, retryTrace]

/-- The texture polling loop follows the same discipline. -/
theorem LoadTexture_poll_retry (rm : VR_IVRRenderModels W) (textureId : Int) (n : Nat)
    (fuel : Nat) (s : Machine W)
    (hloading : ∀ i, i < n →
      (textureAnswer rm textureId i s.world).1 = .VRRenderModelError_Loading)
    (hdone : (textureAnswer rm textureId n s.world).1 ≠ .VRRenderModelError_Loading)
    (hfuel : n < fuel) :
    LoadTexture_poll rm textureId fuel s =
      some ((textureAnswer rm textureId n s.world).1, (textureAnswer rm textureId n s.world).2,
        { s with
          world := textureWorldAfter rm textureId (n + 1) s.world
          trace := s.trace ++
            retryTrace (.LoadTexture_Async textureId) n
              (textureAnswer rm textureId n s.world).1 }) := by
  induction n generalizing fuel s with
  | zero =>
    obtain ⟨fuel, rfl⟩ : ∃ f, fuel = f + 1 := ⟨fuel - 1, by omega⟩
    simp only [textureAnswer, textureWorldAfter] at hdone
    simp [LoadTexture_poll, hdone, textureAnswer, textureWorldAfter, retryTrace]
  | succ n ih =>
    obtain ⟨fuel, rfl⟩ : ∃ f, fuel = f + 1 := ⟨fuel - 1, by omega⟩
    have h0 := hloading 0 (Nat.succ_pos n)
    simp only [textureAnswer, textureWorldAfter] at h0
    unfold LoadTexture_poll
    simp only [h0, ne_eq, not_true_eq_false, if_false]
    rw [ih fuel (ThreadSleep 1 _) (fun i hi => by
      have := hloading (i + 1) (Nat.succ_lt_succ hi)
      simpa [textureAnswer, textureWorldAfter, ThreadSleep, Machine.emit] using this)
      (by simpa [textureAnswer, textureWorldAfter, ThreadSleep, Machine.emit] using hdone)
      (by omega)]
    simp [ThreadSleep, Machine.emit, textureAnswer, textureWorldAfter, retryTrace]

/-- Both loads succeeded and the cache is full: the trace of the exiting call. -/
theorem FindOrLoad_of_full_trace (rm : VR_IVRRenderModels W) (gl : GLDriver W)
    (fuel : Nat) (s : Machine W) (name : CString) (m : RenderModel_t) (s1 : Machine W)
    (tx : RenderModel_TextureMap_t) (s2 : Machine W)
    (h : FindOrLoadRenderModel_scan s.self s.heap name k_unMaxTrackedDeviceCount 0 = none)
    (hM : LoadRenderModel_poll rm name fuel s = some (.VRRenderModelError_None, m, s1))
    (hT : LoadTexture_poll rm m.diffuseTextureId fuel s1 =
      some (.VRRenderModelError_None, tx, s2))
    (hfull : CacheFull s.self) :
    ∃ s4, CMainApplication_FindOrLoadRenderModel rm gl fuel s name = .exit 1 s4 ∧
      s4.trace = s2.trace ++ (.mallocModel s.brk :: CGLRenderModel_BInit_calls) ++
        [.dprintf "No place in array to fit render model %s", .exit 1] := by
  obtain ⟨e1, _, e3⟩ := poll_self_eq rm fuel s name m s1 _ _ tx s2 hM hT
  obtain ⟨b1, _, _, _, _, b6⟩ := built_heap gl s2 name m tx
  rw [FindOrLoad_of_loaded rm gl fuel s name m s1 tx s2 h hM hT]
  rw [← e3]
  generalize (CGLRenderModel_BInit gl (CGLRenderModel_init (malloc s2).2 s2.brk name)
    s2.brk m tx).2 = b at b1 b6 ⊢
  rw [insert_of_full s2.brk b (by rw [b1, e1]; exact hfull) _ 0 (by decide) (by decide)]
  refine ⟨_, rfl, ?_⟩
  simp only [dprintf, Machine.emit, b6, List.append_assoc]
  rfl

/-- Claim C11 (retry discipline): on a cache miss, let the model loader answer `Loading` on its
first `n` polls and something else on poll `n + 1`, and let the texture loader, polled after
that for the texture of the model, answer `Loading` on its first `k` polls and something else
on poll `k + 1`.  Then with any poll budget above `n` and `k`: the model polling loop ends with
the answer of poll `n + 1` after exactly `n` rounds of poll and 1 ms sleep and one last poll;
the texture polling loop does the same with `k`; and the call does not keep spinning: it
returns or exits, having called the model loader exactly `n + 1` times, and, when the model
load succeeded, the texture loader exactly `k + 1` times with `n + k` sleeps, otherwise the
texture loader not at all with `n` sleeps. -/
theorem C11_retry_discipline (rm : VR_IVRRenderModels W) (gl : GLDriver W) (s : Machine W)
    (name : CString) (n k fuel : Nat) (hmiss : CacheMiss s name)
    (hmodelLoading : ∀ i, i < n →
      (modelAnswer rm name i s.world).1 = .VRRenderModelError_Loading)
    (hmodelDone : (modelAnswer rm name n s.world).1 ≠ .VRRenderModelError_Loading)
    (htexLoading : ∀ i, i < k →
      (textureAnswer rm (modelAnswer rm name n s.world).2.diffuseTextureId i
        (modelWorldAfter rm name (n + 1) s.world)).1 = .VRRenderModelError_Loading)
    (htexDone : (textureAnswer rm (modelAnswer rm name n s.world).2.diffuseTextureId k
        (modelWorldAfter rm name (n + 1) s.world)).1 ≠ .VRRenderModelError_Loading)
    (hn : n < fuel) (hk : k < fuel) :
    LoadRenderModel_poll rm name fuel s =
        some ((modelAnswer rm name n s.world).1, (modelAnswer rm name n s.world).2,
          afterModelPolls rm name n s) ∧
      LoadTexture_poll rm (modelAnswer rm name n s.world).2.diffuseTextureId fuel
          (afterModelPolls rm name n s) =
        some ((textureAnswer rm (modelAnswer rm name n s.world).2.diffuseTextureId k
            (modelWorldAfter rm name (n + 1) s.world)).1,
          (textureAnswer rm (modelAnswer rm name n s.world).2.diffuseTextureId k
            (modelWorldAfter rm name (n + 1) s.world)).2,
          afterTexturePolls rm (modelAnswer rm name n s.world).2.diffuseTextureId k
            (afterModelPolls rm name n s)) ∧
      ∃ s4, (CMainApplication_FindOrLoadRenderModel rm gl fuel s name).machine? = some s4 ∧
        loadModelCalls s4.trace = loadModelCalls s.trace + (n + 1) ∧
        ((modelAnswer rm name n s.world).1 = .VRRenderModelError_None →
          loadTextureCalls s4.trace = loadTextureCalls s.trace + (k + 1) ∧
          sleepCalls s4.trace = sleepCalls s.trace + n + k) ∧
        ((modelAnswer rm name n s.world).1 ≠ .VRRenderModelError_None →
          loadTextureCalls s4.trace = loadTextureCalls s.trace ∧
          sleepCalls s4.trace = sleepCalls s.trace + n) := by
  have hM : LoadRenderModel_poll rm name fuel s =
      some ((modelAnswer rm name n s.world).1, (modelAnswer rm name n s.world).2,
        afterModelPolls rm name n s) :=
    LoadRenderModel_poll_retry rm name n fuel s hmodelLoading hmodelDone hn
  have hT : LoadTexture_poll rm (modelAnswer rm name n s.world).2.diffuseTextureId fuel
      (afterModelPolls rm name n s) =
      some ((textureAnswer rm (modelAnswer rm name n s.world).2.diffuseTextureId k
          (modelWorldAfter rm name (n + 1) s.world)).1,
        (textureAnswer rm (modelAnswer rm name n s.world).2.diffuseTextureId k
          (modelWorldAfter rm name (n + 1) s.world)).2,
        afterTexturePolls rm (modelAnswer rm name n s.world).2.diffuseTextureId k
          (afterModelPolls rm name n s)) :=
    LoadTexture_poll_retry rm (modelAnswer rm name n s.world).2.diffuseTextureId k fuel
      (afterModelPolls rm name n s) htexLoading htexDone hk
  refine ⟨hM, hT, ?_⟩
  have hcount : ∀ tail : List Event, loadModelCalls tail = 0 → loadTextureCalls tail = 0 →
      sleepCalls tail = 0 →
      loadModelCalls ((afterModelPolls rm name n s).trace ++ tail) =
        loadModelCalls s.trace + (n + 1) ∧
      loadTextureCalls ((afterModelPolls rm name n s).trace ++ tail) =
        loadTextureCalls s.trace ∧
      sleepCalls ((afterModelPolls rm name n s).trace ++ tail) = sleepCalls s.trace + n := by
    intro tail h1 h2 h3
    simp only [afterModelPolls, loadModelCalls_append, loadTextureCalls_append,
      sleepCalls_append, loadModelCalls_retryTrace_model, loadTextureCalls_retryTrace_model,
      sleepCalls_retryTrace_model, h1, h2, h3, Nat.add_zero, and_self]
  have hcount2 : ∀ tail : List Event, loadModelCalls tail = 0 → loadTextureCalls tail = 0 →
      sleepCalls tail = 0 →
      loadModelCalls ((afterTexturePolls rm (modelAnswer rm name n s.world).2.diffuseTextureId k
          (afterModelPolls rm name n s)).trace ++ tail) = loadModelCalls s.trace + (n + 1) ∧
      loadTextureCalls ((afterTexturePolls rm
          (modelAnswer rm name n s.world).2.diffuseTextureId k
          (afterModelPolls rm name n s)).trace ++ tail) =
        loadTextureCalls s.trace + (k + 1) ∧
      sleepCalls ((afterTexturePolls rm (modelAnswer rm name n s.world).2.diffuseTextureId k
          (afterModelPolls rm name n s)).trace ++ tail) = sleepCalls s.trace + n + k := by
    intro tail h1 h2 h3
    simp only [afterTexturePolls, afterModelPolls, loadModelCalls_append,
      loadTextureCalls_append, sleepCalls_append, loadModelCalls_retryTrace_model,
      loadTextureCalls_retryTrace_model, sleepCalls_retryTrace_model,
      loadModelCalls_retryTrace_texture, loadTextureCalls_retryTrace_texture,
      sleepCalls_retryTrace_texture, h1, h2, h3, Nat.add_zero, Nat.zero_add, and_self]
  by_cases ha : (modelAnswer rm name n s.world).1 = .VRRenderModelError_None
  · have hM2 : LoadRenderModel_poll rm name fuel s =
        some (.VRRenderModelError_None, (modelAnswer rm name n s.world).2,
          afterModelPolls rm name n s) := by
      rw [hM, ha]
    by_cases hb : (textureAnswer rm (modelAnswer rm name n s.world).2.diffuseTextureId k
        (modelWorldAfter rm name (n + 1) s.world)).1 = .VRRenderModelError_None
    · have hT2 : LoadTexture_poll rm (modelAnswer rm name n s.world).2.diffuseTextureId fuel
          (afterModelPolls rm name n s) =
          some (.VRRenderModelError_None,
            (textureAnswer rm (modelAnswer rm name n s.world).2.diffuseTextureId k
              (modelWorldAfter rm name (n + 1) s.world)).2,
            afterTexturePolls rm (modelAnswer rm name n s.world).2.diffuseTextureId k
              (afterModelPolls rm name n s)) := by
        rw [hT, hb]
      rcases cacheFull_or_firstFree s.self with hfull | ⟨j, hj⟩
      · obtain ⟨s4, h4, htr⟩ := FindOrLoad_of_full_trace rm gl fuel s name _ _ _ _ hmiss hM2 hT2
          hfull
        refine ⟨s4, by rw [h4]; rfl, ?_⟩
        rw [htr, List.append_assoc]
        obtain ⟨c1, c2, c3⟩ := hcount2
          ((.mallocModel s.brk :: CGLRenderModel_BInit_calls) ++
            [.dprintf "No place in array to fit render model %s", .exit 1])
          (by simp [loadModelCalls, CGLRenderModel_BInit_calls, Event.isLoadRenderModel])
          (by simp [loadTextureCalls, CGLRenderModel_BInit_calls, Event.isLoadTexture])
          (by simp [sleepCalls, CGLRenderModel_BInit_calls, Event.isThreadSleep])
        exact ⟨c1, fun _ => ⟨c2, c3⟩, fun h => absurd ha h⟩
      · obtain ⟨s4, h4, _, _, _, _, htr⟩ := FindOrLoad_of_firstFree rm gl fuel s name _ _ _ _
          hmiss hM2 hT2 j hj
        refine ⟨s4, by rw [h4]; rfl, ?_⟩
        rw [htr, List.append_assoc]
        obtain ⟨c1, c2, c3⟩ := hcount2
          ((.mallocModel s.brk :: CGLRenderModel_BInit_calls) ++
            [.FreeRenderModel (modelAnswer rm name n s.world).2,
             .FreeTexture (textureAnswer rm (modelAnswer rm name n s.world).2.diffuseTextureId k
               (modelWorldAfter rm name (n + 1) s.world)).2])
          (by simp [loadModelCalls, CGLRenderModel_BInit_calls, Event.isLoadRenderModel])
          (by simp [loadTextureCalls, CGLRenderModel_BInit_calls, Event.isLoadTexture])
          (by simp [sleepCalls, CGLRenderModel_BInit_calls, Event.isThreadSleep])
        exact ⟨c1, fun _ => ⟨c2, c3⟩, fun h => absurd ha h⟩
    · rw [FindOrLoad_of_texture_error rm gl fuel s name _ _ _ _ _ hmiss hM2 hT hb]
      refine ⟨_, rfl, ?_⟩
      obtain ⟨c1, c2, c3⟩ := hcount2
        [.dprintf "Unable to load render texture id:%d for render model %s",
         .FreeRenderModel (modelAnswer rm name n s.world).2]
        (by simp [loadModelCalls, Event.isLoadRenderModel])
        (by simp [loadTextureCalls, Event.isLoadTexture])
        (by simp [sleepCalls, Event.isThreadSleep])
      simp only [FreeRenderModel, dprintf, Machine.emit, List.append_assoc,
        List.singleton_append] at c1 c2 c3 ⊢
      exact ⟨c1, fun _ => ⟨c2, c3⟩, fun h => absurd ha h⟩
  · rw [FindOrLoad_of_model_error rm gl fuel s name _ _ _ hmiss hM ha]
    refine ⟨_, rfl, ?_⟩
    obtain ⟨c1, c2, c3⟩ := hcount
      [.GetRenderModelErrorNameFromEnum (modelAnswer rm name n s.world).1,
       .dprintf "Unable to load render model %s - %s"]
      (by simp [loadModelCalls, Event.isLoadRenderModel])
      (by simp [loadTextureCalls, Event.isLoadTexture])
      (by simp [sleepCalls, Event.isThreadSleep])
    simp only [GetRenderModelErrorNameFromEnum, dprintf, Machine.emit, List.append_assoc,
      List.singleton_append] at c1 c2 c3 ⊢
    exact ⟨c1, fun h => absurd h ha, fun _ => ⟨c2, c3⟩⟩

/-- Claim C11 at a sample run: the model loader answers `Loading` twice and the texture loader
once before they succeed; a budget of 3 polls is enough. -/
theorem C11_witness :
    CacheMiss (freshMachine [.VRRenderModelError_Loading, .VRRenderModelError_Loading]
      [.VRRenderModelError_Loading]) (cstr "vr_controller") ∧
    ∃ s4, (CMainApplication_FindOrLoadRenderModel scriptedRuntime sampleGL 3
        (freshMachine [.VRRenderModelError_Loading, .VRRenderModelError_Loading]
          [.VRRenderModelError_Loading]) (cstr "vr_controller")).machine? = some s4 ∧
      loadModelCalls s4.trace = 2 + 1 ∧ loadTextureCalls s4.trace = 1 + 1 ∧
      sleepCalls s4.trace = 2 + 1 :=
  have h := C11_retry_discipline scriptedRuntime sampleGL
    (freshMachine [.VRRenderModelError_Loading, .VRRenderModelError_Loading]
      [.VRRenderModelError_Loading]) (cstr "vr_controller") 2 1 3
    (by decide) (by decide) (by decide) (by decide) (by decide) (by decide) (by decide)
  ⟨by decide,
   h.2.2.choose, h.2.2.choose_spec.1,
   by simpa using h.2.2.choose_spec.2.1,
   by simpa using (h.2.2.choose_spec.2.2.1 (by decide)).1,
   by simpa using (h.2.2.choose_spec.2.2.1 (by decide)).2⟩

/-! ## The trace of the render-model routines -/

/-- A finished model polling loop leaves the events of some number of retries. -/
theorem LoadRenderModel_poll_trace (rm : VR_IVRRenderModels W) (name : CString) (fuel : Nat)
    (s : Machine W) (e : EVRRenderModelError) (m : RenderModel_t) (s1 : Machine W)
    (h : LoadRenderModel_poll rm name fuel s = some (e, m, s1)) :
    ∃ n, s1.trace = s.trace ++ retryTrace (.LoadRenderModel_Async name) n e := by
  induction fuel generalizing s with
  | zero => simp [LoadRenderModel_poll] at h
  | succ fuel ih =>
    unfold LoadRenderModel_poll at h
    simp only at h
    split at h
    · simp only [Option.some.injEq, Prod.mk.injEq] at h
      obtain ⟨he, _, hs⟩ := h
      subst hs
      subst he
      exact ⟨0, rfl⟩
    · rename_i hl
      have hl2 : (rm.LoadRenderModel_Async s.world name).1.1 = .VRRenderModelError_Loading := by
        simpa using hl
      obtain ⟨n, hn⟩ := ih _ h
      refine ⟨n + 1, ?_⟩
      rw [hn]
      simp [ThreadSleep, Machine.emit, hl2, retryTrace]

/-- A finished texture polling loop leaves the events of some number of retries. -/
theorem LoadTexture_poll_trace (rm : VR_IVRRenderModels W) (textureId : Int) (fuel : Nat)
    (s : Machine W) (e : EVRRenderModelError) (m : RenderModel_TextureMap_t) (s1 : Machine W)
    (h : LoadTexture_poll rm textureId fuel s = some (e, m, s1)) :
    ∃ n, s1.trace = s.trace ++ retryTrace (.LoadTexture_Async textureId) n e := by
  induction fuel generalizing s with
  | zero => simp [LoadTexture_poll] at h
  | succ fuel ih =>
    unfold LoadTexture_poll at h
    simp only at h
    split at h
    · simp only [Option.some.injEq, Prod.mk.injEq] at h
      obtain ⟨he, _, hs⟩ := h
      subst hs
      subst he
      exact ⟨0, rfl⟩
    · rename_i hl
      have hl2 : (rm.LoadTexture_Async s.world textureId).1.1 = .VRRenderModelError_Loading := by
        simpa using hl
      obtain ⟨n, hn⟩ := ih _ h
      refine ⟨n + 1, ?_⟩
      rw [hn]
      simp [ThreadSleep, Machine.emit, hl2, retryTrace]

theorem retryTrace_noSystemCall (poll : EVRRenderModelError → Event)
    (hpoll : ∀ e, (poll e).isSystemCall = false) (n : Nat) (e : EVRRenderModelError) :
    ∀ ev ∈ retryTrace poll n e, ev.isSystemCall = false := by
  induction n with
  | zero =>
    intro ev hev
    simp only [retryTrace, List.mem_singleton] at hev
    rw [hev]
    exact hpoll e
  | succ n ih =>
    intro ev hev
    simp only [retryTrace, List.mem_cons] at hev
    rcases hev with h | h | h
    · rw [h]
      exact hpoll _
    · rw [h]
      rfl
    · exact ih ev h

/-- A returning call of `CMainApplication_FindOrLoadRenderModel` only appends to the trace, and
nothing it appends is a call into `VR_IVRSystem`. -/
theorem FindOrLoad_ret_trace (rm : VR_IVRRenderModels W) (gl : GLDriver W) (fuel : Nat)
    (s : Machine W) (name : CString) (r : Option Ptr) (s4 : Machine W)
    (hret : CMainApplication_FindOrLoadRenderModel rm gl fuel s name = .ret r s4) :
    ∃ t, s4.trace = s.trace ++ t ∧ ∀ ev ∈ t, ev.isSystemCall = false := by
  cases hscan : FindOrLoadRenderModel_scan s.self s.heap name k_unMaxTrackedDeviceCount 0 with
  | some p0 =>
    rw [FindOrLoad_of_scan_some rm gl fuel s name p0 hscan] at hret
    cases hret
    exact ⟨[], by simp, by simp⟩
  | none =>
    cases hM : LoadRenderModel_poll rm name fuel s with
    | none =>
      rw [FindOrLoad_of_model_spinning rm gl fuel s name hscan hM] at hret
      cases hret
    | some r1 =>
      obtain ⟨e, m, s1⟩ := r1
      obtain ⟨n, hn⟩ := LoadRenderModel_poll_trace rm name fuel s e m s1 hM
      have hnsys := retryTrace_noSystemCall (.LoadRenderModel_Async name) (fun _ => rfl) n e
      by_cases he : e = .VRRenderModelError_None
      · subst he
        cases hT : LoadTexture_poll rm m.diffuseTextureId fuel s1 with
        | none =>
          rw [FindOrLoad_of_texture_spinning rm gl fuel s name m s1 hscan hM hT] at hret
          cases hret
        | some r2 =>
          obtain ⟨e2, tx, s2⟩ := r2
          obtain ⟨k, hk⟩ := LoadTexture_poll_trace rm _ fuel s1 e2 tx s2 hT
          have hksys := retryTrace_noSystemCall (.LoadTexture_Async m.diffuseTextureId)
            (fun _ => rfl) k e2
          by_cases he2 : e2 = .VRRenderModelError_None
          · subst he2
            rcases cacheFull_or_firstFree s.self with hfull | ⟨j, hj⟩
            · obtain ⟨s5, h5, _⟩ :=
                FindOrLoad_of_full rm gl fuel s name m s1 tx s2 hscan hM hT hfull
              rw [h5] at hret
              cases hret
            · obtain ⟨s5, h5, _, _, _, _, htr⟩ :=
                FindOrLoad_of_firstFree rm gl fuel s name m s1 tx s2 hscan hM hT j hj
              rw [h5] at hret
              cases hret
              refine ⟨_, by rw [htr, hk, hn, List.append_assoc, List.append_assoc,
                List.append_assoc], ?_⟩
              intro ev hev
              simp only [List.mem_append, List.mem_cons, CGLRenderModel_BInit_calls] at hev
              rcases hev with h | h | h
              · exact hnsys ev h
              · exact hksys ev h
              · simp only [List.mem_singleton, List.not_mem_nil, or_false] at h
                rcases h with h | h
                · rcases h with h | h
                  · rw [h]; rfl
                  · repeat (first | (rcases h with h | h; rw [h]; rfl) | (rw [h]; rfl))
                · rcases h with h | h <;> (rw [h]; rfl)
          · rw [FindOrLoad_of_texture_error rm gl fuel s name m s1 e2 tx s2 hscan hM hT he2]
              at hret
            cases hret
            refine ⟨retryTrace (.LoadRenderModel_Async name) n .VRRenderModelError_None ++
                (retryTrace (.LoadTexture_Async m.diffuseTextureId) k e2 ++
                  [.dprintf "Unable to load render texture id:%d for render model %s",
                   .FreeRenderModel m]),
              by simp only [FreeRenderModel, dprintf, Machine.emit, hk, hn,
                List.append_assoc]; rfl, ?_⟩
            intro ev hev
            simp only [List.mem_append, List.mem_cons, List.mem_singleton, List.not_mem_nil,
              or_false] at hev
            rcases hev with h | h | h | h
            · exact hnsys ev h
            · exact hksys ev h
            · rw [h]; rfl
            · rw [h]; rfl
      · rw [FindOrLoad_of_model_error rm gl fuel s name e m s1 hscan hM he] at hret
        cases hret
        refine ⟨retryTrace (.LoadRenderModel_Async name) n e ++
            [.GetRenderModelErrorNameFromEnum e, .dprintf "Unable to load render model %s - %s"],
          by simp only [GetRenderModelErrorNameFromEnum, dprintf, Machine.emit, hn,
            List.append_assoc]; rfl, ?_⟩
        intro ev hev
        simp only [List.mem_append, List.mem_cons, List.mem_singleton, List.not_mem_nil,
          or_false] at hev
        rcases hev with h | h | h
        · exact hnsys ev h
        · rw [h]; rfl
        · rw [h]; rfl

/-! ## Start-up assignment -/

@[simp] theorem assignCalls_append (d : Nat) (a b : List Event) :
    assignCalls d (a ++ b) = assignCalls d a + assignCalls d b := by
  simp [assignCalls]

theorem isSystemCall_of_isAssignQuery (d : Nat) (ev : Event)
    (h : ev.isAssignQuery d = true) : ev.isSystemCall = true := by
  cases ev <;> first | rfl | simp [Event.isAssignQuery] at h

theorem assignCalls_eq_zero (d : Nat) (t : List Event)
    (h : ∀ ev ∈ t, ev.isSystemCall = false) : assignCalls d t = 0 := by
  unfold assignCalls
  rw [List.countP_eq_zero]
  intro ev hev hq
  have := isSystemCall_of_isAssignQuery d ev hq
  rw [h ev hev] at this
  cases this

theorem isAssignQuery_size_ne_zero (d unDevice size : Nat) (prop : ETrackedDeviceProperty)
    (h : size ≠ 0) :
    Event.isAssignQuery d (.GetStringTrackedDeviceProperty unDevice prop size) = false := by
  cases size with
  | zero => exact absurd rfl h
  | succ k => cases prop <;> rfl

/-- The helper `GetTrackedDeviceString` only appends to the trace; it issues the first query
of an assignment once when asked for the render-model name, and never otherwise. -/
theorem GetTrackedDeviceString_assignCalls (pHmd : VR_IVRSystem W) (s : Machine W)
    (unDevice : Nat) (prop : ETrackedDeviceProperty) :
    ∃ t, (GetTrackedDeviceString pHmd s unDevice prop).2.trace = s.trace ++ t ∧
      ∀ d, assignCalls d t =
        if prop = .Prop_RenderModelName_String ∧ unDevice = d then 1 else 0 := by
  have hfirst : ∀ d, assignCalls d [.GetStringTrackedDeviceProperty unDevice prop 0] =
      if prop = .Prop_RenderModelName_String ∧ unDevice = d then 1 else 0 := by
    intro d
    cases prop
    · simp [assignCalls, Event.isAssignQuery]
    · by_cases hd : unDevice = d <;> simp [assignCalls, Event.isAssignQuery, hd]
  unfold GetTrackedDeviceString
  simp only
  split
  · exact ⟨_, rfl, hfirst⟩
  · rename_i hlen
    refine ⟨[.GetStringTrackedDeviceProperty unDevice prop 0] ++
      [.mallocString (pHmd.GetStringTrackedDeviceProperty s.world unDevice prop 0).1.1,
       .GetStringTrackedDeviceProperty unDevice prop
         (pHmd.GetStringTrackedDeviceProperty s.world unDevice prop 0).1.1], ?_, ?_⟩
    · simp
    · intro d
      have h2 : assignCalls d
          [.mallocString (pHmd.GetStringTrackedDeviceProperty s.world unDevice prop 0).1.1,
           .GetStringTrackedDeviceProperty unDevice prop
             (pHmd.GetStringTrackedDeviceProperty s.world unDevice prop 0).1.1] = 0 := by
        unfold assignCalls
        rw [List.countP_eq_zero]
        intro ev hev
        simp only [List.mem_cons, List.mem_singleton, List.not_mem_nil, or_false] at hev
        rcases hev with h | h
        · rw [h]
          simp [Event.isAssignQuery]
        · rw [h, isAssignQuery_size_ne_zero d unDevice _ prop hlen]
          simp
      rw [assignCalls_append, hfirst d, h2, Nat.add_zero]

/-- A returning assignment only appends to the trace, and it issues the first query of an
assignment exactly once, for its own device, when the index is below 16. -/
theorem assign_assignCalls (pHmd : VR_IVRSystem W) (rm : VR_IVRRenderModels W)
    (gl : GLDriver W) (fuel : Nat) (s : Machine W) (unTrackedDeviceIndex : Nat)
    (s4 : Machine W)
    (hret : CMainApplication_SetupRenderModelForTrackedDevice pHmd rm gl fuel s
      unTrackedDeviceIndex = .ret () s4) :
    ∀ d, assignCalls d s4.trace = assignCalls d s.trace +
      if unTrackedDeviceIndex = d ∧ unTrackedDeviceIndex < k_unMaxTrackedDeviceCount then 1
      else 0 := by
  intro d
  by_cases hidx : unTrackedDeviceIndex < k_unMaxTrackedDeviceCount
  · obtain ⟨t1, ht1, hc1⟩ := GetTrackedDeviceString_assignCalls pHmd s unTrackedDeviceIndex
      .Prop_RenderModelName_String
    cases hF : CMainApplication_FindOrLoadRenderModel rm gl fuel
      (GetTrackedDeviceString pHmd s unTrackedDeviceIndex .Prop_RenderModelName_String).2
      (GetTrackedDeviceString pHmd s unTrackedDeviceIndex .Prop_RenderModelName_String).1 with
    | ret r s1 =>
      obtain ⟨t2, ht2, hc2⟩ := FindOrLoad_ret_trace rm gl fuel _ _ r s1 hF
      cases r with
      | none =>
        rw [assign_of_ret_none pHmd rm gl fuel s unTrackedDeviceIndex s1 hidx hF] at hret
        split at hret
        · cases hret
        cases hret
        obtain ⟨t3, ht3, hc3⟩ := GetTrackedDeviceString_assignCalls pHmd
          (s1.emit (.freeString (GetTrackedDeviceString pHmd s unTrackedDeviceIndex
            .Prop_RenderModelName_String).1)) unTrackedDeviceIndex
          .Prop_TrackingSystemName_String
        simp only [dprintf, Machine.emit] at ht3 ⊢
        rw [ht3, ht2, ht1]
        simp only [assignCalls_append, hc1 d, hc3 d, assignCalls_eq_zero d t2 hc2]
        simp [assignCalls, Event.isAssignQuery, hidx]
      | some p =>
        rw [assign_of_ret_some pHmd rm gl fuel s unTrackedDeviceIndex p s1 hidx hF] at hret
        cases hret
        show assignCalls d s1.trace = _
        rw [ht2, ht1]
        simp only [assignCalls_append, hc1 d, assignCalls_eq_zero d t2 hc2]
        simp [hidx]
    | exit c s1 =>
      have hnot : ¬ unTrackedDeviceIndex ≥ k_unMaxTrackedDeviceCount := Nat.not_le.2 hidx
      simp only [CMainApplication_SetupRenderModelForTrackedDevice, dif_neg hnot, hF] at hret
      cases hret
    | spinning =>
      have hnot : ¬ unTrackedDeviceIndex ≥ k_unMaxTrackedDeviceCount := Nat.not_le.2 hidx
      simp only [CMainApplication_SetupRenderModelForTrackedDevice, dif_neg hnot, hF] at hret
      cases hret
    | undefined =>
      have hnot : ¬ unTrackedDeviceIndex ≥ k_unMaxTrackedDeviceCount := Nat.not_le.2 hidx
      simp only [CMainApplication_SetupRenderModelForTrackedDevice, dif_neg hnot, hF] at hret
      cases hret
  · have hge : unTrackedDeviceIndex ≥ k_unMaxTrackedDeviceCount := Nat.le_of_not_lt hidx
    simp only [CMainApplication_SetupRenderModelForTrackedDevice, dif_pos hge] at hret
    cases hret
    simp [hidx]

/-- The loop of `CMainApplication_SetupRenderModels`, when the runtime's answer about each
device does not change during the loop: it enters the assignment once for every connected
device it passes, and for no other device. -/
theorem SetupRenderModels_loop_assignCalls (pHmd : VR_IVRSystem W)
    (rm : VR_IVRRenderModels W) (gl : GLDriver W) (fuel : Nat) (connected : Nat → Bool)
    (hconn : ∀ w d, (pHmd.IsTrackedDeviceConnected w d).1 = connected d)
    (n unTrackedDevice : Nat) (s s4 : Machine W)
    (hret : SetupRenderModels_loop pHmd rm gl fuel n unTrackedDevice s = .ret () s4) :
    ∀ d, assignCalls d s4.trace = assignCalls d s.trace +
      if unTrackedDevice ≤ d ∧ d < unTrackedDevice + n ∧ d < k_unMaxTrackedDeviceCount ∧
        connected d = true then 1 else 0 := by
  induction n generalizing unTrackedDevice s with
  | zero =>
    intro d
    simp only [SetupRenderModels_loop] at hret
    cases hret
    have : ¬ (unTrackedDevice ≤ d ∧ d < unTrackedDevice + 0 ∧ d < k_unMaxTrackedDeviceCount ∧
        connected d = true) := by
      rintro ⟨h1, h2, _⟩
      omega
    rw [if_neg this]
    rfl
  | succ n ih =>
    intro d
    unfold SetupRenderModels_loop at hret
    split at hret
    · rename_i hlt
      have hlt16 : unTrackedDevice < 16 := hlt
      simp only at hret
      have hq : assignCalls d [Event.IsTrackedDeviceConnected unTrackedDevice] = 0 := by
        simp [assignCalls, Event.isAssignQuery]
      split at hret
      · rename_i hfalse
        have hc : connected unTrackedDevice = false := by rw [← hconn s.world]; exact hfalse
        rw [ih _ _ hret d]
        simp only [assignCalls_append, hq, Nat.add_zero]
        congr 1
        by_cases hd : d = unTrackedDevice
        · subst hd
          simp [hc]
        · have e : (unTrackedDevice + 1 ≤ d ∧ d < unTrackedDevice + 1 + n ∧
              d < k_unMaxTrackedDeviceCount ∧ connected d = true) ↔
              (unTrackedDevice ≤ d ∧ d < unTrackedDevice + (n + 1) ∧
              d < k_unMaxTrackedDeviceCount ∧ connected d = true) := by
            constructor
            · rintro ⟨h1, h2, h3, h4⟩
              exact ⟨by omega, by omega, h3, h4⟩
            · rintro ⟨h1, h2, h3, h4⟩
              exact ⟨by omega, by omega, h3, h4⟩
          simp only [e]
      · rename_i htrue
        have hc : connected unTrackedDevice = true := by
          rw [← hconn s.world]
          simpa using htrue
        split at hret
        · rename_i s2 hA
          rw [ih _ _ hret d, assign_assignCalls pHmd rm gl fuel _ _ s2 hA d]
          simp only [assignCalls_append, hq, Nat.add_zero]
          rw [Nat.add_assoc]
          congr 1
          by_cases hd : d = unTrackedDevice
          · subst hd
            have e1 : ¬ (d + 1 ≤ d ∧ d < d + 1 + n ∧ d < k_unMaxTrackedDeviceCount ∧
                connected d = true) := by
              rintro ⟨h1, _⟩
              omega
            have e2 : (d ≤ d ∧ d < d + (n + 1) ∧ d < k_unMaxTrackedDeviceCount ∧
                connected d = true) := ⟨le_refl _, by omega, hlt, hc⟩
            rw [if_neg e1, if_pos e2, if_pos ⟨rfl, hlt⟩]
          · have e0 : ¬ (unTrackedDevice = d ∧ unTrackedDevice < k_unMaxTrackedDeviceCount) :=
              fun h => hd h.1.symm
            have e : (unTrackedDevice + 1 ≤ d ∧ d < unTrackedDevice + 1 + n ∧
                d < k_unMaxTrackedDeviceCount ∧ connected d = true) ↔
                (unTrackedDevice ≤ d ∧ d < unTrackedDevice + (n + 1) ∧
                d < k_unMaxTrackedDeviceCount ∧ connected d = true) := by
              constructor
              · rintro ⟨h1, h2, h3, h4⟩
                exact ⟨by omega, by omega, h3, h4⟩
              · rintro ⟨h1, h2, h3, h4⟩
                exact ⟨by omega, by omega, h3, h4⟩
            rw [if_neg e0, Nat.zero_add]
            simp only [e]
        · cases hret
        · cases hret
        · cases hret
    · rename_i hge
      cases hret
      have : ¬ (unTrackedDevice ≤ d ∧ d < unTrackedDevice + (n + 1) ∧
          d < k_unMaxTrackedDeviceCount ∧ connected d = true) := by
        rintro ⟨h1, _, h3, _⟩
        have h16 : d < 16 := h3
        have : ¬ unTrackedDevice < 16 := hge
        omega
      rw [if_neg this]
      rfl

/-- Claim C15, as stated, fails: the sample runtime reports device 0 (the HMD) as connected,
yet `CMainApplication_SetupRenderModels` never enters the assignment for index 0 and leaves its
device slot empty, while it does enter it for the connected device 1. -/
theorem C15_counterexample :
    (∀ w : List EVRRenderModelError × List EVRRenderModelError,
      ((sampleSystem.IsTrackedDeviceConnected w 0).1 = true)) ∧
    ∃ s4, CMainApplication_SetupRenderModels (some sampleSystem) scriptedRuntime sampleGL 1
        (freshMachine [] []) = .ret () s4 ∧
      assignCalls 0 s4.trace = 0 ∧ assignCalls 1 s4.trace = 1 ∧
      s4.self.m_rTrackedDeviceToRenderModel 0 = none :=
  ⟨fun _ => rfl, _, rfl, by decide, by decide, by decide⟩

/-- Claim C15, amended: with an HMD present and a runtime whose answer about each device does
not change during start-up, `CMainApplication_SetupRenderModels` enters the assignment
(`CMainApplication_SetupRenderModelForTrackedDevice`) exactly once for every device index from
1 to 15 that the runtime reports as connected, and not at all for index 0 (the HMD), for an
index that is not connected, or for an index of 16 or more. -/
theorem C15_startup_assignment_amended (pHmd : VR_IVRSystem W) (rm : VR_IVRRenderModels W)
    (gl : GLDriver W) (fuel : Nat) (connected : Nat → Bool) (s s4 : Machine W)
    (hconn : ∀ w d, (pHmd.IsTrackedDeviceConnected w d).1 = connected d)
    (hret : CMainApplication_SetupRenderModels (some pHmd) rm gl fuel s = .ret () s4) :
    ∀ d, assignCalls d s4.trace = assignCalls d s.trace +
      if 1 ≤ d ∧ d < k_unMaxTrackedDeviceCount ∧ connected d = true then 1 else 0 := by
  intro d
  unfold CMainApplication_SetupRenderModels at hret
  simp only at hret
  rw [SetupRenderModels_loop_assignCalls pHmd rm gl fuel connected hconn _ _ _ s4 hret d]
  congr 1
  have e : (k_unTrackedDeviceIndex_Hmd + 1 ≤ d ∧
      d < k_unTrackedDeviceIndex_Hmd + 1 + k_unMaxTrackedDeviceCount ∧
      d < k_unMaxTrackedDeviceCount ∧ connected d = true) ↔
      (1 ≤ d ∧ d < k_unMaxTrackedDeviceCount ∧ connected d = true) := by
    constructor
    · rintro ⟨h1, _, h3, h4⟩
      exact ⟨h1, h3, h4⟩
    · rintro ⟨h1, h3, h4⟩
      have h16 : d < 16 := h3
      exact ⟨h1, by show d < 0 + 1 + 16; omega, h3, h4⟩
  simp only [e]

/-- Claim C15, amended, at the sample system, whose devices 0, 1 and 2 are connected. -/
theorem C15_witness :
    (∀ (w : List EVRRenderModelError × List EVRRenderModelError) d,
      (sampleSystem.IsTrackedDeviceConnected w d).1 = decide (d < 3)) ∧
    ∃ s4, CMainApplication_SetupRenderModels (some sampleSystem) scriptedRuntime sampleGL 1
        (freshMachine [] []) = .ret () s4 ∧
      ∀ d, assignCalls d s4.trace = assignCalls d (freshMachine [] []).trace +
        if 1 ≤ d ∧ d < k_unMaxTrackedDeviceCount ∧ decide (d < 3) = true then 1 else 0 :=
  ⟨fun _ _ => rfl, _, rfl,
   C15_startup_assignment_amended sampleSystem scriptedRuntime sampleGL 1
     (fun d => decide (d < 3)) (freshMachine [] []) _ (fun _ _ => rfl) rfl⟩

/-! ## Matrices -/

/-- Claim C16 (matrix conversion): for every 3x4 input `m`,
`CMainApplication_ConvertSteamVRMatrixToMatrix4` returns the 16 floats `out` with
`out[4*c + r] = m[r][c]` for `r` in 0..2 and `c` in 0..3, `out[3] = out[7] = out[11] = 0.0` and
`out[15] = 1.0f`; the 3x4 identity gives exactly the 4x4 identity. -/
theorem C16_matrix_conversion (m : HmdMatrix34_t) :
    (∀ (r : Fin 3) (c : Fin 4),
      (CMainApplication_ConvertSteamVRMatrixToMatrix4 m).m
        ⟨4 * c.val + r.val, by have hr := r.isLt; have hc := c.isLt; omega⟩ = m.m r c) ∧
    (CMainApplication_ConvertSteamVRMatrixToMatrix4 m).m 3 = 0 ∧
    (CMainApplication_ConvertSteamVRMatrixToMatrix4 m).m 7 = 0 ∧
    (CMainApplication_ConvertSteamVRMatrixToMatrix4 m).m 11 = 0 ∧
    (CMainApplication_ConvertSteamVRMatrixToMatrix4 m).m 15 = 1 ∧
    CMainApplication_ConvertSteamVRMatrixToMatrix4 ⟨fun r c => if r.val = c.val then 1 else 0⟩ =
      Matrix4_identity := by
  refine ⟨?_, rfl, rfl, rfl, rfl, by decide⟩
  intro r c
  fin_cases r <;> fin_cases c <;> rfl

/-- Claim C19 (view-projection composition): for the left eye
`CMainApplication_GetCurrentViewProjectionMatrix` returns
`mul(mul(m_mat4ProjectionLeft, m_mat4eyePosLeft), m_mat4HMDPose)` and for the right eye
`mul(mul(m_mat4ProjectionRight, m_mat4eyePosRight), m_mat4HMDPose)`, where `mul` is
`Matrix4_multiply_Matrix4`. -/
theorem C19_view_projection (Matrix4_multiply_Matrix4 : Matrix4 → Matrix4 → Matrix4)
    (self : CMainApplication) :
    CMainApplication_GetCurrentViewProjectionMatrix Matrix4_multiply_Matrix4 self .Eye_Left =
      Matrix4_multiply_Matrix4
        (Matrix4_multiply_Matrix4 self.m_mat4ProjectionLeft self.m_mat4eyePosLeft)
        self.m_mat4HMDPose ∧
    CMainApplication_GetCurrentViewProjectionMatrix Matrix4_multiply_Matrix4 self .Eye_Right =
      Matrix4_multiply_Matrix4
        (Matrix4_multiply_Matrix4 self.m_mat4ProjectionRight self.m_mat4eyePosRight)
        self.m_mat4HMDPose :=
  ⟨rfl, rfl⟩

/-! ## The pose loop -/

/-- What the body of the pose loop writes for device `i`: the converted transform into
`m_rmat4DevicePose[i]` and, when the class character was 0, the character of the class the
runtime reports; it leaves the pose array, the cache, the device slots, the visibility flags
and the other matrices alone. -/
theorem UpdateHMDMatrixPose_body_spec (pHmd : VR_IVRSystem W) (s : Machine W)
    (i : Fin MAX_TRACKED_DEVICE_COUNT) :
    (UpdateHMDMatrixPose_body pHmd s i).self.m_rTrackedDevicePose =
        s.self.m_rTrackedDevicePose ∧
      (UpdateHMDMatrixPose_body pHmd s i).self.m_rmat4DevicePose =
        Function.update s.self.m_rmat4DevicePose i
          (CMainApplication_ConvertSteamVRMatrixToMatrix4
            (s.self.m_rTrackedDevicePose i).mDeviceToAbsoluteTracking) ∧
      (UpdateHMDMatrixPose_body pHmd s i).self.m_rDevClassChar =
        (if s.self.m_rDevClassChar i = 0 then
          Function.update s.self.m_rDevClassChar i
            (classChar (pHmd.GetTrackedDeviceClass s.world i.val).1)
        else s.self.m_rDevClassChar) ∧
      (UpdateHMDMatrixPose_body pHmd s i).self.m_iValidPoseCount =
        s.self.m_iValidPoseCount + 1 := by
  unfold UpdateHMDMatrixPose_body
  simp only
  split <;> exact ⟨rfl, rfl, rfl, rfl⟩

/-- The pose loop does not write the pose array. -/
theorem UpdateHMDMatrixPose_loop_poses (pHmd : VR_IVRSystem W) (n nDevice : Nat)
    (s : Machine W) :
    (UpdateHMDMatrixPose_loop pHmd n nDevice s).self.m_rTrackedDevicePose =
      s.self.m_rTrackedDevicePose := by
  induction n generalizing nDevice s with
  | zero => rfl
  | succ n ih =>
    unfold UpdateHMDMatrixPose_loop
    split
    · split
      · rw [ih, (UpdateHMDMatrixPose_body_spec pHmd s _).1]
      · rw [ih]
    · rfl

/-- What the pose loop leaves in `m_rmat4DevicePose`: the converted transform for every device
it passes whose pose is valid, the old matrix for every other device. -/
theorem UpdateHMDMatrixPose_loop_devicePose (pHmd : VR_IVRSystem W) (n nDevice : Nat)
    (s : Machine W) (i : Fin MAX_TRACKED_DEVICE_COUNT) :
    (UpdateHMDMatrixPose_loop pHmd n nDevice s).self.m_rmat4DevicePose i =
      if nDevice ≤ i.val ∧ i.val < nDevice + n ∧
          (s.self.m_rTrackedDevicePose i).bPoseIsValid = true then
        CMainApplication_ConvertSteamVRMatrixToMatrix4
          (s.self.m_rTrackedDevicePose i).mDeviceToAbsoluteTracking
      else s.self.m_rmat4DevicePose i := by
  induction n generalizing nDevice s with
  | zero =>
    have : ¬ (nDevice ≤ i.val ∧ i.val < nDevice + 0 ∧
        (s.self.m_rTrackedDevicePose i).bPoseIsValid = true) := by
      rintro ⟨h1, h2, _⟩
      omega
    rw [if_neg this]
    rfl
  | succ n ih =>
    have e : i.val ≠ nDevice → ((nDevice + 1 ≤ i.val ∧ i.val < nDevice + 1 + n ∧
        (s.self.m_rTrackedDevicePose i).bPoseIsValid = true) ↔
        (nDevice ≤ i.val ∧ i.val < nDevice + (n + 1) ∧
        (s.self.m_rTrackedDevicePose i).bPoseIsValid = true)) := by
      intro hne
      constructor
      · rintro ⟨h1, h2, h3⟩
        exact ⟨by omega, by omega, h3⟩
      · rintro ⟨h1, h2, h3⟩
        exact ⟨by omega, by omega, h3⟩
    unfold UpdateHMDMatrixPose_loop
    split
    · rename_i hlt
      split
      · rename_i hvalid
        obtain ⟨b1, b2, _, _⟩ := UpdateHMDMatrixPose_body_spec pHmd s ⟨nDevice, hlt⟩
        rw [ih, b1, b2]
        by_cases hi : i = ⟨nDevice, hlt⟩
        · subst hi
          have e1 : ¬ (nDevice + 1 ≤ nDevice ∧ nDevice < nDevice + 1 + n ∧
              (s.self.m_rTrackedDevicePose ⟨nDevice, hlt⟩).bPoseIsValid = true) := by
            rintro ⟨h1, _⟩
            omega
          have e2 : (nDevice ≤ nDevice ∧ nDevice < nDevice + (n + 1) ∧
              (s.self.m_rTrackedDevicePose ⟨nDevice, hlt⟩).bPoseIsValid = true) :=
            ⟨le_refl _, by omega, hvalid⟩
          rw [if_neg e1, if_pos e2, Function.update_same]
        · have hne : i.val ≠ nDevice := fun h => hi (Fin.ext h)
          simp only [e hne, Function.update_noteq hi]
      · rename_i hinvalid
        rw [ih]
        by_cases hi : i = ⟨nDevice, hlt⟩
        · subst hi
          have e1 : ¬ (nDevice + 1 ≤ nDevice ∧ nDevice < nDevice + 1 + n ∧
              (s.self.m_rTrackedDevicePose ⟨nDevice, hlt⟩).bPoseIsValid = true) := by
            rintro ⟨h1, _⟩
            omega
          have e2 : ¬ (nDevice ≤ nDevice ∧ nDevice < nDevice + (n + 1) ∧
              (s.self.m_rTrackedDevicePose ⟨nDevice, hlt⟩).bPoseIsValid = true) := by
            rintro ⟨_, _, h3⟩
            exact hinvalid h3
          rw [if_neg e1, if_neg e2]
        · have hne : i.val ≠ nDevice := fun h => hi (Fin.ext h)
          simp only [e hne]
    · rename_i hge
      have : ¬ (nDevice ≤ i.val ∧ i.val < nDevice + (n + 1) ∧
          (s.self.m_rTrackedDevicePose i).bPoseIsValid = true) := by
        rintro ⟨h1, _, _⟩
        have h16 : i.val < 16 := i.isLt
        have : ¬ nDevice < 16 := hge
        omega
      rw [if_neg this]

/-- What the pose loop leaves in the class character of device `i`, when the runtime always
reports class `c` for it: the character of `c` if the loop passes the device, its pose is valid
and its character was 0; the old character otherwise. -/
theorem UpdateHMDMatrixPose_loop_classChar (pHmd : VR_IVRSystem W)
    (i : Fin MAX_TRACKED_DEVICE_COUNT) (c : ETrackedDeviceClass)
    (hcls : ∀ w, (pHmd.GetTrackedDeviceClass w i.val).1 = c) (n nDevice : Nat)
    (s : Machine W) :
    (UpdateHMDMatrixPose_loop pHmd n nDevice s).self.m_rDevClassChar i =
      if nDevice ≤ i.val ∧ i.val < nDevice + n ∧
          (s.self.m_rTrackedDevicePose i).bPoseIsValid = true ∧
          s.self.m_rDevClassChar i = 0 then classChar c
      else s.self.m_rDevClassChar i := by
  induction n generalizing nDevice s with
  | zero =>
    have : ¬ (nDevice ≤ i.val ∧ i.val < nDevice + 0 ∧
        (s.self.m_rTrackedDevicePose i).bPoseIsValid = true ∧
        s.self.m_rDevClassChar i = 0) := by
      rintro ⟨h1, h2, _⟩
      omega
    rw [if_neg this]
    rfl
  | succ n ih =>
    have e : i.val ≠ nDevice → ((nDevice + 1 ≤ i.val ∧ i.val < nDevice + 1 + n ∧
        (s.self.m_rTrackedDevicePose i).bPoseIsValid = true ∧
        s.self.m_rDevClassChar i = 0) ↔
        (nDevice ≤ i.val ∧ i.val < nDevice + (n + 1) ∧
        (s.self.m_rTrackedDevicePose i).bPoseIsValid = true ∧
        s.self.m_rDevClassChar i = 0)) := by
      intro hne
      constructor
      · rintro ⟨h1, h2, h3⟩
        exact ⟨by omega, by omega, h3⟩
      · rintro ⟨h1, h2, h3⟩
        exact ⟨by omega, by omega, h3⟩
    unfold UpdateHMDMatrixPose_loop
    split
    · rename_i hlt
      split
      · rename_i hvalid
        obtain ⟨b1, _, b3, _⟩ := UpdateHMDMatrixPose_body_spec pHmd s ⟨nDevice, hlt⟩
        rw [ih, b1, b3]
        by_cases hi : i = ⟨nDevice, hlt⟩
        · subst hi
          have e1 : ∀ P : Prop, ¬ (nDevice + 1 ≤ nDevice ∧ P) := by
            rintro P ⟨h1, _⟩
            omega
          rw [if_neg (e1 _)]
          by_cases h0 : s.self.m_rDevClassChar ⟨nDevice, hlt⟩ = 0
          · rw [if_pos h0, Function.update_same, hcls,
              if_pos ⟨le_refl _, by show nDevice < nDevice + (n + 1); omega, hvalid, h0⟩]
          · rw [if_neg h0]
            have e2 : ¬ (nDevice ≤ nDevice ∧ nDevice < nDevice + (n + 1) ∧
                (s.self.m_rTrackedDevicePose ⟨nDevice, hlt⟩).bPoseIsValid = true ∧
                s.self.m_rDevClassChar ⟨nDevice, hlt⟩ = 0) := by
              rintro ⟨_, _, _, h4⟩
              exact h0 h4
            rw [if_neg e2]
        · have hne : i.val ≠ nDevice := fun h => hi (Fin.ext h)
          have hsame : (if s.self.m_rDevClassChar ⟨nDevice, hlt⟩ = 0 then
              Function.update s.self.m_rDevClassChar ⟨nDevice, hlt⟩
                (classChar (pHmd.GetTrackedDeviceClass s.world nDevice).1)
              else s.self.m_rDevClassChar) i = s.self.m_rDevClassChar i := by
            split
            · exact Function.update_noteq hi _ _
            · rfl
          simp only [hsame, e hne]
      · rename_i hinvalid
        rw [ih]
        by_cases hi : i = ⟨nDevice, hlt⟩
        · subst hi
          have e1 : ∀ P : Prop, ¬ (nDevice + 1 ≤ nDevice ∧ P) := by
            rintro P ⟨h1, _⟩
            omega
          have e2 : ¬ (nDevice ≤ nDevice ∧ nDevice < nDevice + (n + 1) ∧
              (s.self.m_rTrackedDevicePose ⟨nDevice, hlt⟩).bPoseIsValid = true ∧
              s.self.m_rDevClassChar ⟨nDevice, hlt⟩ = 0) := by
            rintro ⟨_, _, h3, _⟩
            exact hinvalid h3
          rw [if_neg (e1 _), if_neg e2]
        · have hne : i.val ≠ nDevice := fun h => hi (Fin.ext h)
          simp only [e hne]
    · rename_i hge
      have : ¬ (nDevice ≤ i.val ∧ i.val < nDevice + (n + 1) ∧
          (s.self.m_rTrackedDevicePose i).bPoseIsValid = true ∧
          s.self.m_rDevClassChar i = 0) := by
        rintro ⟨h1, _, _⟩
        have h16 : i.val < 16 := i.isLt
        have : ¬ nDevice < 16 := hge
        omega
      rw [if_neg this]

/-! ## Claims about `CMainApplication_UpdateHMDMatrixPose` -/

/-- After the refresh the pose array holds what `WaitGetPoses` returned. -/
theorem UpdateHMDMatrixPose_poses (pHmd : VR_IVRSystem W) (m_pCompositor : VR_IVRCompositor W)
    (Matrix4_invert : Matrix4 → Matrix4) (s : Machine W) :
    (CMainApplication_UpdateHMDMatrixPose (some pHmd) m_pCompositor Matrix4_invert
        s).self.m_rTrackedDevicePose =
      (m_pCompositor.WaitGetPoses s.world s.self.m_rTrackedDevicePose).1 := by
  unfold CMainApplication_UpdateHMDMatrixPose
  simp only
  split
  · simp only [UpdateHMDMatrixPose_loop_poses]
  · simp only [UpdateHMDMatrixPose_loop_poses]

/-- What the refresh leaves in `m_rmat4DevicePose`: for the HMD (slot 0) with a valid pose the
result of `Matrix4_invert` on the converted transform, which is inverted in place; for every
other device with a valid pose the converted transform; for a device without a valid pose the
old matrix. -/
theorem UpdateHMDMatrixPose_devicePose (pHmd : VR_IVRSystem W)
    (m_pCompositor : VR_IVRCompositor W) (Matrix4_invert : Matrix4 → Matrix4) (s : Machine W)
    (i : Fin MAX_TRACKED_DEVICE_COUNT) :
    (CMainApplication_UpdateHMDMatrixPose (some pHmd) m_pCompositor Matrix4_invert
        s).self.m_rmat4DevicePose i =
      if ((m_pCompositor.WaitGetPoses s.world s.self.m_rTrackedDevicePose).1 i).bPoseIsValid
          = true then
        if i = 0 then
          Matrix4_invert (CMainApplication_ConvertSteamVRMatrixToMatrix4
            ((m_pCompositor.WaitGetPoses s.world
              s.self.m_rTrackedDevicePose).1 0).mDeviceToAbsoluteTracking)
        else
          CMainApplication_ConvertSteamVRMatrixToMatrix4
            ((m_pCompositor.WaitGetPoses s.world
              s.self.m_rTrackedDevicePose).1 i).mDeviceToAbsoluteTracking
      else s.self.m_rmat4DevicePose i := by
  have h16 : i.val < 16 := i.isLt
  have hrange : ∀ P : Prop, ((k_unTrackedDeviceIndex_Hmd : Nat) ≤ i.val ∧
      i.val < 0 + k_unMaxTrackedDeviceCount ∧ P) ↔ P := by
    intro P
    constructor
    · exact fun h => h.2.2
    · exact fun h => ⟨Nat.zero_le _, by show i.val < 0 + 16; omega, h⟩
  have hrange0 : ∀ P : Prop, ((0 : Nat) ≤ 0 ∧
      (0 : Nat) < 0 + k_unMaxTrackedDeviceCount ∧ P) ↔ P := by
    intro P
    constructor
    · exact fun h => h.2.2
    · exact fun h => ⟨Nat.zero_le _, by decide, h⟩
  have e0 : (⟨k_unTrackedDeviceIndex_Hmd, by decide⟩ : Fin MAX_TRACKED_DEVICE_COUNT) = 0 := rfl
  unfold CMainApplication_UpdateHMDMatrixPose
  simp only
  split
  · rename_i hv
    simp only [UpdateHMDMatrixPose_loop_poses] at hv
    rw [e0] at hv ⊢
    dsimp only
    by_cases hi : i = 0
    · subst hi
      rw [Function.update_same, if_pos hv, if_pos rfl, UpdateHMDMatrixPose_loop_devicePose]
      simp only [Fin.val_zero, hrange0, hv, if_true]
    · rw [Function.update_noteq hi, UpdateHMDMatrixPose_loop_devicePose]
      simp only [hrange, if_neg hi]
  · rename_i hv
    simp only [UpdateHMDMatrixPose_loop_poses] at hv
    rw [e0] at hv
    rw [UpdateHMDMatrixPose_loop_devicePose]
    simp only [hrange]
    by_cases hi : i = 0
    · subst hi
      simp only [if_neg hv]
    · simp only [if_neg hi]

/-- Claim C18 (head pose): after a refresh in which the HMD slot (index 0) has a valid pose,
`m_mat4HMDPose` is the result of `Matrix4_invert` on the 4x4 conversion of slot 0's
device-to-tracking transform. -/
theorem C18_head_pose (pHmd : VR_IVRSystem W) (m_pCompositor : VR_IVRCompositor W)
    (Matrix4_invert : Matrix4 → Matrix4) (s : Machine W)
    (hvalid : ((m_pCompositor.WaitGetPoses s.world s.self.m_rTrackedDevicePose).1
      0).bPoseIsValid = true) :
    (CMainApplication_UpdateHMDMatrixPose (some pHmd) m_pCompositor Matrix4_invert
        s).self.m_mat4HMDPose =
      Matrix4_invert (CMainApplication_ConvertSteamVRMatrixToMatrix4
        ((m_pCompositor.WaitGetPoses s.world
          s.self.m_rTrackedDevicePose).1 0).mDeviceToAbsoluteTracking) := by
  have hrange0 : ∀ P : Prop, ((0 : Nat) ≤ 0 ∧
      (0 : Nat) < 0 + k_unMaxTrackedDeviceCount ∧ P) ↔ P := by
    intro P
    constructor
    · exact fun h => h.2.2
    · exact fun h => ⟨Nat.zero_le _, by decide, h⟩
  have hv : ((m_pCompositor.WaitGetPoses s.world s.self.m_rTrackedDevicePose).1
      ⟨k_unTrackedDeviceIndex_Hmd, by decide⟩).bPoseIsValid = true := hvalid
  unfold CMainApplication_UpdateHMDMatrixPose
  simp only [UpdateHMDMatrixPose_loop_poses, hv, if_true, UpdateHMDMatrixPose_loop_devicePose]
  simp only [hrange0, if_true]
  rfl

/-- Claim C18 at the sample frame: the HMD is 1 unit up, and the head pose is that translation
with its column negated. -/
theorem C18_witness :
    (((sampleCompositor samplePoses).WaitGetPoses (freshMachine [] []).world
      (freshMachine [] []).self.m_rTrackedDevicePose).1 0).bPoseIsValid = true ∧
    (CMainApplication_UpdateHMDMatrixPose (some sampleSystem) (sampleCompositor samplePoses)
        translationInvert (freshMachine [] [])).self.m_mat4HMDPose =
      translationInvert (CMainApplication_ConvertSteamVRMatrixToMatrix4
        (((sampleCompositor samplePoses).WaitGetPoses (freshMachine [] []).world
          (freshMachine [] []).self.m_rTrackedDevicePose).1 0).mDeviceToAbsoluteTracking) :=
  ⟨by decide,
   C18_head_pose sampleSystem (sampleCompositor samplePoses) translationInvert
     (freshMachine [] []) (by decide)⟩

/-- What the refresh leaves in the class character of device `i`, when the runtime always
reports class `c` for it: the character of `c` if the returned pose is valid and the character
was 0; the old character otherwise. -/
theorem UpdateHMDMatrixPose_classChar (pHmd : VR_IVRSystem W)
    (m_pCompositor : VR_IVRCompositor W) (Matrix4_invert : Matrix4 → Matrix4) (s : Machine W)
    (i : Fin MAX_TRACKED_DEVICE_COUNT) (c : ETrackedDeviceClass)
    (hcls : ∀ w, (pHmd.GetTrackedDeviceClass w i.val).1 = c) :
    (CMainApplication_UpdateHMDMatrixPose (some pHmd) m_pCompositor Matrix4_invert
        s).self.m_rDevClassChar i =
      if ((m_pCompositor.WaitGetPoses s.world s.self.m_rTrackedDevicePose).1 i).bPoseIsValid
          = true ∧ s.self.m_rDevClassChar i = 0 then classChar c
      else s.self.m_rDevClassChar i := by
  have h16 : i.val < 16 := i.isLt
  have hrange : ∀ P : Prop, ((0 : Nat) ≤ i.val ∧
      i.val < 0 + k_unMaxTrackedDeviceCount ∧ P) ↔ P := by
    intro P
    constructor
    · exact fun h => h.2.2
    · exact fun h => ⟨Nat.zero_le _, by show i.val < 0 + 16; omega, h⟩
  unfold CMainApplication_UpdateHMDMatrixPose
  simp only
  split
  · rw [UpdateHMDMatrixPose_loop_classChar pHmd i c hcls]
    simp only [hrange]
  · rw [UpdateHMDMatrixPose_loop_classChar pHmd i c hcls]
    simp only [hrange]

/-- Claim C17 (stored device transform), as the code has it: after a refresh with an HMD
present, a device other than the HMD whose returned pose is valid has the 4x4 conversion of
that pose in `m_rmat4DevicePose`; the HMD's own slot (index 0) does not hold the conversion
but the result of `Matrix4_invert` on it, because the routine inverts the slot in place. -/
theorem C17_stored_device_transform (pHmd : VR_IVRSystem W)
    (m_pCompositor : VR_IVRCompositor W) (Matrix4_invert : Matrix4 → Matrix4) (s : Machine W)
    (i : Fin MAX_TRACKED_DEVICE_COUNT)
    (hvalid : ((m_pCompositor.WaitGetPoses s.world s.self.m_rTrackedDevicePose).1
      i).bPoseIsValid = true) :
    (i ≠ 0 →
      (CMainApplication_UpdateHMDMatrixPose (some pHmd) m_pCompositor Matrix4_invert
          s).self.m_rmat4DevicePose i =
        CMainApplication_ConvertSteamVRMatrixToMatrix4
          ((m_pCompositor.WaitGetPoses s.world
            s.self.m_rTrackedDevicePose).1 i).mDeviceToAbsoluteTracking) ∧
    (i = 0 →
      (CMainApplication_UpdateHMDMatrixPose (some pHmd) m_pCompositor Matrix4_invert
          s).self.m_rmat4DevicePose i =
        Matrix4_invert (CMainApplication_ConvertSteamVRMatrixToMatrix4
          ((m_pCompositor.WaitGetPoses s.world
            s.self.m_rTrackedDevicePose).1 i).mDeviceToAbsoluteTracking)) := by
  constructor
  · intro hi
    rw [UpdateHMDMatrixPose_devicePose, if_pos hvalid, if_neg hi]
  · intro hi
    subst hi
    rw [UpdateHMDMatrixPose_devicePose, if_pos hvalid, if_pos rfl]

/-- Claim C17 at the sample frame: the HMD is 1 unit up and its pose is valid, its slot holds
the result of the inversion, which is not the conversion of the pose; the base station in
slot 3 has the identity pose and its slot holds the 4x4 identity. -/
theorem C17_witness :
    (((sampleCompositor samplePoses).WaitGetPoses (freshMachine [] []).world
      (freshMachine [] []).self.m_rTrackedDevicePose).1 0).bPoseIsValid = true ∧
    (((0 : Fin MAX_TRACKED_DEVICE_COUNT) ≠ 0 →
      (CMainApplication_UpdateHMDMatrixPose (some sampleSystem) (sampleCompositor samplePoses)
          translationInvert (freshMachine [] [])).self.m_rmat4DevicePose 0 =
        CMainApplication_ConvertSteamVRMatrixToMatrix4
          (((sampleCompositor samplePoses).WaitGetPoses (freshMachine [] []).world
            (freshMachine [] []).self.m_rTrackedDevicePose).1 0).mDeviceToAbsoluteTracking) ∧
    ((0 : Fin MAX_TRACKED_DEVICE_COUNT) = 0 →
      (CMainApplication_UpdateHMDMatrixPose (some sampleSystem) (sampleCompositor samplePoses)
          translationInvert (freshMachine [] [])).self.m_rmat4DevicePose 0 =
        translationInvert (CMainApplication_ConvertSteamVRMatrixToMatrix4
          (((sampleCompositor samplePoses).WaitGetPoses (freshMachine [] []).world
            (freshMachine [] []).self.m_rTrackedDevicePose).1 0).mDeviceToAbsoluteTracking))) ∧
    (CMainApplication_UpdateHMDMatrixPose (some sampleSystem) (sampleCompositor samplePoses)
        translationInvert (freshMachine [] [])).self.m_rmat4DevicePose 0 ≠
      CMainApplication_ConvertSteamVRMatrixToMatrix4 (translationPose 0 1 0) ∧
    (CMainApplication_UpdateHMDMatrixPose (some sampleSystem) (sampleCompositor samplePoses)
        translationInvert (freshMachine [] [])).self.m_rmat4DevicePose 3 = Matrix4_identity :=
  ⟨by decide,
   C17_stored_device_transform sampleSystem (sampleCompositor samplePoses) translationInvert
     (freshMachine [] []) 0 (by decide),
   by decide, by decide⟩

/-- Claim C20 (class-tag mapping): when the refresh sees a valid pose for a device whose class
character is still 0, and the device class query answers `c` for that device, the class
character becomes the character of `c`: `C` for a controller, `H` for the HMD, `I` for an
invalid class, `G` for a generic tracker, `T` for a tracking reference and `?` for any other
class value. -/
theorem C20_class_tag (pHmd : VR_IVRSystem W) (m_pCompositor : VR_IVRCompositor W)
    (Matrix4_invert : Matrix4 → Matrix4) (s : Machine W)
    (i : Fin MAX_TRACKED_DEVICE_COUNT) (c : ETrackedDeviceClass)
    (hcls : ∀ w, (pHmd.GetTrackedDeviceClass w i.val).1 = c)
    (hvalid : ((m_pCompositor.WaitGetPoses s.world s.self.m_rTrackedDevicePose).1
      i).bPoseIsValid = true)
    (hunset : s.self.m_rDevClassChar i = 0) :
    (CMainApplication_UpdateHMDMatrixPose (some pHmd) m_pCompositor Matrix4_invert
        s).self.m_rDevClassChar i = classChar c ∧
    classChar c =
      (match c with
        | .TrackedDeviceClass_Controller => Char.toNat 'C'
        | .TrackedDeviceClass_HMD => Char.toNat 'H'
        | .TrackedDeviceClass_Invalid => Char.toNat 'I'
        | .TrackedDeviceClass_GenericTracker => Char.toNat 'G'
        | .TrackedDeviceClass_TrackingReference => Char.toNat 'T'
        | .TrackedDeviceClass_Other _ => Char.toNat '?') := by
  constructor
  · rw [UpdateHMDMatrixPose_classChar pHmd m_pCompositor Matrix4_invert s i c hcls,
      if_pos ⟨hvalid, hunset⟩]
  · cases c <;> rfl

/-- Claim C20 at the sample frame: the device in slot 5 has a class value the switch does not
name, its pose is valid and its class character is 0; after the refresh the character is
`?` (63). -/
theorem C20_witness :
    (∀ w, ((sampleSystem (W := List EVRRenderModelError × List EVRRenderModelError)
      ).GetTrackedDeviceClass w (5 : Fin MAX_TRACKED_DEVICE_COUNT).val).1 =
        .TrackedDeviceClass_Other 5) ∧
    (((sampleCompositor samplePoses).WaitGetPoses (freshMachine [] []).world
      (freshMachine [] []).self.m_rTrackedDevicePose).1 5).bPoseIsValid = true ∧
    (freshMachine [] []).self.m_rDevClassChar 5 = 0 ∧
    ((CMainApplication_UpdateHMDMatrixPose (some sampleSystem) (sampleCompositor samplePoses)
        translationInvert (freshMachine [] [])).self.m_rDevClassChar 5 =
      classChar (.TrackedDeviceClass_Other 5) ∧
    classChar (.TrackedDeviceClass_Other 5) = 63) :=
  ⟨fun _ => rfl, by decide, by decide,
   C20_class_tag sampleSystem (sampleCompositor samplePoses) translationInvert
     (freshMachine [] []) 5 (.TrackedDeviceClass_Other 5) (fun _ => rfl) (by decide)
     (by decide)⟩

/-! ## The set of devices with a valid pose -/

theorem validPosesFrom_zero (poses : Fin MAX_TRACKED_DEVICE_COUNT → TrackedDevicePose_t)
    (nDevice : Nat) : validPosesFrom poses nDevice 0 = ∅ := by
  unfold validPosesFrom
  apply Finset.filter_eq_empty_iff.2
  rintro i _ ⟨h1, h2, _⟩
  omega

theorem validPosesFrom_of_ge (poses : Fin MAX_TRACKED_DEVICE_COUNT → TrackedDevicePose_t)
    (nDevice n : Nat) (h : ¬ nDevice < k_unMaxTrackedDeviceCount) :
    validPosesFrom poses nDevice n = ∅ := by
  unfold validPosesFrom
  apply Finset.filter_eq_empty_iff.2
  rintro i _ ⟨h1, _, _⟩
  have h16 : i.val < 16 := i.isLt
  have : ¬ nDevice < 16 := h
  omega

theorem validPosesFrom_not_mem (poses : Fin MAX_TRACKED_DEVICE_COUNT → TrackedDevicePose_t)
    (nDevice n : Nat) (h : nDevice < k_unMaxTrackedDeviceCount) :
    (⟨nDevice, h⟩ : Fin MAX_TRACKED_DEVICE_COUNT) ∉ validPosesFrom poses (nDevice + 1) n := by
  unfold validPosesFrom
  rw [Finset.mem_filter]
  rintro ⟨_, h1, _⟩
  have : nDevice + 1 ≤ nDevice := h1
  omega

theorem validPosesFrom_succ_of_valid
    (poses : Fin MAX_TRACKED_DEVICE_COUNT → TrackedDevicePose_t) (nDevice n : Nat)
    (h : nDevice < k_unMaxTrackedDeviceCount)
    (hv : (poses ⟨nDevice, h⟩).bPoseIsValid = true) :
    validPosesFrom poses nDevice (n + 1) =
      insert ⟨nDevice, h⟩ (validPosesFrom poses (nDevice + 1) n) := by
  unfold validPosesFrom
  ext i
  rw [Finset.mem_insert, Finset.mem_filter, Finset.mem_filter]
  constructor
  · rintro ⟨_, h1, h2, h3⟩
    by_cases hi : i = ⟨nDevice, h⟩
    · exact Or.inl hi
    · have hne : i.val ≠ nDevice := fun e => hi (Fin.ext e)
      exact Or.inr ⟨Finset.mem_univ _, by omega, by omega, h3⟩
  · rintro (hi | ⟨_, h1, h2, h3⟩)
    · subst hi
      exact ⟨Finset.mem_univ _, le_refl _, by show nDevice < nDevice + (n + 1); omega, hv⟩
    · exact ⟨Finset.mem_univ _, by omega, by omega, h3⟩

theorem validPosesFrom_succ_of_invalid
    (poses : Fin MAX_TRACKED_DEVICE_COUNT → TrackedDevicePose_t) (nDevice n : Nat)
    (h : nDevice < k_unMaxTrackedDeviceCount)
    (hv : ¬ (poses ⟨nDevice, h⟩).bPoseIsValid = true) :
    validPosesFrom poses nDevice (n + 1) = validPosesFrom poses (nDevice + 1) n := by
  unfold validPosesFrom
  ext i
  rw [Finset.mem_filter, Finset.mem_filter]
  constructor
  · rintro ⟨_, h1, h2, h3⟩
    have hne : i.val ≠ nDevice := by
      intro e
      have : i = ⟨nDevice, h⟩ := Fin.ext e
      subst this
      exact hv h3
    exact ⟨Finset.mem_univ _, by omega, by omega, h3⟩
  · rintro ⟨_, h1, h2, h3⟩
    exact ⟨Finset.mem_univ _, by omega, by omega, h3⟩

theorem validPosesFrom_all (poses : Fin MAX_TRACKED_DEVICE_COUNT → TrackedDevicePose_t) :
    validPosesFrom poses 0 k_unMaxTrackedDeviceCount = devicesWithValidPose poses := by
  unfold validPosesFrom devicesWithValidPose
  ext i
  rw [Finset.mem_filter, Finset.mem_filter]
  have h16 : i.val < 16 := i.isLt
  constructor
  · rintro ⟨_, _, _, h3⟩
    exact ⟨Finset.mem_univ _, h3⟩
  · rintro ⟨_, h3⟩
    exact ⟨Finset.mem_univ _, Nat.zero_le _, by show i.val < 0 + 16; omega, h3⟩

/-! ## The frame of the pose loop -/

theorem classChar_ne_zero (c : ETrackedDeviceClass) : classChar c ≠ 0 := by
  cases c <;> simp [classChar]

theorem UpdateHMDMatrixPose_body_frame (pHmd : VR_IVRSystem W) (s : Machine W)
    (i : Fin MAX_TRACKED_DEVICE_COUNT) :
    (UpdateHMDMatrixPose_body pHmd s i).self.m_mat4HMDPose = s.self.m_mat4HMDPose ∧
      (UpdateHMDMatrixPose_body pHmd s i).self.m_mat4eyePosLeft = s.self.m_mat4eyePosLeft ∧
      (UpdateHMDMatrixPose_body pHmd s i).self.m_mat4eyePosRight = s.self.m_mat4eyePosRight ∧
      (UpdateHMDMatrixPose_body pHmd s i).self.m_mat4ProjectionLeft =
        s.self.m_mat4ProjectionLeft ∧
      (UpdateHMDMatrixPose_body pHmd s i).self.m_mat4ProjectionRight =
        s.self.m_mat4ProjectionRight ∧
      (UpdateHMDMatrixPose_body pHmd s i).self.m_vecRenderModels = s.self.m_vecRenderModels ∧
      (UpdateHMDMatrixPose_body pHmd s i).self.m_rTrackedDeviceToRenderModel =
        s.self.m_rTrackedDeviceToRenderModel ∧
      (UpdateHMDMatrixPose_body pHmd s i).self.m_rbShowTrackedDevice =
        s.self.m_rbShowTrackedDevice ∧
      (UpdateHMDMatrixPose_body pHmd s i).heap = s.heap ∧
      (UpdateHMDMatrixPose_body pHmd s i).brk = s.brk := by
  unfold UpdateHMDMatrixPose_body
  simp only
  split <;> exact ⟨rfl, rfl, rfl, rfl, rfl, rfl, rfl, rfl, rfl, rfl⟩

theorem UpdateHMDMatrixPose_loop_frame (pHmd : VR_IVRSystem W) (n nDevice : Nat)
    (s : Machine W) :
    (UpdateHMDMatrixPose_loop pHmd n nDevice s).self.m_mat4HMDPose = s.self.m_mat4HMDPose ∧
      (UpdateHMDMatrixPose_loop pHmd n nDevice s).self.m_mat4eyePosLeft =
        s.self.m_mat4eyePosLeft ∧
      (UpdateHMDMatrixPose_loop pHmd n nDevice s).self.m_mat4eyePosRight =
        s.self.m_mat4eyePosRight ∧
      (UpdateHMDMatrixPose_loop pHmd n nDevice s).self.m_mat4ProjectionLeft =
        s.self.m_mat4ProjectionLeft ∧
      (UpdateHMDMatrixPose_loop pHmd n nDevice s).self.m_mat4ProjectionRight =
        s.self.m_mat4ProjectionRight ∧
      (UpdateHMDMatrixPose_loop pHmd n nDevice s).self.m_vecRenderModels =
        s.self.m_vecRenderModels ∧
      (UpdateHMDMatrixPose_loop pHmd n nDevice s).self.m_rTrackedDeviceToRenderModel =
        s.self.m_rTrackedDeviceToRenderModel ∧
      (UpdateHMDMatrixPose_loop pHmd n nDevice s).self.m_rbShowTrackedDevice =
        s.self.m_rbShowTrackedDevice ∧
      (UpdateHMDMatrixPose_loop pHmd n nDevice s).heap = s.heap ∧
      (UpdateHMDMatrixPose_loop pHmd n nDevice s).brk = s.brk := by
  induction n generalizing nDevice s with
  | zero => exact ⟨rfl, rfl, rfl, rfl, rfl, rfl, rfl, rfl, rfl, rfl⟩
  | succ n ih =>
    unfold UpdateHMDMatrixPose_loop
    split
    · rename_i hlt
      split
      · obtain ⟨a1, a2, a3, a4, a5, a6, a7, a8, a9, a10⟩ :=
          ih (nDevice + 1) (UpdateHMDMatrixPose_body pHmd s ⟨nDevice, hlt⟩)
        obtain ⟨b1, b2, b3, b4, b5, b6, b7, b8, b9, b10⟩ :=
          UpdateHMDMatrixPose_body_frame pHmd s ⟨nDevice, hlt⟩
        exact ⟨a1.trans b1, a2.trans b2, a3.trans b3, a4.trans b4, a5.trans b5, a6.trans b6,
          a7.trans b7, a8.trans b8, a9.trans b9, a10.trans b10⟩
      · exact ih (nDevice + 1) s
    · exact ⟨rfl, rfl, rfl, rfl, rfl, rfl, rfl, rfl, rfl, rfl⟩

/-! ## Class characters in the pose loop -/

theorem UpdateHMDMatrixPose_body_classChar_other (pHmd : VR_IVRSystem W) (s : Machine W)
    (i j : Fin MAX_TRACKED_DEVICE_COUNT) (hji : j ≠ i) :
    (UpdateHMDMatrixPose_body pHmd s i).self.m_rDevClassChar j = s.self.m_rDevClassChar j := by
  obtain ⟨_, _, b3, _⟩ := UpdateHMDMatrixPose_body_spec pHmd s i
  rw [b3]
  split
  · exact Function.update_noteq hji _ _
  · rfl

theorem UpdateHMDMatrixPose_body_classChar_set (pHmd : VR_IVRSystem W) (s : Machine W)
    (i : Fin MAX_TRACKED_DEVICE_COUNT) (hset : s.self.m_rDevClassChar i ≠ 0) :
    (UpdateHMDMatrixPose_body pHmd s i).self.m_rDevClassChar = s.self.m_rDevClassChar := by
  obtain ⟨_, _, b3, _⟩ := UpdateHMDMatrixPose_body_spec pHmd s i
  rw [b3, if_neg hset]

theorem UpdateHMDMatrixPose_body_classChar_ne_zero (pHmd : VR_IVRSystem W) (s : Machine W)
    (i : Fin MAX_TRACKED_DEVICE_COUNT) :
    (UpdateHMDMatrixPose_body pHmd s i).self.m_rDevClassChar i ≠ 0 := by
  obtain ⟨_, _, b3, _⟩ := UpdateHMDMatrixPose_body_spec pHmd s i
  rw [b3]
  split
  · rw [Function.update_same]
    exact classChar_ne_zero _
  · assumption

/-- The pose loop leaves the class character of a device alone unless the loop passes the
device, its pose is valid and its character is still 0. -/
theorem UpdateHMDMatrixPose_loop_classChar_keep (pHmd : VR_IVRSystem W)
    (i : Fin MAX_TRACKED_DEVICE_COUNT) (n nDevice : Nat) (s : Machine W)
    (h : ¬ (nDevice ≤ i.val ∧ i.val < nDevice + n ∧
      (s.self.m_rTrackedDevicePose i).bPoseIsValid = true ∧ s.self.m_rDevClassChar i = 0)) :
    (UpdateHMDMatrixPose_loop pHmd n nDevice s).self.m_rDevClassChar i =
      s.self.m_rDevClassChar i := by
  induction n generalizing nDevice s with
  | zero => rfl
  | succ n ih =>
    unfold UpdateHMDMatrixPose_loop
    split
    · rename_i hlt
      split
      · rename_i hvalid
        obtain ⟨b1, _, _, _⟩ := UpdateHMDMatrixPose_body_spec pHmd s ⟨nDevice, hlt⟩
        by_cases hi : i = ⟨nDevice, hlt⟩
        · subst hi
          have hset : s.self.m_rDevClassChar ⟨nDevice, hlt⟩ ≠ 0 := fun h0 =>
            h ⟨le_refl _, by show nDevice < nDevice + (n + 1); omega, hvalid, h0⟩
          rw [ih, UpdateHMDMatrixPose_body_classChar_set pHmd s _ hset]
          rintro ⟨h1, _⟩
          have : nDevice + 1 ≤ nDevice := h1
          omega
        · have hne : i.val ≠ nDevice := fun e => hi (Fin.ext e)
          rw [ih, UpdateHMDMatrixPose_body_classChar_other pHmd s _ i hi]
          rw [b1, UpdateHMDMatrixPose_body_classChar_other pHmd s _ i hi]
          rintro ⟨h1, h2, h3, h4⟩
          exact h ⟨by omega, by omega, h3, h4⟩
      · rename_i hinvalid
        rw [ih]
        rintro ⟨h1, h2, h3, h4⟩
        by_cases hi : i = ⟨nDevice, hlt⟩
        · subst hi
          exact hinvalid h3
        · have hne : i.val ≠ nDevice := fun e => hi (Fin.ext e)
          exact h ⟨by omega, by omega, h3, h4⟩
    · rfl

/-- Every device the pose loop passes with a valid pose has a class character other than 0
afterwards. -/
theorem UpdateHMDMatrixPose_loop_classChar_ne_zero (pHmd : VR_IVRSystem W)
    (i : Fin MAX_TRACKED_DEVICE_COUNT) (n nDevice : Nat) (s : Machine W)
    (hi : i ∈ validPosesFrom s.self.m_rTrackedDevicePose nDevice n) :
    (UpdateHMDMatrixPose_loop pHmd n nDevice s).self.m_rDevClassChar i ≠ 0 := by
  induction n generalizing nDevice s with
  | zero =>
    rw [validPosesFrom_zero] at hi
    exact absurd hi (Finset.not_mem_empty _)
  | succ n ih =>
    unfold UpdateHMDMatrixPose_loop
    split
    · rename_i hlt
      split
      · rename_i hvalid
        obtain ⟨b1, _, _, _⟩ := UpdateHMDMatrixPose_body_spec pHmd s ⟨nDevice, hlt⟩
        rw [validPosesFrom_succ_of_valid _ _ _ hlt hvalid, Finset.mem_insert] at hi
        rcases hi with hi | hi
        · subst hi
          rw [UpdateHMDMatrixPose_loop_classChar_keep]
          · exact UpdateHMDMatrixPose_body_classChar_ne_zero pHmd s _
          · rintro ⟨h1, _⟩
            have : nDevice + 1 ≤ nDevice := h1
            omega
        · apply ih
          rw [b1]
          exact hi
      · rename_i hinvalid
        rw [validPosesFrom_succ_of_invalid _ _ _ hlt hinvalid] at hi
        exact ih _ _ hi
    · rename_i hge
      rw [validPosesFrom_of_ge _ _ _ hge] at hi
      exact absurd hi (Finset.not_mem_empty _)

/-! ## The pose count and the pose-class pointer in the pose loop -/

theorem UpdateHMDMatrixPose_loop_count (pHmd : VR_IVRSystem W) (n nDevice : Nat)
    (s : Machine W) :
    (UpdateHMDMatrixPose_loop pHmd n nDevice s).self.m_iValidPoseCount =
      s.self.m_iValidPoseCount +
        ((validPosesFrom s.self.m_rTrackedDevicePose nDevice n).card : Int) := by
  induction n generalizing nDevice s with
  | zero =>
    rw [validPosesFrom_zero]
    simp [UpdateHMDMatrixPose_loop]
  | succ n ih =>
    unfold UpdateHMDMatrixPose_loop
    split
    · rename_i hlt
      split
      · rename_i hvalid
        obtain ⟨b1, _, _, b4⟩ := UpdateHMDMatrixPose_body_spec pHmd s ⟨nDevice, hlt⟩
        rw [ih, b1, b4, validPosesFrom_succ_of_valid _ _ _ hlt hvalid,
          Finset.card_insert_of_not_mem (validPosesFrom_not_mem _ _ _ hlt)]
        push_cast
        ring
      · rename_i hinvalid
        rw [ih, validPosesFrom_succ_of_invalid _ _ _ hlt hinvalid]
    · rename_i hge
      rw [validPosesFrom_of_ge _ _ _ hge]
      simp

theorem UpdateHMDMatrixPose_body_str (pHmd : VR_IVRSystem W) (s : Machine W)
    (i : Fin MAX_TRACKED_DEVICE_COUNT) :
    (UpdateHMDMatrixPose_body pHmd s i).self.m_strPoseClasses.base =
        s.self.m_strPoseClasses.base ∧
      (UpdateHMDMatrixPose_body pHmd s i).self.m_strPoseClasses.offset =
        s.self.m_strPoseClasses.offset +
          ((UpdateHMDMatrixPose_body pHmd s i).self.m_rDevClassChar i : Int) := by
  unfold UpdateHMDMatrixPose_body
  simp only
  split <;> exact ⟨rfl, rfl⟩

/-- What the pose loop does to `m_strPoseClasses`: the pointer keeps its base and is advanced
by the class character of every device with a valid pose. -/
theorem UpdateHMDMatrixPose_loop_str (pHmd : VR_IVRSystem W) (n nDevice : Nat)
    (s : Machine W) :
    (UpdateHMDMatrixPose_loop pHmd n nDevice s).self.m_strPoseClasses.base =
        s.self.m_strPoseClasses.base ∧
      (UpdateHMDMatrixPose_loop pHmd n nDevice s).self.m_strPoseClasses.offset =
        s.self.m_strPoseClasses.offset +
          Finset.sum (validPosesFrom s.self.m_rTrackedDevicePose nDevice n) fun i =>
            ((UpdateHMDMatrixPose_loop pHmd n nDevice s).self.m_rDevClassChar i : Int) := by
  induction n generalizing nDevice s with
  | zero =>
    rw [validPosesFrom_zero]
    simp [UpdateHMDMatrixPose_loop]
  | succ n ih =>
    unfold UpdateHMDMatrixPose_loop
    split
    · rename_i hlt
      split
      · rename_i hvalid
        obtain ⟨b1, _, _, _⟩ := UpdateHMDMatrixPose_body_spec pHmd s ⟨nDevice, hlt⟩
        obtain ⟨c1, c2⟩ := UpdateHMDMatrixPose_body_str pHmd s ⟨nDevice, hlt⟩
        obtain ⟨i1, i2⟩ := ih (nDevice + 1) (UpdateHMDMatrixPose_body pHmd s ⟨nDevice, hlt⟩)
        refine ⟨i1.trans c1, ?_⟩
        have hkeep : (UpdateHMDMatrixPose_loop pHmd n (nDevice + 1)
            (UpdateHMDMatrixPose_body pHmd s ⟨nDevice, hlt⟩)).self.m_rDevClassChar
              ⟨nDevice, hlt⟩ =
            (UpdateHMDMatrixPose_body pHmd s ⟨nDevice, hlt⟩).self.m_rDevClassChar
              ⟨nDevice, hlt⟩ := by
          apply UpdateHMDMatrixPose_loop_classChar_keep
          rintro ⟨h1, _⟩
          have : nDevice + 1 ≤ nDevice := h1
          omega
        rw [i2, c2, b1, validPosesFrom_succ_of_valid _ _ _ hlt hvalid,
          Finset.sum_insert (validPosesFrom_not_mem _ _ _ hlt), hkeep]
        ring
      · rename_i hinvalid
        rw [validPosesFrom_succ_of_invalid _ _ _ hlt hinvalid]
        exact ih (nDevice + 1) s
    · rename_i hge
      rw [validPosesFrom_of_ge _ _ _ hge]
      simp

/-! ## The frame and the counters of `CMainApplication_UpdateHMDMatrixPose` -/

theorem UpdateHMDMatrixPose_none (m_pCompositor : VR_IVRCompositor W)
    (Matrix4_invert : Matrix4 → Matrix4) (s : Machine W) :
    CMainApplication_UpdateHMDMatrixPose none m_pCompositor Matrix4_invert s = s := rfl

/-- The refresh writes neither the cached eye matrices, nor the cache, nor the heap of models,
nor the device slot table, nor the visibility flags. -/
theorem UpdateHMDMatrixPose_frame (m_pHMD : Option (VR_IVRSystem W))
    (m_pCompositor : VR_IVRCompositor W) (Matrix4_invert : Matrix4 → Matrix4)
    (s : Machine W) :
    (CMainApplication_UpdateHMDMatrixPose m_pHMD m_pCompositor Matrix4_invert
        s).self.m_mat4eyePosLeft = s.self.m_mat4eyePosLeft ∧
      (CMainApplication_UpdateHMDMatrixPose m_pHMD m_pCompositor Matrix4_invert
        s).self.m_mat4eyePosRight = s.self.m_mat4eyePosRight ∧
      (CMainApplication_UpdateHMDMatrixPose m_pHMD m_pCompositor Matrix4_invert
        s).self.m_mat4ProjectionLeft = s.self.m_mat4ProjectionLeft ∧
      (CMainApplication_UpdateHMDMatrixPose m_pHMD m_pCompositor Matrix4_invert
        s).self.m_mat4ProjectionRight = s.self.m_mat4ProjectionRight ∧
      (CMainApplication_UpdateHMDMatrixPose m_pHMD m_pCompositor Matrix4_invert
        s).self.m_vecRenderModels = s.self.m_vecRenderModels ∧
      (CMainApplication_UpdateHMDMatrixPose m_pHMD m_pCompositor Matrix4_invert
        s).self.m_rTrackedDeviceToRenderModel = s.self.m_rTrackedDeviceToRenderModel ∧
      (CMainApplication_UpdateHMDMatrixPose m_pHMD m_pCompositor Matrix4_invert
        s).self.m_rbShowTrackedDevice = s.self.m_rbShowTrackedDevice ∧
      (CMainApplication_UpdateHMDMatrixPose m_pHMD m_pCompositor Matrix4_invert
        s).heap = s.heap ∧
      (CMainApplication_UpdateHMDMatrixPose m_pHMD m_pCompositor Matrix4_invert
        s).brk = s.brk := by
  cases m_pHMD with
  | none => exact ⟨rfl, rfl, rfl, rfl, rfl, rfl, rfl, rfl, rfl⟩
  | some pHmd =>
    unfold CMainApplication_UpdateHMDMatrixPose
    simp only
    split
    · simp only [UpdateHMDMatrixPose_loop_frame, and_self]
    · simp only [UpdateHMDMatrixPose_loop_frame, and_self]

/-- The refresh leaves the head pose alone when the pose of the HMD is not valid. -/
theorem UpdateHMDMatrixPose_headPose_keep (m_pHMD : Option (VR_IVRSystem W))
    (m_pCompositor : VR_IVRCompositor W) (Matrix4_invert : Matrix4 → Matrix4) (s : Machine W)
    (hinvalid : ((CMainApplication_UpdateHMDMatrixPose m_pHMD m_pCompositor Matrix4_invert
      s).self.m_rTrackedDevicePose 0).bPoseIsValid = false) :
    (CMainApplication_UpdateHMDMatrixPose m_pHMD m_pCompositor Matrix4_invert
        s).self.m_mat4HMDPose = s.self.m_mat4HMDPose := by
  cases m_pHMD with
  | none => rfl
  | some pHmd =>
    rw [UpdateHMDMatrixPose_poses] at hinvalid
    have e0 : (⟨k_unTrackedDeviceIndex_Hmd, by decide⟩ : Fin MAX_TRACKED_DEVICE_COUNT) = 0 :=
      rfl
    unfold CMainApplication_UpdateHMDMatrixPose
    simp only
    rw [e0]
    split
    · rename_i hv
      rw [UpdateHMDMatrixPose_loop_poses] at hv
      rw [hinvalid] at hv
      exact absurd hv (by decide)
    · simp only [UpdateHMDMatrixPose_loop_frame]

/-- The refresh leaves the class character of a device alone unless the returned pose of the
device is valid and its character is still 0. -/
theorem UpdateHMDMatrixPose_classChar_keep (m_pHMD : Option (VR_IVRSystem W))
    (m_pCompositor : VR_IVRCompositor W) (Matrix4_invert : Matrix4 → Matrix4) (s : Machine W)
    (i : Fin MAX_TRACKED_DEVICE_COUNT)
    (h : ¬ (((CMainApplication_UpdateHMDMatrixPose m_pHMD m_pCompositor Matrix4_invert
      s).self.m_rTrackedDevicePose i).bPoseIsValid = true ∧ s.self.m_rDevClassChar i = 0)) :
    (CMainApplication_UpdateHMDMatrixPose m_pHMD m_pCompositor Matrix4_invert
        s).self.m_rDevClassChar i = s.self.m_rDevClassChar i := by
  cases m_pHMD with
  | none => rfl
  | some pHmd =>
    rw [UpdateHMDMatrixPose_poses] at h
    unfold CMainApplication_UpdateHMDMatrixPose
    simp only
    split
    · rw [UpdateHMDMatrixPose_loop_classChar_keep]
      rintro ⟨_, _, h3, h4⟩
      exact h ⟨h3, h4⟩
    · rw [UpdateHMDMatrixPose_loop_classChar_keep]
      rintro ⟨_, _, h3, h4⟩
      exact h ⟨h3, h4⟩

/-- Every device whose returned pose is valid has a class character other than 0 after the
refresh. -/
theorem UpdateHMDMatrixPose_classChar_ne_zero (pHmd : VR_IVRSystem W)
    (m_pCompositor : VR_IVRCompositor W) (Matrix4_invert : Matrix4 → Matrix4) (s : Machine W)
    (i : Fin MAX_TRACKED_DEVICE_COUNT)
    (hvalid : ((CMainApplication_UpdateHMDMatrixPose (some pHmd) m_pCompositor Matrix4_invert
      s).self.m_rTrackedDevicePose i).bPoseIsValid = true) :
    (CMainApplication_UpdateHMDMatrixPose (some pHmd) m_pCompositor Matrix4_invert
        s).self.m_rDevClassChar i ≠ 0 := by
  rw [UpdateHMDMatrixPose_poses] at hvalid
  have hmem : i ∈ validPosesFrom
      (m_pCompositor.WaitGetPoses s.world s.self.m_rTrackedDevicePose).1 0
      k_unMaxTrackedDeviceCount := by
    rw [validPosesFrom_all]
    exact Finset.mem_filter.2 ⟨Finset.mem_univ _, hvalid⟩
  unfold CMainApplication_UpdateHMDMatrixPose
  simp only
  split
  · exact UpdateHMDMatrixPose_loop_classChar_ne_zero pHmd i _ _ _ hmem
  · exact UpdateHMDMatrixPose_loop_classChar_ne_zero pHmd i _ _ _ hmem

/-- The pose count after the refresh: the number of devices whose returned pose is valid. -/
theorem UpdateHMDMatrixPose_count (pHmd : VR_IVRSystem W)
    (m_pCompositor : VR_IVRCompositor W) (Matrix4_invert : Matrix4 → Matrix4)
    (s : Machine W) :
    (CMainApplication_UpdateHMDMatrixPose (some pHmd) m_pCompositor Matrix4_invert
        s).self.m_iValidPoseCount =
      ((devicesWithValidPose
        (m_pCompositor.WaitGetPoses s.world s.self.m_rTrackedDevicePose).1).card : Int) := by
  unfold CMainApplication_UpdateHMDMatrixPose
  simp only
  split
  · simp only [UpdateHMDMatrixPose_loop_count, validPosesFrom_all, zero_add]
  · simp only [UpdateHMDMatrixPose_loop_count, validPosesFrom_all, zero_add]

/-- The pointer `m_strPoseClasses` after the refresh: the literal `""` it was set to, moved by
the sum of the class characters of the devices whose returned pose is valid. -/
theorem UpdateHMDMatrixPose_str (pHmd : VR_IVRSystem W)
    (m_pCompositor : VR_IVRCompositor W) (Matrix4_invert : Matrix4 → Matrix4)
    (s : Machine W) :
    (CMainApplication_UpdateHMDMatrixPose (some pHmd) m_pCompositor Matrix4_invert
        s).self.m_strPoseClasses.base = [] ∧
      (CMainApplication_UpdateHMDMatrixPose (some pHmd) m_pCompositor Matrix4_invert
        s).self.m_strPoseClasses.offset =
        Finset.sum (devicesWithValidPose
          (CMainApplication_UpdateHMDMatrixPose (some pHmd) m_pCompositor Matrix4_invert
            s).self.m_rTrackedDevicePose) fun i =>
          ((CMainApplication_UpdateHMDMatrixPose (some pHmd) m_pCompositor Matrix4_invert
            s).self.m_rDevClassChar i : Int) := by
  rw [UpdateHMDMatrixPose_poses]
  unfold CMainApplication_UpdateHMDMatrixPose
  simp only
  split
  · simp only [UpdateHMDMatrixPose_loop_str, validPosesFrom_all, zero_add, and_self]
  · simp only [UpdateHMDMatrixPose_loop_str, validPosesFrom_all, zero_add, and_self]

/-- Claim C21 (class-tag immutability): once the class character of a device is not 0, any
number of later refreshes leaves it as it is, with or without an HMD, whatever poses the
compositor returns and whatever class the runtime reports; and running the body of the pose
loop (which holds the tag assignment) twice for a device gives the same character as running
it once, whatever the two runtimes answer. -/
theorem C21_class_tag_immutable (m_pHMD : Option (VR_IVRSystem W))
    (m_pCompositor : VR_IVRCompositor W) (Matrix4_invert : Matrix4 → Matrix4) (s : Machine W)
    (i : Fin MAX_TRACKED_DEVICE_COUNT) (hset : s.self.m_rDevClassChar i ≠ 0) (n : Nat) :
    ((CMainApplication_UpdateHMDMatrixPose m_pHMD m_pCompositor Matrix4_invert)^[n]
        s).self.m_rDevClassChar i = s.self.m_rDevClassChar i ∧
    ∀ (pHmd pHmd2 : VR_IVRSystem W) (s0 : Machine W),
      (UpdateHMDMatrixPose_body pHmd2 (UpdateHMDMatrixPose_body pHmd s0 i)
          i).self.m_rDevClassChar i =
        (UpdateHMDMatrixPose_body pHmd s0 i).self.m_rDevClassChar i := by
  constructor
  · induction n generalizing s with
    | zero => rfl
    | succ n ih =>
      have h1 : (CMainApplication_UpdateHMDMatrixPose m_pHMD m_pCompositor Matrix4_invert
          s).self.m_rDevClassChar i = s.self.m_rDevClassChar i :=
        UpdateHMDMatrixPose_classChar_keep m_pHMD m_pCompositor Matrix4_invert s i
          (fun h => hset h.2)
      rw [Function.iterate_succ_apply, ih _ (by rw [h1]; exact hset), h1]
  · intro pHmd pHmd2 s0
    rw [UpdateHMDMatrixPose_body_classChar_set pHmd2 _ i
      (UpdateHMDMatrixPose_body_classChar_ne_zero pHmd s0 i)]

/-- Claim C21 at the sample frame: after one refresh the controller in slot 1 has the class
character `C` (67); three more refreshes leave it. -/
theorem C21_witness :
    (CMainApplication_UpdateHMDMatrixPose (some sampleSystem) (sampleCompositor samplePoses)
      translationInvert (freshMachine [] [])).self.m_rDevClassChar 1 ≠ 0 ∧
    (((CMainApplication_UpdateHMDMatrixPose (some sampleSystem) (sampleCompositor samplePoses)
        translationInvert)^[3]
      (CMainApplication_UpdateHMDMatrixPose (some sampleSystem) (sampleCompositor samplePoses)
        translationInvert (freshMachine [] []))).self.m_rDevClassChar 1 =
      (CMainApplication_UpdateHMDMatrixPose (some sampleSystem) (sampleCompositor samplePoses)
        translationInvert (freshMachine [] [])).self.m_rDevClassChar 1 ∧
    ∀ (pHmd pHmd2 : VR_IVRSystem (List EVRRenderModelError × List EVRRenderModelError))
      (s0 : Machine (List EVRRenderModelError × List EVRRenderModelError)),
      (UpdateHMDMatrixPose_body pHmd2 (UpdateHMDMatrixPose_body pHmd s0 1)
          1).self.m_rDevClassChar 1 =
        (UpdateHMDMatrixPose_body pHmd s0 1).self.m_rDevClassChar 1) ∧
    (CMainApplication_UpdateHMDMatrixPose (some sampleSystem) (sampleCompositor samplePoses)
      translationInvert (freshMachine [] [])).self.m_rDevClassChar 1 = 67 :=
  ⟨by decide,
   C21_class_tag_immutable (some sampleSystem) (sampleCompositor samplePoses) translationInvert
     (CMainApplication_UpdateHMDMatrixPose (some sampleSystem) (sampleCompositor samplePoses)
       translationInvert (freshMachine [] [])) 1 (by decide) 3,
   by decide⟩

/-- Claim C22 (valid-pose count): after a refresh with an HMD present, `m_iValidPoseCount` is
the number of device indices whose returned pose is valid, whatever it was before; and of two
refreshes whose returned poses have the same validity except that slot `k` is not valid in the
first and valid in the second, the second leaves a count that is larger by exactly 1. -/
theorem C22_valid_pose_count (pHmd : VR_IVRSystem W) (m_pCompositor : VR_IVRCompositor W)
    (Matrix4_invert : Matrix4 → Matrix4) (s : Machine W) :
    (CMainApplication_UpdateHMDMatrixPose (some pHmd) m_pCompositor Matrix4_invert
        s).self.m_iValidPoseCount =
      ((devicesWithValidPose
        (m_pCompositor.WaitGetPoses s.world s.self.m_rTrackedDevicePose).1).card : Int) ∧
    ∀ (pHmd2 : VR_IVRSystem W) (m_pCompositor2 : VR_IVRCompositor W) (s2 : Machine W)
      (k : Fin MAX_TRACKED_DEVICE_COUNT),
      ((m_pCompositor.WaitGetPoses s.world s.self.m_rTrackedDevicePose).1 k).bPoseIsValid
        = false →
      ((m_pCompositor2.WaitGetPoses s2.world s2.self.m_rTrackedDevicePose).1 k).bPoseIsValid
        = true →
      (∀ i, i ≠ k →
        ((m_pCompositor2.WaitGetPoses s2.world s2.self.m_rTrackedDevicePose).1 i).bPoseIsValid
          = ((m_pCompositor.WaitGetPoses s.world s.self.m_rTrackedDevicePose).1
            i).bPoseIsValid) →
      (CMainApplication_UpdateHMDMatrixPose (some pHmd2) m_pCompositor2 Matrix4_invert
          s2).self.m_iValidPoseCount =
        (CMainApplication_UpdateHMDMatrixPose (some pHmd) m_pCompositor Matrix4_invert
          s).self.m_iValidPoseCount + 1 := by
  refine ⟨UpdateHMDMatrixPose_count pHmd m_pCompositor Matrix4_invert s, ?_⟩
  intro pHmd2 m_pCompositor2 s2 k h1 h2 hrest
  rw [UpdateHMDMatrixPose_count, UpdateHMDMatrixPose_count]
  have hins : devicesWithValidPose
      (m_pCompositor2.WaitGetPoses s2.world s2.self.m_rTrackedDevicePose).1 =
      insert k (devicesWithValidPose
        (m_pCompositor.WaitGetPoses s.world s.self.m_rTrackedDevicePose).1) := by
    unfold devicesWithValidPose
    ext i
    rw [Finset.mem_insert, Finset.mem_filter, Finset.mem_filter]
    by_cases hi : i = k
    · subst hi
      exact ⟨fun _ => Or.inl rfl, fun _ => ⟨Finset.mem_univ _, h2⟩⟩
    · rw [hrest i hi]
      exact ⟨fun h => Or.inr h, fun h => h.resolve_left hi⟩
  have hnot : k ∉ devicesWithValidPose
      (m_pCompositor.WaitGetPoses s.world s.self.m_rTrackedDevicePose).1 := by
    unfold devicesWithValidPose
    rw [Finset.mem_filter, h1]
    rintro ⟨_, h⟩
    exact absurd h (by decide)
  rw [hins, Finset.card_insert_of_not_mem hnot]
  push_cast
  rfl

/-- Claim C22 at the sample frame: four poses are valid, so the count is 4, also in a machine
whose count was 9 before; in the frame before, in which the base station in slot 3 had no valid
pose, the count was 3. -/
theorem C22_witness :
    (CMainApplication_UpdateHMDMatrixPose (some sampleSystem) (sampleCompositor samplePoses)
        translationInvert
        { freshMachine [] [] with
          self := { freshApp with m_iValidPoseCount := 9 } }).self.m_iValidPoseCount = 4 ∧
    (CMainApplication_UpdateHMDMatrixPose (some sampleSystem) (sampleCompositor samplePoses)
        translationInvert (freshMachine [] [])).self.m_iValidPoseCount =
      (CMainApplication_UpdateHMDMatrixPose (some sampleSystem)
        (sampleCompositor fun i => if i.val = 3 then ⟨identityPose, false⟩ else samplePoses i)
        translationInvert (freshMachine [] [])).self.m_iValidPoseCount + 1 :=
  ⟨((C22_valid_pose_count sampleSystem (sampleCompositor samplePoses) translationInvert
      { freshMachine [] [] with self := { freshApp with m_iValidPoseCount := 9 } }).1).trans
      (by decide),
   (C22_valid_pose_count sampleSystem
      (sampleCompositor fun i => if i.val = 3 then ⟨identityPose, false⟩ else samplePoses i)
      translationInvert (freshMachine [] [])).2 sampleSystem (sampleCompositor samplePoses)
      (freshMachine [] []) 3 (by decide) (by decide) (by decide)⟩

/-- Claim C23 (pose-class string), as the code has it: `m_strPoseClasses` is a `char*`, and
`+=` with a character moves the pointer instead of appending to a string.  After a refresh
with an HMD present the pointer is the literal `""` moved forward by the sum of the class
characters of the devices whose pose is valid; as soon as one pose is valid it points past the
one byte of the literal, so it is not a string at all, let alone the concatenation of the
class characters. -/
theorem C23_pose_class_pointer (pHmd : VR_IVRSystem W) (m_pCompositor : VR_IVRCompositor W)
    (Matrix4_invert : Matrix4 → Matrix4) (s : Machine W)
    (i : Fin MAX_TRACKED_DEVICE_COUNT)
    (hvalid : ((CMainApplication_UpdateHMDMatrixPose (some pHmd) m_pCompositor Matrix4_invert
      s).self.m_rTrackedDevicePose i).bPoseIsValid = true) :
    (CMainApplication_UpdateHMDMatrixPose (some pHmd) m_pCompositor Matrix4_invert
        s).self.m_strPoseClasses.base = [] ∧
    (CMainApplication_UpdateHMDMatrixPose (some pHmd) m_pCompositor Matrix4_invert
        s).self.m_strPoseClasses.offset =
      Finset.sum (devicesWithValidPose
        (CMainApplication_UpdateHMDMatrixPose (some pHmd) m_pCompositor Matrix4_invert
          s).self.m_rTrackedDevicePose) (fun j =>
        ((CMainApplication_UpdateHMDMatrixPose (some pHmd) m_pCompositor Matrix4_invert
          s).self.m_rDevClassChar j : Int)) ∧
    0 < (CMainApplication_UpdateHMDMatrixPose (some pHmd) m_pCompositor Matrix4_invert
        s).self.m_strPoseClasses.offset ∧
    (CMainApplication_UpdateHMDMatrixPose (some pHmd) m_pCompositor Matrix4_invert
        s).self.m_strPoseClasses.string? = none ∧
    (CMainApplication_UpdateHMDMatrixPose (some pHmd) m_pCompositor Matrix4_invert
        s).self.m_strPoseClasses.string? ≠
      some (poseClassString (CMainApplication_UpdateHMDMatrixPose (some pHmd) m_pCompositor
        Matrix4_invert s).self) := by
  obtain ⟨hbase, hoff⟩ := UpdateHMDMatrixPose_str pHmd m_pCompositor Matrix4_invert s
  have hpos : 0 < (CMainApplication_UpdateHMDMatrixPose (some pHmd) m_pCompositor
      Matrix4_invert s).self.m_strPoseClasses.offset := by
    rw [hoff]
    apply Finset.sum_pos
    · intro j hj
      have hj2 := (Finset.mem_filter.1 hj).2
      have := UpdateHMDMatrixPose_classChar_ne_zero pHmd m_pCompositor Matrix4_invert s j hj2
      omega
    · exact ⟨i, Finset.mem_filter.2 ⟨Finset.mem_univ _, hvalid⟩⟩
  have hnone : (CMainApplication_UpdateHMDMatrixPose (some pHmd) m_pCompositor
      Matrix4_invert s).self.m_strPoseClasses.string? = none := by
    unfold CharPtr.string?
    rw [if_neg]
    rw [hbase]
    rintro ⟨_, h2⟩
    have : ((([] : CString).length : Nat) : Int) = 0 := rfl
    omega
  refine ⟨hbase, hoff, hpos, hnone, ?_⟩
  rw [hnone]
  exact fun h => Option.noConfusion h

/-- Claim C23 at the sample frame: the poses of slots 0, 1, 3 and 5 are valid and their class
characters are `H`, `C`, `T` and `?`; the claimed string is `HCT?`, but the pointer is the
literal `""` moved by 72 + 67 + 84 + 63 = 286 bytes, which is no string. -/
theorem C23_witness :
    ((CMainApplication_UpdateHMDMatrixPose (some sampleSystem) (sampleCompositor samplePoses)
      translationInvert (freshMachine [] [])).self.m_rTrackedDevicePose 0).bPoseIsValid
        = true ∧
    ((CMainApplication_UpdateHMDMatrixPose (some sampleSystem) (sampleCompositor samplePoses)
        translationInvert (freshMachine [] [])).self.m_strPoseClasses.base = [] ∧
    (CMainApplication_UpdateHMDMatrixPose (some sampleSystem) (sampleCompositor samplePoses)
        translationInvert (freshMachine [] [])).self.m_strPoseClasses.offset =
      Finset.sum (devicesWithValidPose
        (CMainApplication_UpdateHMDMatrixPose (some sampleSystem)
          (sampleCompositor samplePoses) translationInvert
          (freshMachine [] [])).self.m_rTrackedDevicePose) (fun j =>
        ((CMainApplication_UpdateHMDMatrixPose (some sampleSystem)
          (sampleCompositor samplePoses) translationInvert
          (freshMachine [] [])).self.m_rDevClassChar j : Int)) ∧
    0 < (CMainApplication_UpdateHMDMatrixPose (some sampleSystem)
        (sampleCompositor samplePoses) translationInvert
        (freshMachine [] [])).self.m_strPoseClasses.offset ∧
    (CMainApplication_UpdateHMDMatrixPose (some sampleSystem) (sampleCompositor samplePoses)
        translationInvert (freshMachine [] [])).self.m_strPoseClasses.string? = none ∧
    (CMainApplication_UpdateHMDMatrixPose (some sampleSystem) (sampleCompositor samplePoses)
        translationInvert (freshMachine [] [])).self.m_strPoseClasses.string? ≠
      some (poseClassString (CMainApplication_UpdateHMDMatrixPose (some sampleSystem)
        (sampleCompositor samplePoses) translationInvert (freshMachine [] [])).self)) ∧
    poseClassString (CMainApplication_UpdateHMDMatrixPose (some sampleSystem)
      (sampleCompositor samplePoses) translationInvert (freshMachine [] [])).self =
        cstr "HCT?" ∧
    (CMainApplication_UpdateHMDMatrixPose (some sampleSystem) (sampleCompositor samplePoses)
      translationInvert (freshMachine [] [])).self.m_strPoseClasses =
        { base := cstr "", offset := 286 } ∧
    (CMainApplication_UpdateHMDMatrixPose (some sampleSystem) (sampleCompositor samplePoses)
      translationInvert (freshMachine [] [])).self.m_iValidPoseCount = 4 :=
  ⟨by decide,
   C23_pose_class_pointer sampleSystem (sampleCompositor samplePoses) translationInvert
     (freshMachine [] []) 0 (by decide),
   by decide, by decide, by decide⟩

/-- Claim C29 (frame of the refresh): for every device index whose pose after the refresh is
not valid, the stored transform and the class character are as before; if the pose of the HMD
(slot 0) is not valid, the head pose `m_mat4HMDPose` is as before; and in every case, with or
without an HMD, the cached eye projections and eye offsets, the cache and the models in it and
the device slot table are as before. -/
theorem C29_refresh_frame (m_pHMD : Option (VR_IVRSystem W))
    (m_pCompositor : VR_IVRCompositor W) (Matrix4_invert : Matrix4 → Matrix4)
    (s : Machine W) :
    (∀ i, ((CMainApplication_UpdateHMDMatrixPose m_pHMD m_pCompositor Matrix4_invert
        s).self.m_rTrackedDevicePose i).bPoseIsValid = false →
      (CMainApplication_UpdateHMDMatrixPose m_pHMD m_pCompositor Matrix4_invert
          s).self.m_rmat4DevicePose i = s.self.m_rmat4DevicePose i ∧
      (CMainApplication_UpdateHMDMatrixPose m_pHMD m_pCompositor Matrix4_invert
          s).self.m_rDevClassChar i = s.self.m_rDevClassChar i) ∧
    (((CMainApplication_UpdateHMDMatrixPose m_pHMD m_pCompositor Matrix4_invert
        s).self.m_rTrackedDevicePose 0).bPoseIsValid = false →
      (CMainApplication_UpdateHMDMatrixPose m_pHMD m_pCompositor Matrix4_invert
          s).self.m_mat4HMDPose = s.self.m_mat4HMDPose) ∧
    (CMainApplication_UpdateHMDMatrixPose m_pHMD m_pCompositor Matrix4_invert
        s).self.m_mat4ProjectionLeft = s.self.m_mat4ProjectionLeft ∧
    (CMainApplication_UpdateHMDMatrixPose m_pHMD m_pCompositor Matrix4_invert
        s).self.m_mat4ProjectionRight = s.self.m_mat4ProjectionRight ∧
    (CMainApplication_UpdateHMDMatrixPose m_pHMD m_pCompositor Matrix4_invert
        s).self.m_mat4eyePosLeft = s.self.m_mat4eyePosLeft ∧
    (CMainApplication_UpdateHMDMatrixPose m_pHMD m_pCompositor Matrix4_invert
        s).self.m_mat4eyePosRight = s.self.m_mat4eyePosRight ∧
    (CMainApplication_UpdateHMDMatrixPose m_pHMD m_pCompositor Matrix4_invert
        s).self.m_vecRenderModels = s.self.m_vecRenderModels ∧
    (CMainApplication_UpdateHMDMatrixPose m_pHMD m_pCompositor Matrix4_invert
        s).heap = s.heap ∧
    (CMainApplication_UpdateHMDMatrixPose m_pHMD m_pCompositor Matrix4_invert
        s).self.m_rTrackedDeviceToRenderModel = s.self.m_rTrackedDeviceToRenderModel := by
  obtain ⟨f1, f2, f3, f4, f5, f6, _, f8, _⟩ :=
    UpdateHMDMatrixPose_frame m_pHMD m_pCompositor Matrix4_invert s
  refine ⟨?_, UpdateHMDMatrixPose_headPose_keep m_pHMD m_pCompositor Matrix4_invert s,
    f3, f4, f1, f2, f5, f8, f6⟩
  intro i hinvalid
  constructor
  · cases m_pHMD with
    | none => rfl
    | some pHmd =>
      rw [UpdateHMDMatrixPose_poses] at hinvalid
      rw [UpdateHMDMatrixPose_devicePose, if_neg]
      rw [hinvalid]
      decide
  · apply UpdateHMDMatrixPose_classChar_keep
    rintro ⟨h1, _⟩
    rw [hinvalid] at h1
    exact absurd h1 (by decide)

/-- Claim C29 at the sample frame, after an earlier frame in which every pose was valid: the
pose of device 2 is not valid any more, and its stored transform and its class character `C`
(67) are kept; with a compositor that returns no valid pose at all the head pose is kept. -/
theorem C29_witness :
    ((CMainApplication_UpdateHMDMatrixPose (some sampleSystem) (sampleCompositor samplePoses)
      translationInvert
      (CMainApplication_UpdateHMDMatrixPose (some sampleSystem)
        (sampleCompositor fun _ => ⟨identityPose, true⟩) translationInvert
        (freshMachine [] []))).self.m_rTrackedDevicePose 2).bPoseIsValid = false ∧
    ((CMainApplication_UpdateHMDMatrixPose (some sampleSystem) (sampleCompositor samplePoses)
        translationInvert
        (CMainApplication_UpdateHMDMatrixPose (some sampleSystem)
          (sampleCompositor fun _ => ⟨identityPose, true⟩) translationInvert
          (freshMachine [] []))).self.m_rmat4DevicePose 2 =
      (CMainApplication_UpdateHMDMatrixPose (some sampleSystem)
        (sampleCompositor fun _ => ⟨identityPose, true⟩) translationInvert
        (freshMachine [] [])).self.m_rmat4DevicePose 2 ∧
    (CMainApplication_UpdateHMDMatrixPose (some sampleSystem) (sampleCompositor samplePoses)
        translationInvert
        (CMainApplication_UpdateHMDMatrixPose (some sampleSystem)
          (sampleCompositor fun _ => ⟨identityPose, true⟩) translationInvert
          (freshMachine [] []))).self.m_rDevClassChar 2 =
      (CMainApplication_UpdateHMDMatrixPose (some sampleSystem)
        (sampleCompositor fun _ => ⟨identityPose, true⟩) translationInvert
        (freshMachine [] [])).self.m_rDevClassChar 2) ∧
    (CMainApplication_UpdateHMDMatrixPose (some sampleSystem)
      (sampleCompositor fun _ => ⟨identityPose, true⟩) translationInvert
      (freshMachine [] [])).self.m_rDevClassChar 2 = 67 ∧
    ((CMainApplication_UpdateHMDMatrixPose (some sampleSystem)
      (sampleCompositor fun _ => ⟨identityPose, false⟩)
      translationInvert (freshMachine [] [])).self.m_rTrackedDevicePose 0).bPoseIsValid
        = false ∧
    (CMainApplication_UpdateHMDMatrixPose (some sampleSystem)
      (sampleCompositor fun _ => ⟨identityPose, false⟩)
      translationInvert (freshMachine [] [])).self.m_mat4HMDPose =
        (freshMachine [] []).self.m_mat4HMDPose :=
  ⟨by decide,
   (C29_refresh_frame (some sampleSystem) (sampleCompositor samplePoses) translationInvert
     (CMainApplication_UpdateHMDMatrixPose (some sampleSystem)
       (sampleCompositor fun _ => ⟨identityPose, true⟩) translationInvert
       (freshMachine [] []))).1 2 (by decide),
   by decide, by decide,
   (C29_refresh_frame (some sampleSystem) (sampleCompositor fun _ => ⟨identityPose, false⟩)
     translationInvert (freshMachine [] [])).2.1 (by decide)⟩

/-! ## Cached models are kept -/

/-- After a call that returned a model for `A`, the lookup for a matching name `B` finds that
model. -/
theorem scan_after_ret_some (rm : VR_IVRRenderModels W) (gl : GLDriver W) (fuel : Nat)
    (s : Machine W) (A B : CString) (p : Ptr) (s1 : Machine W) (hAB : sameName A B)
    (hA : CMainApplication_FindOrLoadRenderModel rm gl fuel s A = .ret (some p) s1) :
    FindOrLoadRenderModel_scan s1.self s1.heap B k_unMaxTrackedDeviceCount 0 = some p := by
  rcases FindOrLoad_ret_some_elim rm gl fuel s A p s1 hA with
    ⟨hscan, hs⟩ | ⟨hscan, hp, j, m, sa, tx, sb, hj, _, _, hself, _, hname, hheap, _⟩
  · subst hs
    rw [← scan_congr s1.self s1.heap hAB]
    exact hscan
  · subst hp
    exact scan_after_insert s s1 A B j hAB hscan hj hself hname hheap

/-- A call that exits leaves the cache table as it was and writes only the model it had just
allocated. -/
theorem FindOrLoad_exit_keeps (rm : VR_IVRRenderModels W) (gl : GLDriver W) (fuel : Nat)
    (s : Machine W) (name : CString) (code : Nat) (s4 : Machine W)
    (hexit : CMainApplication_FindOrLoadRenderModel rm gl fuel s name = .exit code s4) :
    s4.self = s.self ∧ ∀ q, q ≠ s.brk → s4.heap q = s.heap q := by
  obtain ⟨hno, ⟨m, s1, tx, s2, hM, hT⟩, hfull, _, hself⟩ :=
    FindOrLoad_exit_elim rm gl fuel s name code s4 hexit
  refine ⟨hself, ?_⟩
  have hscan : FindOrLoadRenderModel_scan s.self s.heap name k_unMaxTrackedDeviceCount 0 =
      none := cacheMiss_of_noMatch hno
  obtain ⟨e1, e2, e3⟩ := poll_self_eq rm fuel s name m s1 _ _ tx s2 hM hT
  obtain ⟨b1, _, _, _, b5, _⟩ := built_heap gl s2 name m tx
  rw [FindOrLoad_of_loaded rm gl fuel s name m s1 tx s2 hscan hM hT] at hexit
  rw [insert_of_full s2.brk _ (by rw [b1, e1]; exact hfull) _ 0 (by decide) (by decide)]
    at hexit
  cases hexit
  intro q hq
  simp only [dprintf, Machine.emit]
  rw [b5 q (by rw [e3]; exact hq), e2]

theorem assign_ret_keeps (pHmd : VR_IVRSystem W) (rm : VR_IVRRenderModels W)
    (gl : GLDriver W) (fuel : Nat) (s : Machine W) (unTrackedDeviceIndex : Nat)
    (s4 : Machine W) (halloc : Allocated s)
    (hret : CMainApplication_SetupRenderModelForTrackedDevice pHmd rm gl fuel s
      unTrackedDeviceIndex = .ret () s4) :
    Allocated s4 ∧ ∀ k q, s.self.m_vecRenderModels k = some q →
      s4.self.m_vecRenderModels k = some q ∧ s4.heap q = s.heap q := by
  unfold CMainApplication_SetupRenderModelForTrackedDevice at hret
  split at hret
  · cases hret
    exact ⟨halloc, fun _ _ h => ⟨h, rfl⟩⟩
  · simp only at hret
    obtain ⟨g1, g2, g3⟩ := GetTrackedDeviceString_frame pHmd s unTrackedDeviceIndex
      .Prop_RenderModelName_String
    have halloc1 : Allocated (GetTrackedDeviceString pHmd s unTrackedDeviceIndex
        .Prop_RenderModelName_String).2 := by
      unfold Allocated
      rw [g1, g3]
      exact halloc
    split at hret
    · rename_i s1 hF
      split at hret
      · cases hret
      cases hret
      obtain ⟨ha, hk⟩ := FindOrLoad_ret_keeps rm gl fuel _ _ _ s1 halloc1 hF
      obtain ⟨k1, k2, k3⟩ := GetTrackedDeviceString_frame pHmd
        (s1.emit (.freeString (GetTrackedDeviceString pHmd s unTrackedDeviceIndex
          .Prop_RenderModelName_String).1)) unTrackedDeviceIndex
        .Prop_TrackingSystemName_String
      simp only [dprintf, Machine.emit] at k1 k2 k3 ⊢
      constructor
      · unfold Allocated
        rw [k1, k3]
        exact ha
      · intro k q hq
        obtain ⟨h1, h2⟩ := hk k q (by rw [g1]; exact hq)
        rw [k1, k2, h2, g2]
        exact ⟨h1, rfl⟩
    · rename_i p s1 hF
      cases hret
      obtain ⟨ha, hk⟩ := FindOrLoad_ret_keeps rm gl fuel _ _ _ s1 halloc1 hF
      refine ⟨ha, ?_⟩
      intro k q hq
      obtain ⟨h1, h2⟩ := hk k q (by rw [g1]; exact hq)
      exact ⟨h1, by rw [h2, g2]⟩
    · cases hret
    · cases hret
    · cases hret

theorem assign_exit_keeps (pHmd : VR_IVRSystem W) (rm : VR_IVRRenderModels W)
    (gl : GLDriver W) (fuel : Nat) (s : Machine W) (unTrackedDeviceIndex : Nat) (code : Nat)
    (s4 : Machine W) (halloc : Allocated s)
    (hexit : CMainApplication_SetupRenderModelForTrackedDevice pHmd rm gl fuel s
      unTrackedDeviceIndex = .exit code s4) :
    ∀ k q, s.self.m_vecRenderModels k = some q →
      s4.self.m_vecRenderModels k = some q ∧ s4.heap q = s.heap q := by
  unfold CMainApplication_SetupRenderModelForTrackedDevice at hexit
  split at hexit
  · cases hexit
  · simp only at hexit
    obtain ⟨g1, g2, g3⟩ := GetTrackedDeviceString_frame pHmd s unTrackedDeviceIndex
      .Prop_RenderModelName_String
    split at hexit
    · split at hexit <;> cases hexit
    · cases hexit
    · rename_i c s1 hF
      cases hexit
      obtain ⟨h1, h2⟩ := FindOrLoad_exit_keeps rm gl fuel _ _ _ _ hF
      intro k q hq
      rw [h1, g1, h2 q (by rw [g3]; exact ne_of_lt (halloc k q hq)), g2]
      exact ⟨hq, rfl⟩
    · cases hexit
    · cases hexit

theorem ProcessVREvent_ret_keeps (pHmd : VR_IVRSystem W) (rm : VR_IVRRenderModels W)
    (gl : GLDriver W) (fuel : Nat) (s : Machine W) (event : VREvent_t) (s4 : Machine W)
    (halloc : Allocated s)
    (hret : CMainApplication_ProcessVREvent pHmd rm gl fuel s event = .ret () s4) :
    Allocated s4 ∧ ∀ k q, s.self.m_vecRenderModels k = some q →
      s4.self.m_vecRenderModels k = some q ∧ s4.heap q = s.heap q := by
  unfold CMainApplication_ProcessVREvent at hret
  split at hret
  · split at hret
    · rename_i s1 hA
      cases hret
      exact assign_ret_keeps pHmd rm gl fuel s _ s1 halloc hA
    · cases hret
    · cases hret
    · cases hret
  · cases hret
    exact ⟨halloc, fun _ _ h => ⟨h, rfl⟩⟩
  · cases hret
    exact ⟨halloc, fun _ _ h => ⟨h, rfl⟩⟩
  · cases hret
    exact ⟨halloc, fun _ _ h => ⟨h, rfl⟩⟩

theorem ProcessVREvent_exit_keeps (pHmd : VR_IVRSystem W) (rm : VR_IVRRenderModels W)
    (gl : GLDriver W) (fuel : Nat) (s : Machine W) (event : VREvent_t) (code : Nat)
    (s4 : Machine W) (halloc : Allocated s)
    (hexit : CMainApplication_ProcessVREvent pHmd rm gl fuel s event = .exit code s4) :
    ∀ k q, s.self.m_vecRenderModels k = some q →
      s4.self.m_vecRenderModels k = some q ∧ s4.heap q = s.heap q := by
  unfold CMainApplication_ProcessVREvent at hexit
  split at hexit
  · split at hexit
    · cases hexit
    · rename_i c s1 hA
      cases hexit
      exact assign_exit_keeps pHmd rm gl fuel s _ _ _ halloc hA
    · cases hexit
    · cases hexit
  · cases hexit
  · cases hexit
  · cases hexit

theorem runOperation_ret_keeps (pHmd : VR_IVRSystem W) (rm : VR_IVRRenderModels W)
    (gl : GLDriver W) (m_pCompositor : VR_IVRCompositor W)
    (Matrix4_invert : Matrix4 → Matrix4) (fuel : Nat) (op : Operation) (s s4 : Machine W)
    (halloc : Allocated s)
    (hret : runOperation pHmd rm gl m_pCompositor Matrix4_invert fuel op s = .ret () s4) :
    Allocated s4 ∧ ∀ k q, s.self.m_vecRenderModels k = some q →
      s4.self.m_vecRenderModels k = some q ∧ s4.heap q = s.heap q := by
  cases op with
  | find_or_load name =>
    simp only [runOperation] at hret
    split at hret
    · rename_i r s1 hF
      cases hret
      exact FindOrLoad_ret_keeps rm gl fuel s name r _ halloc hF
    · cases hret
    · cases hret
    · cases hret
  | assign d => exact assign_ret_keeps pHmd rm gl fuel s d s4 halloc hret
  | refresh_poses =>
    simp only [runOperation] at hret
    cases hret
    obtain ⟨_, _, _, _, f5, _, _, f8, f9⟩ :=
      UpdateHMDMatrixPose_frame (some pHmd) m_pCompositor Matrix4_invert s
    constructor
    · unfold Allocated
      rw [f5, f9]
      exact halloc
    · intro k q hq
      rw [f5, f8]
      exact ⟨hq, rfl⟩
  | vrEvent event => exact ProcessVREvent_ret_keeps pHmd rm gl fuel s event s4 halloc hret

theorem runOperation_exit_keeps (pHmd : VR_IVRSystem W) (rm : VR_IVRRenderModels W)
    (gl : GLDriver W) (m_pCompositor : VR_IVRCompositor W)
    (Matrix4_invert : Matrix4 → Matrix4) (fuel : Nat) (op : Operation) (code : Nat)
    (s s4 : Machine W) (halloc : Allocated s)
    (hexit : runOperation pHmd rm gl m_pCompositor Matrix4_invert fuel op s =
      .exit code s4) :
    ∀ k q, s.self.m_vecRenderModels k = some q →
      s4.self.m_vecRenderModels k = some q ∧ s4.heap q = s.heap q := by
  cases op with
  | find_or_load name =>
    simp only [runOperation] at hexit
    split at hexit
    · cases hexit
    · rename_i c s1 hF
      cases hexit
      obtain ⟨h1, h2⟩ := FindOrLoad_exit_keeps rm gl fuel s name _ _ hF
      intro k q hq
      rw [h1, h2 q (ne_of_lt (halloc k q hq))]
      exact ⟨hq, rfl⟩
    · cases hexit
    · cases hexit
  | assign d => exact assign_exit_keeps pHmd rm gl fuel s d code s4 halloc hexit
  | refresh_poses =>
    simp only [runOperation] at hexit
    cases hexit
  | vrEvent event => exact ProcessVREvent_exit_keeps pHmd rm gl fuel s event code s4 halloc hexit

/-- Claim C26 (entries are immutable and retained): from a state in which every cached model
was allocated, whatever sequence of cache lookups, device assignments, pose refreshes and VR
events the program runs, and whether the sequence returns or ends in `exit`, every model that
was in the cache before is afterwards in the same cache slot, and the `CGLRenderModel` it
points to (name, the four GL names, vertex count) is the same. -/
theorem C26_entries_retained (pHmd : VR_IVRSystem W) (rm : VR_IVRRenderModels W)
    (gl : GLDriver W) (m_pCompositor : VR_IVRCompositor W)
    (Matrix4_invert : Matrix4 → Matrix4) (fuel : Nat) (ops : List Operation)
    (s s4 : Machine W) (halloc : Allocated s)
    (hrun : (runOperations pHmd rm gl m_pCompositor Matrix4_invert fuel ops s).machine? =
      some s4) :
    ∀ k p, s.self.m_vecRenderModels k = some p →
      s4.self.m_vecRenderModels k = some p ∧ s4.heap p = s.heap p := by
  induction ops generalizing s with
  | nil =>
    simp only [runOperations, Outcome.machine?, Option.some.injEq] at hrun
    subst hrun
    exact fun _ _ h => ⟨h, rfl⟩
  | cons op rest ih =>
    unfold runOperations at hrun
    split at hrun
    · rename_i s1 hop
      obtain ⟨ha, hk⟩ := runOperation_ret_keeps pHmd rm gl m_pCompositor Matrix4_invert fuel
        op s s1 halloc hop
      intro k p hp
      obtain ⟨h1, h2⟩ := hk k p hp
      obtain ⟨h3, h4⟩ := ih s1 ha hrun k p h1
      exact ⟨h3, h4.trans h2⟩
    · rename_i c s1 hop
      simp only [Outcome.machine?, Option.some.injEq] at hrun
      subst hrun
      exact runOperation_exit_keeps pHmd rm gl m_pCompositor Matrix4_invert fuel op c s _
        halloc hop
    · simp only [Outcome.machine?] at hrun
      cases hrun
    · simp only [Outcome.machine?] at hrun
      cases hrun

/-- Claim C26 at a sample cache of two models: a lookup that loads a third model, an
assignment, a pose refresh, an activation event and a lookup that hits keep the two models in
their slots with their contents; and so does a lookup that ends in `exit` on a full cache. -/
theorem C26_witness :
    Allocated (filledMachine 2 [] []) ∧
    (∃ s4, (runOperations sampleSystem scriptedRuntime sampleGL (sampleCompositor samplePoses)
        translationInvert 1
        [.find_or_load (cstr "vr_controller"), .assign 1, .refresh_poses,
         .vrEvent ⟨.VREvent_TrackedDeviceActivated, 2⟩, .find_or_load (cstr "A")]
        (filledMachine 2 [] [])).machine? = some s4 ∧
      ∀ k p, (filledMachine 2 [] []).self.m_vecRenderModels k = some p →
        s4.self.m_vecRenderModels k = some p ∧ s4.heap p = (filledMachine 2 [] []).heap p) ∧
    Allocated (filledMachine 16 [] []) ∧
    ∃ s4, runOperations sampleSystem scriptedRuntime sampleGL (sampleCompositor samplePoses)
        translationInvert 1 [.refresh_poses, .find_or_load (cstr "zz"), .assign 1]
        (filledMachine 16 [] []) = .exit 1 s4 ∧
      ∀ k p, (filledMachine 16 [] []).self.m_vecRenderModels k = some p →
        s4.self.m_vecRenderModels k = some p ∧ s4.heap p = (filledMachine 16 [] []).heap p :=
  ⟨by decide, ⟨_, rfl,
   C26_entries_retained sampleSystem scriptedRuntime sampleGL (sampleCompositor samplePoses)
     translationInvert 1
     [.find_or_load (cstr "vr_controller"), .assign 1, .refresh_poses,
      .vrEvent ⟨.VREvent_TrackedDeviceActivated, 2⟩, .find_or_load (cstr "A")]
     (filledMachine 2 [] []) _ (by decide) rfl⟩,
   by decide, _, rfl,
   C26_entries_retained sampleSystem scriptedRuntime sampleGL (sampleCompositor samplePoses)
     translationInvert 1 [.refresh_poses, .find_or_load (cstr "zz"), .assign 1]
     (filledMachine 16 [] []) _ (by decide) rfl⟩

/-! ## The populated slots are a prefix -/

theorem packed_initialSegment {self : CMainApplication} (hpacked : Packed self) :
    ∃ n, n ≤ k_unMaxTrackedDeviceCount ∧
      ∀ i : Fin MAX_TRACKED_DEVICE_COUNT, self.m_vecRenderModels i ≠ none ↔ i.val < n := by
  rcases cacheFull_or_firstFree self with hfull | ⟨j, hj⟩
  · exact ⟨16, le_refl _, fun i => ⟨fun _ => i.isLt, fun _ => hfull i⟩⟩
  · refine ⟨j.val, le_of_lt j.isLt, fun i => ⟨fun hi => ?_, fun hi => hj.2 i hi⟩⟩
    by_contra hnot
    have hle : j ≤ i := not_lt.1 hnot
    rcases eq_or_lt_of_le hle with heq | hlt
    · rw [← heq] at hi
      exact hi hj.1
    · exact hpacked j i hlt hi hj.1

theorem cacheInv_of_empty (s : Machine W) (hempty : ∀ i, s.self.m_vecRenderModels i = none) :
    CacheInv s := by
  refine ⟨?_, ?_, ?_⟩
  · intro i j _ hj
    exact absurd (hempty j) hj
  · intro i j _ p hp
    rw [hempty i] at hp
    cases hp
  · intro i p hp
    rw [hempty i] at hp
    cases hp

/-- Claim C28 (prefix invariant and lookup completeness): starting from the empty cache, after
any returning sequence of `CMainApplication_FindOrLoadRenderModel` calls the populated cache
slots are exactly the slots `0..n-1` for some `n`, no populated slot follows an empty one, and
for every name the lookup loop, which stops at the first empty slot, finds a model if and only
if some cache slot anywhere in the table holds a model whose name matches. -/
theorem C28_prefix_invariant (rm : VR_IVRRenderModels W) (gl : GLDriver W) (fuel : Nat)
    (names : List CString) (s : Machine W) (rs : List (Option Ptr)) (s4 : Machine W)
    (hempty : ∀ i, s.self.m_vecRenderModels i = none)
    (hret : FindOrLoadRenderModel_calls rm gl fuel names s = .ret rs s4) :
    (∃ n, n ≤ k_unMaxTrackedDeviceCount ∧
      ∀ i : Fin MAX_TRACKED_DEVICE_COUNT, s4.self.m_vecRenderModels i ≠ none ↔ i.val < n) ∧
    (∀ i j : Fin MAX_TRACKED_DEVICE_COUNT, i < j →
      s4.self.m_vecRenderModels i = none → s4.self.m_vecRenderModels j = none) ∧
    ∀ name,
      (∃ p, FindOrLoadRenderModel_scan s4.self s4.heap name k_unMaxTrackedDeviceCount 0 =
        some p) ↔
      ∃ k p, s4.self.m_vecRenderModels k = some p ∧ sameName (s4.heap p).m_sModelName name := by
  obtain ⟨hpacked, _, _⟩ := cacheInv_calls rm gl fuel names s rs s4
    (cacheInv_of_empty s hempty) hret
  refine ⟨packed_initialSegment hpacked, ?_, ?_⟩
  · intro i j hij hi
    by_contra hj
    exact hpacked i j hij hj hi
  · intro name
    constructor
    · rintro ⟨p, hp⟩
      obtain ⟨k, hk, hname⟩ := scan_eq_some_elim s4.self s4.heap name _ 0 p hp
      exact ⟨k, p, hk, hname⟩
    · rintro ⟨k, p, hk, hname⟩
      cases hscan : FindOrLoadRenderModel_scan s4.self s4.heap name
          k_unMaxTrackedDeviceCount 0 with
      | some q => exact ⟨q, rfl⟩
      | none => exact absurd hname (noMatch_of_scan_none hpacked hscan k p hk)

/-- Claim C28 at a sample run from the empty cache: one failed load and three loaded models,
which sit in slots 0, 1 and 2. -/
theorem C28_witness :
    (∀ i, (freshMachine [.VRRenderModelError_Loading]
      [.VRRenderModelError_Failed 301]).self.m_vecRenderModels i = none) ∧
    ∃ rs s4, FindOrLoadRenderModel_calls scriptedRuntime sampleGL 2
        [cstr "vr_controller", cstr "generic_hmd", cstr "VR_Controller", cstr "lh_basestation"]
        (freshMachine [.VRRenderModelError_Loading] [.VRRenderModelError_Failed 301]) =
          .ret rs s4 ∧
      ((∃ n, n ≤ k_unMaxTrackedDeviceCount ∧
        ∀ i : Fin MAX_TRACKED_DEVICE_COUNT, s4.self.m_vecRenderModels i ≠ none ↔ i.val < n) ∧
      (∀ i j : Fin MAX_TRACKED_DEVICE_COUNT, i < j →
        s4.self.m_vecRenderModels i = none → s4.self.m_vecRenderModels j = none) ∧
      ∀ name,
        (∃ p, FindOrLoadRenderModel_scan s4.self s4.heap name k_unMaxTrackedDeviceCount 0 =
          some p) ↔
        ∃ k p, s4.self.m_vecRenderModels k = some p ∧
          sameName (s4.heap p).m_sModelName name) ∧
      (∀ i : Fin MAX_TRACKED_DEVICE_COUNT, s4.self.m_vecRenderModels i ≠ none ↔ i.val < 3) :=
  ⟨by decide, _, _, rfl,
   C28_prefix_invariant scriptedRuntime sampleGL 2
     [cstr "vr_controller", cstr "generic_hmd", cstr "VR_Controller", cstr "lh_basestation"]
     (freshMachine [.VRRenderModelError_Loading] [.VRRenderModelError_Failed 301]) _ _
     (by decide) rfl,
   by decide⟩

/-! ## Two devices sharing one model -/

/-- Claim C24 (shared entry): let `i` and `j` be two distinct device indices below 16, in a
state that satisfies the cache invariant.  If the assignment of device `i` succeeds, that is
`CMainApplication_FindOrLoadRenderModel` returns a model for its render-model name, and the
render-model name of device `j` matches that of device `i`, then the assignment of device `j`
that follows returns, both device slots refer to that same model, and exactly one cache slot
holds a model with that name. -/
theorem C24_shared_entry (pHmd : VR_IVRSystem W) (rm : VR_IVRRenderModels W)
    (gl : GLDriver W) (fuel : Nat) (s sF s1 : Machine W) (i j : Nat) (p : Ptr)
    (hi : i < k_unMaxTrackedDeviceCount) (hj : j < k_unMaxTrackedDeviceCount) (hij : i ≠ j)
    (hinv : CacheInv s)
    (hF : CMainApplication_FindOrLoadRenderModel rm gl fuel
      (GetTrackedDeviceString pHmd s i .Prop_RenderModelName_String).2
      (GetTrackedDeviceString pHmd s i .Prop_RenderModelName_String).1 = .ret (some p) sF)
    (h1 : CMainApplication_SetupRenderModelForTrackedDevice pHmd rm gl fuel s i = .ret () s1)
    (hname : sameName (GetTrackedDeviceString pHmd s i .Prop_RenderModelName_String).1
      (GetTrackedDeviceString pHmd s1 j .Prop_RenderModelName_String).1) :
    ∃ s2, CMainApplication_SetupRenderModelForTrackedDevice pHmd rm gl fuel s1 j = .ret () s2 ∧
      s2.self.m_rTrackedDeviceToRenderModel ⟨i, hi⟩ = some p ∧
      s2.self.m_rTrackedDeviceToRenderModel ⟨j, hj⟩ = some p ∧
      ∃ k, s2.self.m_vecRenderModels k = some p ∧
        sameName (s2.heap p).m_sModelName
          (GetTrackedDeviceString pHmd s i .Prop_RenderModelName_String).1 ∧
        ∀ k2 q, s2.self.m_vecRenderModels k2 = some q →
          sameName (s2.heap q).m_sModelName
            (GetTrackedDeviceString pHmd s i .Prop_RenderModelName_String).1 → k2 = k := by
  have hinv1 : CacheInv s1 := cacheInv_assign pHmd rm gl fuel s i s1 hinv h1
  have hs1 := (Outcome.ret.inj
    ((assign_of_ret_some pHmd rm gl fuel s i p sF hi hF).symm.trans h1)).2
  have hvec1 : s1.self.m_vecRenderModels = sF.self.m_vecRenderModels := by rw [← hs1]
  have hheap1 : s1.heap = sF.heap := by rw [← hs1]
  have hslot1 : s1.self.m_rTrackedDeviceToRenderModel ⟨i, hi⟩ = some p := by
    rw [← hs1]
    exact Function.update_same _ _ _
  obtain ⟨g1, g2, _⟩ := GetTrackedDeviceString_frame pHmd s1 j .Prop_RenderModelName_String
  have hscanF := scan_after_ret_some rm gl fuel _ _ _ p sF hname hF
  have hkeep : ∀ k q, sF.self.m_vecRenderModels k = some q →
      (GetTrackedDeviceString pHmd s1 j .Prop_RenderModelName_String).2.self.m_vecRenderModels
        k = some q ∧
      ((GetTrackedDeviceString pHmd s1 j .Prop_RenderModelName_String).2.heap
        q).m_sModelName = (sF.heap q).m_sModelName := by
    intro k q hq
    rw [g1, g2, hvec1, hheap1]
    exact ⟨hq, rfl⟩
  have hscan := scan_mono sF.self
    (GetTrackedDeviceString pHmd s1 j .Prop_RenderModelName_String).2.self sF.heap
    (GetTrackedDeviceString pHmd s1 j .Prop_RenderModelName_String).2.heap _ hkeep _ _ p
    hscanF
  have hF2 := FindOrLoad_of_scan_some rm gl fuel _ _ p hscan
  have h2 := assign_of_ret_some pHmd rm gl fuel s1 j p _ hj hF2
  have hinv2 := cacheInv_assign pHmd rm gl fuel s1 j _ hinv1 h2
  obtain ⟨k, hk, hkname⟩ := scan_eq_some_elim _ _ _ _ 0 p hscan
  have hne : (⟨i, hi⟩ : Fin MAX_TRACKED_DEVICE_COUNT) ≠ ⟨j, hj⟩ :=
    fun h => hij (Fin.mk.inj h)
  refine ⟨_, h2, ?_, ?_, k, hk, sameName_trans hkname (sameName_symm hname), ?_⟩
  · show Function.update _ _ _ _ = _
    rw [Function.update_noteq hne, g1]
    exact hslot1
  · exact Function.update_same _ _ _
  · intro k2 q hq hqname
    by_contra hk2
    exact hinv2.2.1 k2 k hk2 q hq p hk
      (sameName_trans hqname (sameName_symm (sameName_trans hkname (sameName_symm hname))))

/-- Claim C24 at the sample system: the controllers in slots 1 and 2 name their model
`vr_controller` and `VR_CONTROLLER`; after both assignments both slots refer to the model at
address 0, the only cached model with that name. -/
theorem C24_witness :
    (1 : Nat) < k_unMaxTrackedDeviceCount ∧ (2 : Nat) < k_unMaxTrackedDeviceCount ∧
    (1 : Nat) ≠ 2 ∧ CacheInv (freshMachine [] []) ∧
    ∃ sF s1,
      CMainApplication_FindOrLoadRenderModel scriptedRuntime sampleGL 1
        (GetTrackedDeviceString sampleSystem (freshMachine [] []) 1
          .Prop_RenderModelName_String).2
        (GetTrackedDeviceString sampleSystem (freshMachine [] []) 1
          .Prop_RenderModelName_String).1 = .ret (some 0) sF ∧
      CMainApplication_SetupRenderModelForTrackedDevice sampleSystem scriptedRuntime sampleGL 1
        (freshMachine [] []) 1 = .ret () s1 ∧
      sameName
        (GetTrackedDeviceString sampleSystem (freshMachine [] []) 1
          .Prop_RenderModelName_String).1
        (GetTrackedDeviceString sampleSystem s1 2 .Prop_RenderModelName_String).1 ∧
      ∃ s2, CMainApplication_SetupRenderModelForTrackedDevice sampleSystem scriptedRuntime
          sampleGL 1 s1 2 = .ret () s2 ∧
        s2.self.m_rTrackedDeviceToRenderModel ⟨1, by decide⟩ = some 0 ∧
        s2.self.m_rTrackedDeviceToRenderModel ⟨2, by decide⟩ = some 0 ∧
        ∃ k, s2.self.m_vecRenderModels k = some 0 ∧
          sameName (s2.heap 0).m_sModelName
            (GetTrackedDeviceString sampleSystem (freshMachine [] []) 1
              .Prop_RenderModelName_String).1 ∧
          ∀ k2 q, s2.self.m_vecRenderModels k2 = some q →
            sameName (s2.heap q).m_sModelName
              (GetTrackedDeviceString sampleSystem (freshMachine [] []) 1
                .Prop_RenderModelName_String).1 → k2 = k :=
  ⟨by decide, by decide, by decide, by decide, _, _, rfl, rfl, by decide,
   C24_shared_entry sampleSystem scriptedRuntime sampleGL 1 (freshMachine [] []) _ _ 1 2 0
     (by decide) (by decide) (by decide) (by decide) rfl rfl (by decide)⟩

/-! ## The cached eye matrices -/

/-- Claim C30 (cached eye matrices): with an HMD present `CMainApplication_GetHMDMatrixPoseEye`
returns `Matrix4_invert` applied to the 4x4 conversion (transpose with last row `[0,0,0,1]`) of
the runtime's eye-to-head transform, and `CMainApplication_GetHMDMatrixProjectionEye` returns
the transpose of the runtime's 4x4 projection, `out[4*c + r] = m[r][c]`; without an HMD both
return the identity matrix.  `CMainApplication_SetupCameras` stores these results for the two
eyes: without an HMD four identity matrices, with an HMD the transposed projections and the
inverted eye matrices of the answers it got. -/
theorem C30_eye_matrices (Matrix4_invert : Matrix4 → Matrix4) (s : Machine W) :
    (∀ (pHmd : VR_IVRSystem W) (nEye : Hmd_Eye),
      (CMainApplication_GetHMDMatrixPoseEye (some pHmd) Matrix4_invert s nEye).1 =
        Matrix4_invert (CMainApplication_ConvertSteamVRMatrixToMatrix4
          (pHmd.GetEyeToHeadTransform s.world nEye).1)) ∧
    (∀ (pHmd : VR_IVRSystem W) (nEye : Hmd_Eye) (r c : Fin 4),
      (CMainApplication_GetHMDMatrixProjectionEye (some pHmd) s nEye).1.m
          ⟨4 * c.val + r.val, by omega⟩ =
        (pHmd.GetProjectionMatrix s.world nEye s.self.m_fNearClip s.self.m_fFarClip).1.m r c) ∧
    (∀ nEye : Hmd_Eye,
      (CMainApplication_GetHMDMatrixPoseEye none Matrix4_invert s nEye).1 = Matrix4_identity ∧
      (CMainApplication_GetHMDMatrixProjectionEye none s nEye).1 = Matrix4_identity) ∧
    ((CMainApplication_SetupCameras none Matrix4_invert s).self.m_mat4ProjectionLeft =
        Matrix4_identity ∧
      (CMainApplication_SetupCameras none Matrix4_invert s).self.m_mat4ProjectionRight =
        Matrix4_identity ∧
      (CMainApplication_SetupCameras none Matrix4_invert s).self.m_mat4eyePosLeft =
        Matrix4_identity ∧
      (CMainApplication_SetupCameras none Matrix4_invert s).self.m_mat4eyePosRight =
        Matrix4_identity) ∧
    ∀ pHmd : VR_IVRSystem W,
      (∀ r c : Fin 4,
        (CMainApplication_SetupCameras (some pHmd) Matrix4_invert s).self.m_mat4ProjectionLeft.m
            ⟨4 * c.val + r.val, by omega⟩ =
          (pHmd.GetProjectionMatrix s.world .Eye_Left s.self.m_fNearClip
            s.self.m_fFarClip).1.m r c) ∧
      (∀ r c : Fin 4,
        (CMainApplication_SetupCameras (some pHmd) Matrix4_invert s).self.m_mat4ProjectionRight.m
            ⟨4 * c.val + r.val, by omega⟩ =
          (pHmd.GetProjectionMatrix
            (pHmd.GetProjectionMatrix s.world .Eye_Left s.self.m_fNearClip s.self.m_fFarClip).2
            .Eye_Right s.self.m_fNearClip s.self.m_fFarClip).1.m r c) ∧
      (CMainApplication_SetupCameras (some pHmd) Matrix4_invert s).self.m_mat4eyePosLeft =
        Matrix4_invert (CMainApplication_ConvertSteamVRMatrixToMatrix4
          (pHmd.GetEyeToHeadTransform
            (pHmd.GetProjectionMatrix
              (pHmd.GetProjectionMatrix s.world .Eye_Left s.self.m_fNearClip
                s.self.m_fFarClip).2
              .Eye_Right s.self.m_fNearClip s.self.m_fFarClip).2 .Eye_Left).1) ∧
      (CMainApplication_SetupCameras (some pHmd) Matrix4_invert s).self.m_mat4eyePosRight =
        Matrix4_invert (CMainApplication_ConvertSteamVRMatrixToMatrix4
          (pHmd.GetEyeToHeadTransform
            (pHmd.GetEyeToHeadTransform
              (pHmd.GetProjectionMatrix
                (pHmd.GetProjectionMatrix s.world .Eye_Left s.self.m_fNearClip
                  s.self.m_fFarClip).2
                .Eye_Right s.self.m_fNearClip s.self.m_fFarClip).2 .Eye_Left).2
            .Eye_Right).1) := by
  refine ⟨fun _ _ => rfl, ?_, fun _ => ⟨rfl, rfl⟩, ⟨rfl, rfl, rfl, rfl⟩,
    fun _ => ⟨?_, ?_, rfl, rfl⟩⟩
  · intro pHmd nEye r c
    fin_cases r <;> fin_cases c <;> rfl
  · intro r c
    fin_cases r <;> fin_cases c <;> rfl
  · intro r c
    fin_cases r <;> fin_cases c <;> rfl

/-! ## The render-model loop of `CMainApplication_RenderScene` -/

theorem finRange_drop_take_succ (d n : Nat) (h : d < MAX_TRACKED_DEVICE_COUNT) :
    ((List.finRange MAX_TRACKED_DEVICE_COUNT).drop d).take (n + 1) =
      ⟨d, h⟩ :: ((List.finRange MAX_TRACKED_DEVICE_COUNT).drop (d + 1)).take n := by
  have hlen : d < (List.finRange MAX_TRACKED_DEVICE_COUNT).length := by
    rw [List.length_finRange]
    exact h
  rw [List.drop_eq_getElem_cons hlen, List.take_succ_cons]
  congr 1
  simp

theorem finRange_drop_of_ge (d : Nat) (h : ¬ d < MAX_TRACKED_DEVICE_COUNT) :
    (List.finRange MAX_TRACKED_DEVICE_COUNT).drop d = [] := by
  apply List.drop_of_length_le
  rw [List.length_finRange]
  exact not_lt.1 h

/-- One pass of the loop body: the application struct and the heap are not written, and the
events are those of `renderModelEvents` for the class the runtime reports. -/
theorem RenderScene_device_spec (pHmd : VR_IVRSystem W)
    (Matrix4_multiply_Matrix4 : Matrix4 → Matrix4 → Matrix4) (nEye : Hmd_Eye) (b : Bool)
    (s : Machine W) (i : Fin MAX_TRACKED_DEVICE_COUNT) :
    (RenderScene_device pHmd Matrix4_multiply_Matrix4 nEye b s i).self = s.self ∧
      (RenderScene_device pHmd Matrix4_multiply_Matrix4 nEye b s i).heap = s.heap ∧
      (RenderScene_device pHmd Matrix4_multiply_Matrix4 nEye b s i).trace =
        s.trace ++ renderModelEvents Matrix4_multiply_Matrix4 s.self nEye b
          (pHmd.GetTrackedDeviceClass s.world i.val).1 i := by
  have hslot : s.self.m_rTrackedDeviceToRenderModel i = none ∨
      ∃ model, s.self.m_rTrackedDeviceToRenderModel i = some model := by
    cases s.self.m_rTrackedDeviceToRenderModel i with
    | none => exact Or.inl rfl
    | some model => exact Or.inr ⟨model, rfl⟩
  unfold RenderScene_device renderModelEvents RenderEligible
  rcases hslot with hslot | ⟨model, hslot⟩
  · simp [hslot]
  · by_cases hshow : s.self.m_rbShowTrackedDevice i = true
    · by_cases hvalid : (s.self.m_rTrackedDevicePose i).bPoseIsValid = true
      · cases b with
        | false =>
          simp [hslot, hshow, hvalid, CGLRenderModel_Draw, Machine.emit, Machine.emits]
        | true =>
          by_cases hc : (pHmd.GetTrackedDeviceClass s.world i.val).1 =
              .TrackedDeviceClass_Controller
          · simp [hslot, hshow, hvalid, hc]
          · simp [hslot, hshow, hvalid, hc, CGLRenderModel_Draw, Machine.emit, Machine.emits]
      · simp [hslot, hshow, hvalid]
    · simp [hslot, hshow]

theorem RenderScene_loop_spec (pHmd : VR_IVRSystem W)
    (Matrix4_multiply_Matrix4 : Matrix4 → Matrix4 → Matrix4) (nEye : Hmd_Eye) (b : Bool)
    (cls : Nat → ETrackedDeviceClass)
    (hcls : ∀ w d, (pHmd.GetTrackedDeviceClass w d).1 = cls d) (n d : Nat) (s : Machine W) :
    (RenderScene_loop pHmd Matrix4_multiply_Matrix4 nEye b n d s).self = s.self ∧
      (RenderScene_loop pHmd Matrix4_multiply_Matrix4 nEye b n d s).heap = s.heap ∧
      (RenderScene_loop pHmd Matrix4_multiply_Matrix4 nEye b n d s).trace =
        s.trace ++ (((List.finRange MAX_TRACKED_DEVICE_COUNT).drop d).take n).flatMap fun i =>
          renderModelEvents Matrix4_multiply_Matrix4 s.self nEye b (cls i.val) i := by
  induction n generalizing d s with
  | zero => simp [RenderScene_loop]
  | succ n ih =>
    unfold RenderScene_loop
    split
    · rename_i h
      obtain ⟨b1, b2, b3⟩ := RenderScene_device_spec pHmd Matrix4_multiply_Matrix4 nEye b s
        ⟨d, h⟩
      obtain ⟨i1, i2, i3⟩ := ih (d + 1)
        (RenderScene_device pHmd Matrix4_multiply_Matrix4 nEye b s ⟨d, h⟩)
      refine ⟨i1.trans b1, i2.trans b2, ?_⟩
      rw [i3, b3, b1, hcls, finRange_drop_take_succ d n h, List.flatMap_cons,
        List.append_assoc]
    · rename_i h
      rw [finRange_drop_of_ge d h]
      simp

theorem finRange_take_all :
    (List.finRange MAX_TRACKED_DEVICE_COUNT).take k_unMaxTrackedDeviceCount =
      List.finRange MAX_TRACKED_DEVICE_COUNT := by
  apply List.take_of_length_le
  rw [List.length_finRange]

/-- Claim C27 (render eligibility): for a runtime that reports the class `cls d` for device
`d`, `CMainApplication_RenderScene` writes nothing to the application struct, and its events
are: the clear, the cubes if they are shown, the question whether input is captured by another
process, the controller axis lines if it is not, and then for the devices 0 to 15 in order the
events of `renderModelEvents`.  A device `i` gets a `CGLRenderModel_Draw` call if and only if
it is eligible: its device slot is populated, its visibility flag is set, its pose is valid,
and it is not the case that input is captured while the device is a controller.  The draw of
an eligible device is the upload of `viewProjection(eye) * m_rmat4DevicePose[i]` followed by
`CGLRenderModel_Draw` of the model in its slot; a device that is not eligible draws
nothing. -/
theorem C27_render_eligibility (pHmd : VR_IVRSystem W)
    (Matrix4_multiply_Matrix4 : Matrix4 → Matrix4 → Matrix4)
    (cls : Nat → ETrackedDeviceClass)
    (hcls : ∀ w d, (pHmd.GetTrackedDeviceClass w d).1 = cls d) (s : Machine W)
    (nEye : Hmd_Eye) :
    (CMainApplication_RenderScene pHmd Matrix4_multiply_Matrix4 s nEye).self = s.self ∧
    (CMainApplication_RenderScene pHmd Matrix4_multiply_Matrix4 s nEye).trace =
      s.trace ++ [.gl "glClear", .gl "glEnable"] ++
        (if s.self.m_bShowCubes = true then
          RenderScene_cubes (CMainApplication_GetCurrentViewProjectionMatrix
            Matrix4_multiply_Matrix4 s.self nEye)
        else []) ++
        [.IsInputFocusCapturedByAnotherProcess] ++
        (if (pHmd.IsInputFocusCapturedByAnotherProcess s.world).1 = false then
          RenderScene_axes (CMainApplication_GetCurrentViewProjectionMatrix
            Matrix4_multiply_Matrix4 s.self nEye)
        else []) ++
        [.gl "glUseProgram"] ++
        ((List.finRange MAX_TRACKED_DEVICE_COUNT).flatMap fun i =>
          renderModelEvents Matrix4_multiply_Matrix4 s.self nEye
            (pHmd.IsInputFocusCapturedByAnotherProcess s.world).1 (cls i.val) i) ++
        [.gl "glUseProgram"] ∧
    ∀ (b : Bool) (i : Fin MAX_TRACKED_DEVICE_COUNT),
      ((∃ p, Event.CGLRenderModel_Draw p ∈
          renderModelEvents Matrix4_multiply_Matrix4 s.self nEye b (cls i.val) i) ↔
        RenderEligible s.self b (cls i.val) i) ∧
      (RenderEligible s.self b (cls i.val) i →
        ∃ model, s.self.m_rTrackedDeviceToRenderModel i = some model ∧
          renderModelEvents Matrix4_multiply_Matrix4 s.self nEye b (cls i.val) i =
            (if b = true then [Event.GetTrackedDeviceClass i.val] else []) ++
            [Event.glUniformMatrix4fv (Matrix4_multiply_Matrix4
              (CMainApplication_GetCurrentViewProjectionMatrix Matrix4_multiply_Matrix4
                s.self nEye) (s.self.m_rmat4DevicePose i)),
             Event.CGLRenderModel_Draw model] ++ CGLRenderModel_Draw_calls) ∧
      (¬ RenderEligible s.self b (cls i.val) i →
        ∀ e ∈ renderModelEvents Matrix4_multiply_Matrix4 s.self nEye b (cls i.val) i,
          e = Event.GetTrackedDeviceClass i.val) := by
  have L := fun b => RenderScene_loop_spec pHmd Matrix4_multiply_Matrix4 nEye b cls hcls
    k_unMaxTrackedDeviceCount 0
  have Lself := fun b s0 => (L b s0).1
  have Ltrace := fun b s0 => (L b s0).2.2
  refine ⟨?_, ?_, ?_⟩
  · unfold CMainApplication_RenderScene
    simp only [Machine.emit, Machine.emits, Lself]
    by_cases hcubes : s.self.m_bShowCubes = true <;>
      by_cases hcap : (pHmd.IsInputFocusCapturedByAnotherProcess s.world).1 = false <;>
      simp [hcubes, hcap, Lself]
  · unfold CMainApplication_RenderScene
    simp only [Machine.emit, Machine.emits]
    by_cases hcubes : s.self.m_bShowCubes = true <;>
      by_cases hcap : (pHmd.IsInputFocusCapturedByAnotherProcess s.world).1 = false <;>
      simp [hcubes, hcap, Ltrace, finRange_take_all]
  · intro b i
    have hslot : s.self.m_rTrackedDeviceToRenderModel i = none ∨
        ∃ model, s.self.m_rTrackedDeviceToRenderModel i = some model := by
      cases s.self.m_rTrackedDeviceToRenderModel i with
      | none => exact Or.inl rfl
      | some model => exact Or.inr ⟨model, rfl⟩
    refine ⟨?_, ?_, ?_⟩
    · by_cases hel : RenderEligible s.self b (cls i.val) i
      · refine ⟨fun _ => hel, fun _ => ?_⟩
        rcases hslot with hslot | ⟨model, hslot⟩
        · exact absurd hslot hel.1
        · refine ⟨model, ?_⟩
          unfold renderModelEvents
          rw [if_pos hel, hslot]
          simp
      · refine ⟨fun h => ?_, fun h => absurd h hel⟩
        obtain ⟨p, hp⟩ := h
        unfold renderModelEvents at hp
        rw [if_neg hel] at hp
        split at hp <;> simp at hp
    · intro hel
      rcases hslot with hslot | ⟨model, hslot⟩
      · exact absurd hslot hel.1
      · refine ⟨model, hslot, ?_⟩
        unfold renderModelEvents
        rw [if_pos hel, hslot]
        obtain ⟨h1, h2, h3, _⟩ := hel
        cases b <;> simp [h1, h2, h3]
    · intro hel e he
      unfold renderModelEvents at he
      rw [if_neg hel] at he
      split at he <;> simp at he
      exact he

/-- Claim C27 at the sample session: devices 1 and 2 share the model at address 0 and are
shown, device 1 has a valid pose and device 2 has none, and the slot of device 5 holds a
left-over pointer but the device is not shown.  Only device 1 is eligible, and the scene of
the left eye draws exactly one model, the one at address 0; while another process has captured
the input, device 1, a controller, is not eligible and no model is drawn. -/
theorem C27_witness :
    (∀ (w : List EVRRenderModelError × List EVRRenderModelError) (d : Nat),
      (sampleSystem.GetTrackedDeviceClass w d).1 =
        (sampleSystem.GetTrackedDeviceClass
          (([], []) : List EVRRenderModelError × List EVRRenderModelError) d).1) ∧
    (CMainApplication_RenderScene sampleSystem multiplyByIdentity sampleFrameMachine
      .Eye_Left).self = sampleFrameMachine.self ∧
    RenderEligible sampleFrameMachine.self false .TrackedDeviceClass_Controller 1 ∧
    ¬ RenderEligible sampleFrameMachine.self false .TrackedDeviceClass_Controller 2 ∧
    ¬ RenderEligible sampleFrameMachine.self false (.TrackedDeviceClass_Other 5) 5 ∧
    ¬ RenderEligible sampleFrameMachine.self true .TrackedDeviceClass_Controller 1 ∧
    (CMainApplication_RenderScene sampleSystem multiplyByIdentity sampleFrameMachine
      .Eye_Left).trace.filterMap (fun e =>
        match e with
        | Event.CGLRenderModel_Draw p => some p
        | _ => none) = [0] ∧
    (CMainApplication_RenderScene capturedSystem multiplyByIdentity sampleFrameMachine
      .Eye_Left).trace.filterMap (fun e =>
        match e with
        | Event.CGLRenderModel_Draw p => some p
        | _ => none) = [] :=
  ⟨fun _ d => by
      simp only [sampleSystem]
      split <;> rfl,
   (C27_render_eligibility sampleSystem multiplyByIdentity
      (fun d => (sampleSystem.GetTrackedDeviceClass
        (([], []) : List EVRRenderModelError × List EVRRenderModelError) d).1)
      (fun _ d => by
        simp only [sampleSystem]
        split <;> rfl)
      sampleFrameMachine .Eye_Left).1,
   by decide, by decide, by decide, by decide, by decide, by decide⟩

/-! ## The events of a frame -/

theorem grows_refl {P : Event → Prop} (a : List Event) :
    ∃ t, a = a ++ t ∧ ∀ e ∈ t, P e :=
  ⟨[], (List.append_nil a).symm, fun _ h => absurd h (List.not_mem_nil _)⟩

theorem grows_append {P : Event → Prop} (a t : List Event) (h : ∀ e ∈ t, P e) :
    ∃ t2, a ++ t = a ++ t2 ∧ ∀ e ∈ t2, P e :=
  ⟨t, rfl, h⟩

theorem grows_trans {P : Event → Prop} {a b c : List Event}
    (h1 : ∃ t, b = a ++ t ∧ ∀ e ∈ t, P e) (h2 : ∃ t, c = b ++ t ∧ ∀ e ∈ t, P e) :
    ∃ t, c = a ++ t ∧ ∀ e ∈ t, P e := by
  obtain ⟨t1, e1, p1⟩ := h1
  obtain ⟨t2, e2, p2⟩ := h2
  refine ⟨t1 ++ t2, by rw [e2, e1, List.append_assoc], ?_⟩
  intro e he
  rcases List.mem_append.1 he with h | h
  · exact p1 e h
  · exact p2 e h

theorem RenderControllerAxes_loop_grows (pHmd : VR_IVRSystem W) (n d v : Nat)
    (s : Machine W) :
    ∃ t, (RenderControllerAxes_loop pHmd n d v s).2.trace = s.trace ++ t ∧
      ∀ e ∈ t, e ≠ Event.WaitGetPoses := by
  induction n generalizing d v s with
  | zero => exact grows_refl _
  | succ n ih =>
    unfold RenderControllerAxes_loop
    split
    · simp only
      split
      · exact grows_trans (grows_append _ _ (by simp)) (ih _ _ _)
      · split
        · exact grows_trans (grows_trans (grows_append _ _ (by simp))
            (grows_append _ _ (by simp))) (ih _ _ _)
        · split
          · exact grows_trans (grows_trans (grows_append _ _ (by simp))
              (grows_append _ _ (by simp))) (ih _ _ _)
          · exact grows_trans (grows_trans (grows_append _ _ (by simp))
              (grows_append _ _ (by simp))) (ih _ _ _)
    · exact grows_refl _

theorem RenderControllerAxes_grows (pHmd : VR_IVRSystem W) (gl : GLDriver W)
    (s : Machine W) :
    ∃ t, (CMainApplication_RenderControllerAxes pHmd gl s).trace = s.trace ++ t ∧
      ∀ e ∈ t, e ≠ Event.WaitGetPoses := by
  unfold CMainApplication_RenderControllerAxes
  simp only
  split
  · exact grows_append _ _ (by simp)
  · have h1 : ∃ t, (RenderControllerAxes_loop pHmd k_unMaxTrackedDeviceCount
        (k_unTrackedDeviceIndex_Hmd + 1) 0
        { s with
          world := (pHmd.IsInputFocusCapturedByAnotherProcess s.world).2
          trace := s.trace ++ [.IsInputFocusCapturedByAnotherProcess]
          self := { s.self with
            m_uiControllerVertcount := 0
            m_iTrackedControllerCount := 0 } }).2.trace = s.trace ++ t ∧
        ∀ e ∈ t, e ≠ Event.WaitGetPoses :=
      grows_trans (grows_append _ _ (by simp)) (RenderControllerAxes_loop_grows pHmd _ _ _ _)
    split <;> split <;>
      simp only [Machine.emit, RenderControllerAxes_setup] <;>
      first
      | exact grows_trans (grows_trans h1 (grows_append _ _ (by simp)))
          (grows_trans (grows_append _ _ (by simp)) (grows_append _ _ (by simp)))
      | exact grows_trans (grows_trans h1 (grows_append _ _ (by simp)))
          (grows_append _ _ (by simp))
      | exact grows_trans h1 (grows_trans (grows_append _ _ (by simp))
          (grows_append _ _ (by simp)))
      | exact grows_trans h1 (grows_append _ _ (by simp))

theorem renderModelEvents_ne_WaitGetPoses
    (Matrix4_multiply_Matrix4 : Matrix4 → Matrix4 → Matrix4) (self : CMainApplication)
    (nEye : Hmd_Eye) (b : Bool) (cls : ETrackedDeviceClass)
    (i : Fin MAX_TRACKED_DEVICE_COUNT) :
    ∀ e ∈ renderModelEvents Matrix4_multiply_Matrix4 self nEye b cls i,
      e ≠ Event.WaitGetPoses := by
  intro e he hw
  subst hw
  unfold renderModelEvents at he
  rcases List.mem_append.1 he with h | h
  · split at h <;> simp at h
  · split at h
    · simp [CGLRenderModel_Draw_calls] at h
    · simp at h

theorem RenderScene_loop_grows (pHmd : VR_IVRSystem W)
    (Matrix4_multiply_Matrix4 : Matrix4 → Matrix4 → Matrix4) (nEye : Hmd_Eye) (b : Bool)
    (n d : Nat) (s : Machine W) :
    ∃ t, (RenderScene_loop pHmd Matrix4_multiply_Matrix4 nEye b n d s).trace = s.trace ++ t ∧
      ∀ e ∈ t, e ≠ Event.WaitGetPoses := by
  induction n generalizing d s with
  | zero => exact grows_refl _
  | succ n ih =>
    unfold RenderScene_loop
    split
    · rename_i h
      obtain ⟨_, _, b3⟩ := RenderScene_device_spec pHmd Matrix4_multiply_Matrix4 nEye b s
        ⟨d, h⟩
      exact grows_trans ⟨_, b3, renderModelEvents_ne_WaitGetPoses _ _ _ _ _ _⟩ (ih _ _)
    · exact grows_refl _

theorem RenderScene_grows (pHmd : VR_IVRSystem W)
    (Matrix4_multiply_Matrix4 : Matrix4 → Matrix4 → Matrix4) (s : Machine W)
    (nEye : Hmd_Eye) :
    ∃ t, (CMainApplication_RenderScene pHmd Matrix4_multiply_Matrix4 s nEye).trace =
        s.trace ++ t ∧ ∀ e ∈ t, e ≠ Event.WaitGetPoses := by
  unfold CMainApplication_RenderScene
  simp only [Machine.emit, Machine.emits]
  refine grows_trans (grows_trans ?_ (RenderScene_loop_grows pHmd _ _ _ _ _ _))
    (grows_append _ _ (by simp))
  split <;> split <;> simp only [RenderScene_cubes, RenderScene_axes] <;>
    first
    | exact grows_trans (grows_trans (grows_trans (grows_trans (grows_append _ _ (by simp))
        (grows_append _ _ (by simp))) (grows_append _ _ (by simp)))
        (grows_append _ _ (by simp))) (grows_append _ _ (by simp))
    | exact grows_trans (grows_trans (grows_trans (grows_append _ _ (by simp))
        (grows_append _ _ (by simp))) (grows_append _ _ (by simp)))
        (grows_append _ _ (by simp))
    | exact grows_trans (grows_trans (grows_append _ _ (by simp))
        (grows_append _ _ (by simp))) (grows_append _ _ (by simp))

theorem RenderStereoTargets_grows (pHmd : VR_IVRSystem W)
    (Matrix4_multiply_Matrix4 : Matrix4 → Matrix4 → Matrix4) (s : Machine W) :
    ∃ t, (CMainApplication_RenderStereoTargets pHmd Matrix4_multiply_Matrix4 s).trace =
        s.trace ++ t ∧ ∀ e ∈ t, e ≠ Event.WaitGetPoses := by
  unfold CMainApplication_RenderStereoTargets
  simp only [Machine.emits]
  exact grows_trans (grows_trans (grows_trans (grows_trans
    (grows_append _ _ (by simp [RenderStereoTargets_begin]))
    (RenderScene_grows pHmd _ _ _))
    (grows_append _ _ (by simp [RenderStereoTargets_resolve])))
    (RenderScene_grows pHmd _ _ _))
    (grows_append _ _ (by simp [RenderStereoTargets_resolve]))

theorem RenderFrame_render_grows (pHmd : VR_IVRSystem W) (gl : GLDriver W)
    (Matrix4_multiply_Matrix4 : Matrix4 → Matrix4 → Matrix4) (s : Machine W) :
    ∃ t, (RenderFrame_render pHmd gl Matrix4_multiply_Matrix4 s).trace = s.trace ++ t ∧
      ∀ e ∈ t, e ≠ Event.WaitGetPoses := by
  unfold RenderFrame_render CMainApplication_RenderCompanionWindow
  simp only [Machine.emits]
  exact grows_trans (grows_trans (RenderControllerAxes_grows pHmd gl s)
    (RenderStereoTargets_grows pHmd _ _))
    (grows_append _ _ (by simp [RenderCompanionWindow_calls]))

theorem RenderFrame_present_grows (s : Machine W) :
    ∃ t, (RenderFrame_present s).trace = s.trace ++ t ∧ ∀ e ∈ t, e ≠ Event.WaitGetPoses := by
  unfold RenderFrame_present
  simp only [Machine.emit, Machine.emits, dprintf]
  split <;> split <;> split <;>
    first
    | exact grows_trans (grows_trans (grows_trans (grows_append _ _ (by simp))
        (grows_append _ _ (by simp))) (grows_append _ _ (by simp)))
        (grows_append _ _ (by simp))
    | exact grows_trans (grows_trans (grows_append _ _ (by simp))
        (grows_append _ _ (by simp))) (grows_append _ _ (by simp))
    | exact grows_trans (grows_append _ _ (by simp)) (grows_append _ _ (by simp))
    | exact grows_append _ _ (by simp)

/-! ## The events of the pose refresh -/

theorem UpdateHMDMatrixPose_body_trace (pHmd : VR_IVRSystem W) (s : Machine W)
    (i : Fin MAX_TRACKED_DEVICE_COUNT) :
    ∃ t, (UpdateHMDMatrixPose_body pHmd s i).trace = s.trace ++ t ∧
      ∀ e ∈ t, ∃ d, e = Event.GetTrackedDeviceClass d := by
  unfold UpdateHMDMatrixPose_body
  simp only
  split
  · exact grows_append _ _ (by simp)
  · exact grows_refl _

theorem UpdateHMDMatrixPose_loop_trace (pHmd : VR_IVRSystem W) (n d : Nat) (s : Machine W) :
    ∃ t, (UpdateHMDMatrixPose_loop pHmd n d s).trace = s.trace ++ t ∧
      ∀ e ∈ t, ∃ d, e = Event.GetTrackedDeviceClass d := by
  induction n generalizing d s with
  | zero => exact grows_refl _
  | succ n ih =>
    unfold UpdateHMDMatrixPose_loop
    split
    · split
      · exact grows_trans (UpdateHMDMatrixPose_body_trace pHmd s _) (ih _ _)
      · exact ih _ _
    · exact grows_refl _

/-- The events of a refresh with an HMD: one `WaitGetPoses`, then only class queries. -/
theorem UpdateHMDMatrixPose_trace (pHmd : VR_IVRSystem W) (m_pCompositor : VR_IVRCompositor W)
    (Matrix4_invert : Matrix4 → Matrix4) (s : Machine W) :
    ∃ post, (CMainApplication_UpdateHMDMatrixPose (some pHmd) m_pCompositor Matrix4_invert
        s).trace = s.trace ++ Event.WaitGetPoses :: post ∧
      ∀ e ∈ post, ∃ d, e = Event.GetTrackedDeviceClass d := by
  obtain ⟨post, h, hp⟩ := UpdateHMDMatrixPose_loop_trace pHmd k_unMaxTrackedDeviceCount 0
    { s with
      world := (m_pCompositor.WaitGetPoses s.world s.self.m_rTrackedDevicePose).2
      trace := s.trace ++ [.WaitGetPoses]
      self := { s.self with
        m_rTrackedDevicePose :=
          (m_pCompositor.WaitGetPoses s.world s.self.m_rTrackedDevicePose).1
        m_iValidPoseCount := 0
        m_strPoseClasses := { base := [], offset := 0 } } }
  refine ⟨post, ?_, hp⟩
  unfold CMainApplication_UpdateHMDMatrixPose
  simp only
  split
  · simp only [h, List.append_assoc, List.singleton_append]
  · simp only [h, List.append_assoc, List.singleton_append]

set_option maxRecDepth 100000 in
/-- Claim C25, as stated, fails: in the first frame of the sample session, whose two
controllers have been assigned their model, the one `WaitGetPoses` of the frame comes after the
draw calls of the scene and after the submission of both eye images, not before the rendering
step.  The first frame is therefore rendered with the poses the struct held before any refresh
(none valid, so no model is drawn although the compositor has a valid pose for device 1), and
the second frame draws the model of device 1 for both eyes with the poses fetched at the end of
the first. -/
theorem C25_counterexample :
    ((CMainApplication_RenderFrame (some sampleSystem) (sampleCompositor samplePoses) sampleGL
      multiplyByIdentity translationInvert
      ((runOperations sampleSystem scriptedRuntime sampleGL (sampleCompositor samplePoses)
        translationInvert 1 [.assign 1, .assign 2]
        (freshMachine [] [])).machine?.getD (freshMachine [] []))).trace.drop 37).count
        Event.WaitGetPoses = 1 ∧
    ((CMainApplication_RenderFrame (some sampleSystem) (sampleCompositor samplePoses) sampleGL
      multiplyByIdentity translationInvert
      ((runOperations sampleSystem scriptedRuntime sampleGL (sampleCompositor samplePoses)
        translationInvert 1 [.assign 1, .assign 2]
        (freshMachine [] [])).machine?.getD (freshMachine [] []))).trace.drop 37).indexOf
        (Event.gl "glDrawArrays") <
      ((CMainApplication_RenderFrame (some sampleSystem) (sampleCompositor samplePoses) sampleGL
        multiplyByIdentity translationInvert
        ((runOperations sampleSystem scriptedRuntime sampleGL (sampleCompositor samplePoses)
          translationInvert 1 [.assign 1, .assign 2]
          (freshMachine [] [])).machine?.getD (freshMachine [] []))).trace.drop 37).indexOf
          Event.WaitGetPoses ∧
    ((CMainApplication_RenderFrame (some sampleSystem) (sampleCompositor samplePoses) sampleGL
      multiplyByIdentity translationInvert
      ((runOperations sampleSystem scriptedRuntime sampleGL (sampleCompositor samplePoses)
        translationInvert 1 [.assign 1, .assign 2]
        (freshMachine [] [])).machine?.getD (freshMachine [] []))).trace.drop 37).indexOf
        (Event.Submit .Eye_Right) <
      ((CMainApplication_RenderFrame (some sampleSystem) (sampleCompositor samplePoses) sampleGL
        multiplyByIdentity translationInvert
        ((runOperations sampleSystem scriptedRuntime sampleGL (sampleCompositor samplePoses)
          translationInvert 1 [.assign 1, .assign 2]
          (freshMachine [] [])).machine?.getD (freshMachine [] []))).trace.drop 37).indexOf
          Event.WaitGetPoses ∧
    ((runOperations sampleSystem scriptedRuntime sampleGL (sampleCompositor samplePoses)
      translationInvert 1 [.assign 1, .assign 2]
      (freshMachine [] [])).machine?.getD (freshMachine [] [])).trace.length = 37 ∧
    (CMainApplication_RenderFrame (some sampleSystem) (sampleCompositor samplePoses) sampleGL
      multiplyByIdentity translationInvert
      ((runOperations sampleSystem scriptedRuntime sampleGL (sampleCompositor samplePoses)
        translationInvert 1 [.assign 1, .assign 2]
        (freshMachine [] [])).machine?.getD (freshMachine [] []))).trace.filterMap (fun e =>
        match e with
        | Event.CGLRenderModel_Draw p => some p
        | _ => none) = [] ∧
    (CMainApplication_RenderFrame (some sampleSystem) (sampleCompositor samplePoses) sampleGL
      multiplyByIdentity translationInvert
      (CMainApplication_RenderFrame (some sampleSystem) (sampleCompositor samplePoses) sampleGL
        multiplyByIdentity translationInvert
        ((runOperations sampleSystem scriptedRuntime sampleGL (sampleCompositor samplePoses)
          translationInvert 1 [.assign 1, .assign 2]
          (freshMachine [] [])).machine?.getD (freshMachine [] [])))).trace.filterMap (fun e =>
        match e with
        | Event.CGLRenderModel_Draw p => some p
        | _ => none) = [0, 0] := by
  refine ⟨?_, ?_, ?_, ?_, ?_, ?_⟩ <;> decide

/-! ## The poses during a frame -/

theorem RenderScene_loop_self (pHmd : VR_IVRSystem W)
    (Matrix4_multiply_Matrix4 : Matrix4 → Matrix4 → Matrix4) (nEye : Hmd_Eye) (b : Bool)
    (n d : Nat) (s : Machine W) :
    (RenderScene_loop pHmd Matrix4_multiply_Matrix4 nEye b n d s).self = s.self := by
  induction n generalizing d s with
  | zero => rfl
  | succ n ih =>
    unfold RenderScene_loop
    split
    · rename_i h
      exact (ih _ _).trans
        (RenderScene_device_spec pHmd Matrix4_multiply_Matrix4 nEye b s ⟨d, h⟩).1
    · rfl

theorem RenderScene_self (pHmd : VR_IVRSystem W)
    (Matrix4_multiply_Matrix4 : Matrix4 → Matrix4 → Matrix4) (s : Machine W)
    (nEye : Hmd_Eye) :
    (CMainApplication_RenderScene pHmd Matrix4_multiply_Matrix4 s nEye).self = s.self := by
  unfold CMainApplication_RenderScene
  simp only [Machine.emit, Machine.emits]
  rw [RenderScene_loop_self]
  split <;> split <;> rfl

theorem RenderStereoTargets_self (pHmd : VR_IVRSystem W)
    (Matrix4_multiply_Matrix4 : Matrix4 → Matrix4 → Matrix4) (s : Machine W) :
    (CMainApplication_RenderStereoTargets pHmd Matrix4_multiply_Matrix4 s).self = s.self := by
  unfold CMainApplication_RenderStereoTargets
  simp only [Machine.emits]
  rw [RenderScene_self, RenderScene_self]

/-- The loop of `CMainApplication_RenderControllerAxes` writes no pose. -/
theorem RenderControllerAxes_loop_poses (pHmd : VR_IVRSystem W) (n d v : Nat)
    (s : Machine W) :
    (RenderControllerAxes_loop pHmd n d v s).2.self.m_rTrackedDevicePose =
        s.self.m_rTrackedDevicePose ∧
      (RenderControllerAxes_loop pHmd n d v s).2.self.m_rmat4DevicePose =
        s.self.m_rmat4DevicePose ∧
      (RenderControllerAxes_loop pHmd n d v s).2.self.m_mat4HMDPose =
        s.self.m_mat4HMDPose := by
  induction n generalizing d v s with
  | zero => exact ⟨rfl, rfl, rfl⟩
  | succ n ih =>
    unfold RenderControllerAxes_loop
    split
    · simp only
      split
      · exact ih _ _ _
      · split
        · exact ih _ _ _
        · split
          · exact ih _ _ _
          · exact ih _ _ _
    · exact ⟨rfl, rfl, rfl⟩

/-- The routine `CMainApplication_RenderControllerAxes` writes no pose. -/
theorem RenderControllerAxes_poses (pHmd : VR_IVRSystem W) (gl : GLDriver W)
    (s : Machine W) :
    (CMainApplication_RenderControllerAxes pHmd gl s).self.m_rTrackedDevicePose =
        s.self.m_rTrackedDevicePose ∧
      (CMainApplication_RenderControllerAxes pHmd gl s).self.m_rmat4DevicePose =
        s.self.m_rmat4DevicePose ∧
      (CMainApplication_RenderControllerAxes pHmd gl s).self.m_mat4HMDPose =
        s.self.m_mat4HMDPose := by
  unfold CMainApplication_RenderControllerAxes
  simp only
  split
  · exact ⟨rfl, rfl, rfl⟩
  · have h1 := RenderControllerAxes_loop_poses pHmd k_unMaxTrackedDeviceCount
      (k_unTrackedDeviceIndex_Hmd + 1) 0
      { s with
        world := (pHmd.IsInputFocusCapturedByAnotherProcess s.world).2
        trace := s.trace ++ [.IsInputFocusCapturedByAnotherProcess]
        self := { s.self with
          m_uiControllerVertcount := 0
          m_iTrackedControllerCount := 0 } }
    split <;> split <;> simp only [Machine.emit] <;> exact h1

/-- The rendering step of a frame writes no pose. -/
theorem RenderFrame_render_poses (pHmd : VR_IVRSystem W) (gl : GLDriver W)
    (Matrix4_multiply_Matrix4 : Matrix4 → Matrix4 → Matrix4) (s : Machine W) :
    (RenderFrame_render pHmd gl Matrix4_multiply_Matrix4 s).self.m_rTrackedDevicePose =
        s.self.m_rTrackedDevicePose ∧
      (RenderFrame_render pHmd gl Matrix4_multiply_Matrix4 s).self.m_rmat4DevicePose =
        s.self.m_rmat4DevicePose ∧
      (RenderFrame_render pHmd gl Matrix4_multiply_Matrix4 s).self.m_mat4HMDPose =
        s.self.m_mat4HMDPose := by
  unfold RenderFrame_render CMainApplication_RenderCompanionWindow
  simp only [Machine.emits]
  rw [RenderStereoTargets_self]
  exact RenderControllerAxes_poses pHmd gl s

/-- The step between the submission and the refresh writes no pose. -/
theorem RenderFrame_present_poses (s : Machine W) :
    (RenderFrame_present s).self.m_rTrackedDevicePose = s.self.m_rTrackedDevicePose ∧
      (RenderFrame_present s).self.m_rmat4DevicePose = s.self.m_rmat4DevicePose ∧
      (RenderFrame_present s).self.m_mat4HMDPose = s.self.m_mat4HMDPose := by
  unfold RenderFrame_present
  simp only [Machine.emit, Machine.emits, dprintf]
  split <;> split <;> split <;> exact ⟨rfl, rfl, rfl⟩

/-- The events of the step between the submission and the refresh: the window swap exactly
once, and no `WaitGetPoses`. -/
theorem RenderFrame_present_swap (s : Machine W) :
    ∃ mid1 mid2, (RenderFrame_present s).trace =
        s.trace ++ mid1 ++ [Event.SDL_GL_SwapWindow] ++ mid2 ∧
      (∀ e ∈ mid1, e ≠ Event.WaitGetPoses ∧ e ≠ Event.SDL_GL_SwapWindow) ∧
      (∀ e ∈ mid2, e ≠ Event.WaitGetPoses ∧ e ≠ Event.SDL_GL_SwapWindow) := by
  unfold RenderFrame_present
  simp only [Machine.emit, Machine.emits, dprintf]
  split <;> split <;> split
  · exact ⟨[.gl "glFinish"], [.gl "glClearColor", .gl "glClear", .gl "glFlush", .gl "glFinish",
      .dprintf "PoseCount:%d(%s) Controllers:%d"], by simp, by simp, by simp⟩
  · exact ⟨[.gl "glFinish"], [.gl "glClearColor", .gl "glClear", .gl "glFlush", .gl "glFinish"],
      by simp, by simp, by simp⟩
  · exact ⟨[.gl "glFinish"], [.gl "glClearColor", .gl "glClear",
      .dprintf "PoseCount:%d(%s) Controllers:%d"], by simp, by simp, by simp⟩
  · exact ⟨[.gl "glFinish"], [.gl "glClearColor", .gl "glClear"], by simp, by simp, by simp⟩
  · exact ⟨[], [.gl "glClearColor", .gl "glClear", .gl "glFlush", .gl "glFinish",
      .dprintf "PoseCount:%d(%s) Controllers:%d"], by simp, by simp, by simp⟩
  · exact ⟨[], [.gl "glClearColor", .gl "glClear", .gl "glFlush", .gl "glFinish"],
      by simp, by simp, by simp⟩
  · exact ⟨[], [.gl "glClearColor", .gl "glClear",
      .dprintf "PoseCount:%d(%s) Controllers:%d"], by simp, by simp, by simp⟩
  · exact ⟨[], [.gl "glClearColor", .gl "glClear"], by simp, by simp, by simp⟩

/-- Claim C25, amended: in every execution of `CMainApplication_RenderFrame` with an HMD
present the events of the frame are, in this order: the events `r` of the rendering step
(controller axes, both eyes, companion window) run on the machine as it is on entry to the
frame, the submission of the left and of the right eye image, events `mid1`, the window swap
`SDL_GL_SwapWindow`, events `mid2` (clearing the window, printing the counts), then
`WaitGetPoses` exactly once, and after it only device class queries of the refresh; neither
`r` nor `mid1` nor `mid2` holds a `WaitGetPoses`.  So the pose refresh is invoked exactly once
per frame, after that frame's rendering step, after both submissions and after the window
swap, and not before the rendering step.  Up to the refresh the frame leaves the pose array,
the device pose matrices and the HMD pose as they were on entry; the refresh stores the poses
that `WaitGetPoses` returns, and the rendering step of a frame that starts from the machine
this frame leaves behind finds these poses and leaves them in place. -/
theorem C25_frame_ordering_amended (pHmd : VR_IVRSystem W)
    (m_pCompositor : VR_IVRCompositor W) (gl : GLDriver W)
    (Matrix4_multiply_Matrix4 : Matrix4 → Matrix4 → Matrix4)
    (Matrix4_invert : Matrix4 → Matrix4) (s : Machine W) :
    (∃ r mid1 mid2 post,
      (RenderFrame_render pHmd gl Matrix4_multiply_Matrix4 s).trace = s.trace ++ r ∧
      (CMainApplication_RenderFrame (some pHmd) m_pCompositor gl Matrix4_multiply_Matrix4
          Matrix4_invert s).trace =
        s.trace ++ r ++ [Event.Submit .Eye_Left, Event.Submit .Eye_Right] ++ mid1 ++
          [Event.SDL_GL_SwapWindow] ++ mid2 ++ [Event.WaitGetPoses] ++ post ∧
      (∀ e ∈ r, e ≠ Event.WaitGetPoses) ∧
      (∀ e ∈ mid1, e ≠ Event.WaitGetPoses ∧ e ≠ Event.SDL_GL_SwapWindow) ∧
      (∀ e ∈ mid2, e ≠ Event.WaitGetPoses ∧ e ≠ Event.SDL_GL_SwapWindow) ∧
      (∀ e ∈ post, ∃ d, e = Event.GetTrackedDeviceClass d) ∧
      List.count Event.WaitGetPoses
        (r ++ [Event.Submit .Eye_Left, Event.Submit .Eye_Right] ++ mid1 ++
          [Event.SDL_GL_SwapWindow] ++ mid2 ++ [Event.WaitGetPoses] ++ post) = 1) ∧
    ((RenderFrame_present
        (Submit m_pCompositor
          (Submit m_pCompositor (RenderFrame_render pHmd gl Matrix4_multiply_Matrix4 s)
            .Eye_Left)
          .Eye_Right)).self.m_rTrackedDevicePose = s.self.m_rTrackedDevicePose ∧
      (RenderFrame_present
        (Submit m_pCompositor
          (Submit m_pCompositor (RenderFrame_render pHmd gl Matrix4_multiply_Matrix4 s)
            .Eye_Left)
          .Eye_Right)).self.m_rmat4DevicePose = s.self.m_rmat4DevicePose ∧
      (RenderFrame_present
        (Submit m_pCompositor
          (Submit m_pCompositor (RenderFrame_render pHmd gl Matrix4_multiply_Matrix4 s)
            .Eye_Left)
          .Eye_Right)).self.m_mat4HMDPose = s.self.m_mat4HMDPose) ∧
    (CMainApplication_RenderFrame (some pHmd) m_pCompositor gl Matrix4_multiply_Matrix4
        Matrix4_invert s).self.m_rTrackedDevicePose =
      (m_pCompositor.WaitGetPoses
        (RenderFrame_present
          (Submit m_pCompositor
            (Submit m_pCompositor (RenderFrame_render pHmd gl Matrix4_multiply_Matrix4 s)
              .Eye_Left)
            .Eye_Right)).world s.self.m_rTrackedDevicePose).1 ∧
    (RenderFrame_render pHmd gl Matrix4_multiply_Matrix4
        (CMainApplication_RenderFrame (some pHmd) m_pCompositor gl Matrix4_multiply_Matrix4
          Matrix4_invert s)).self.m_rTrackedDevicePose =
      (CMainApplication_RenderFrame (some pHmd) m_pCompositor gl Matrix4_multiply_Matrix4
        Matrix4_invert s).self.m_rTrackedDevicePose := by
  obtain ⟨r, hr, hrP⟩ := RenderFrame_render_grows pHmd gl Matrix4_multiply_Matrix4 s
  obtain ⟨mid1, mid2, hmid, hmid1P, hmid2P⟩ := RenderFrame_present_swap
    (Submit m_pCompositor
      (Submit m_pCompositor (RenderFrame_render pHmd gl Matrix4_multiply_Matrix4 s) .Eye_Left)
      .Eye_Right)
  obtain ⟨post, hpost, hpostP⟩ := UpdateHMDMatrixPose_trace pHmd m_pCompositor Matrix4_invert
    (RenderFrame_present
      (Submit m_pCompositor
        (Submit m_pCompositor (RenderFrame_render pHmd gl Matrix4_multiply_Matrix4 s)
          .Eye_Left)
        .Eye_Right))
  obtain ⟨p1, p2, p3⟩ := RenderFrame_present_poses
    (Submit m_pCompositor
      (Submit m_pCompositor (RenderFrame_render pHmd gl Matrix4_multiply_Matrix4 s) .Eye_Left)
      .Eye_Right)
  obtain ⟨q1, q2, q3⟩ := RenderFrame_render_poses pHmd gl Matrix4_multiply_Matrix4 s
  have hpre : (RenderFrame_present
      (Submit m_pCompositor
        (Submit m_pCompositor (RenderFrame_render pHmd gl Matrix4_multiply_Matrix4 s)
          .Eye_Left)
        .Eye_Right)).self.m_rTrackedDevicePose = s.self.m_rTrackedDevicePose :=
    p1.trans q1
  refine ⟨⟨r, mid1, mid2, post, hr, ?_, hrP, hmid1P, hmid2P, hpostP, ?_⟩,
    ⟨hpre, p2.trans q2, p3.trans q3⟩, ?_,
    (RenderFrame_render_poses pHmd gl Matrix4_multiply_Matrix4 _).1⟩
  · unfold CMainApplication_RenderFrame
    simp only
    rw [hpost, hmid]
    simp only [Submit, hr, List.append_assoc, List.singleton_append, List.cons_append,
      List.nil_append]
  · have h1 : List.count Event.WaitGetPoses r = 0 :=
      List.count_eq_zero.2 fun h => hrP _ h rfl
    have h2 : List.count Event.WaitGetPoses mid1 = 0 :=
      List.count_eq_zero.2 fun h => (hmid1P _ h).1 rfl
    have h2b : List.count Event.WaitGetPoses mid2 = 0 :=
      List.count_eq_zero.2 fun h => (hmid2P _ h).1 rfl
    have h3 : List.count Event.WaitGetPoses post = 0 :=
      List.count_eq_zero.2 fun h => by
        obtain ⟨d, hd⟩ := hpostP _ h
        exact Event.noConfusion hd
    simp only [List.count_append, h1, h2, h2b, h3]
    decide
  · have h := UpdateHMDMatrixPose_poses pHmd m_pCompositor Matrix4_invert
      (RenderFrame_present
        (Submit m_pCompositor
          (Submit m_pCompositor (RenderFrame_render pHmd gl Matrix4_multiply_Matrix4 s)
            .Eye_Left)
          .Eye_Right))
    rw [hpre] at h
    exact h


/-- The vertex count that `CGLRenderModel_BInit` stores is negative for a model of `2^30`
triangles: the product `3 * 2^30` does not fit the signed `GLsizei`. -/
theorem GLsizei_of_uint32_wraps :
    GLsizei_of_uint32 ((2 ^ 30 * 3) % 2 ^ 32) = -1073741824 ∧
      GLsizei_of_uint32 ((12 * 3) % 2 ^ 32) = 36 := by
  constructor <;> norm_num [GLsizei_of_uint32]

end HelloVR
